import Mathlib

/-!
# BioCro module library: registry, catalog and two steady modules

A shallow embedding of

* `src/module_library/module_wrapper_factory.cpp`
  (`create`, `module_wrapper_creators`, `get_modules`, `get_all_quantities`),
* `src/module_library/gaussian_solar.hpp`,
* `src/module_library/oscillator_clock_calculator_sk.hpp`.

Conventions of the embedding.

* `std::string` is a Lean `String`; a `char` is compared through its code
  (`Char.toNat`), which for the ASCII names of the library is the byte value.
* A thrown C++ exception is the `error` branch of `Except exception`.
* A `std::unordered_map` is an association list; the order of the list is the
  order in which the map enumerates its entries.  That order is not fixed by
  the language, so wherever the code iterates over the registry the order is
  an explicit argument.
* The headers of twenty-two of the registered module classes are not among
  the sources; their static `get_inputs` / `get_outputs` lists are collected
  in the argument `module_headers`.
* The calculations of the two modules are embedded twice: over an ordered
  field, for the properties that do not depend on floating point arithmetic,
  and over the binary64 format of IEEE 754 (`double`, `calculations_double`,
  `do_operation_double`), for the properties of the computed values.  The
  functions of the C library (`exp`, `sin`, `sqrt`) and the absent helper
  `range_adjusted_atan2` are arguments; what a theorem needs of them is a
  hypothesis.
-/

namespace biocro

/-! ## Exceptions -/

/-- The exceptions thrown by the embedded code: `std::out_of_range` with its
`what()` string, the error raised when a quantity is absent from a parameter
map, and `std::bad_alloc`, which a `new` expression throws when the
allocation fails. -/
inductive exception where
  | out_of_range (what : String)
  | quantity_not_found (name : String)
  | bad_alloc
  deriving DecidableEq, Repr

/-! ## Module classes and wrappers -/

/-- The static interface of a module class `T`: `T::get_inputs()` and
`T::get_outputs()`. -/
structure module_class where
  get_inputs : List String
  get_outputs : List String
  deriving DecidableEq, Repr

/-- The object behind a `std::unique_ptr<module_wrapper_base>`: it reports
the inputs and the outputs of the module class it wraps. -/
structure module_wrapper_base where
  get_inputs : List String
  get_outputs : List String
  deriving DecidableEq, Repr

/-- Modelled from the spec: the class template `module_wrapper<T>` (declared
in `module_wrapper.h`, which is not among the sources).  An instance reports
exactly the statically declared lists of `T`. -/
def module_wrapper (T : module_class) : module_wrapper_base :=
  { get_inputs := T.get_inputs, get_outputs := T.get_outputs }

/-- The static member function `gaussian_solar::get_inputs`. -/
def gaussian_solar.get_inputs : List String :=
  ["doy_dbl",
   "target_doy_dbl",
   "new_dl"]

/-- The static member function `gaussian_solar::get_outputs`. -/
def gaussian_solar.get_outputs : List String :=
  ["solar"]

/-- The static member function `oscillator_clock_calculator_sk::get_inputs`. -/
def oscillator_clock_calculator_sk.get_inputs : List String :=
  ["doy_dbl",
   "kick_strength",
   "kick_start",
   "kick_end",
   "dawn_b",
   "dawn_a",
   "dusk_b",
   "dusk_a",
   "ref_b",
   "ref_a"]

/-- The static member function `oscillator_clock_calculator_sk::get_outputs`. -/
def oscillator_clock_calculator_sk.get_outputs : List String :=
  ["dawn_kick",
   "dusk_kick",
   "dawn_phase",
   "dusk_phase",
   "ref_phase",
   "dawn_radius",
   "dusk_radius",
   "ref_radius",
   "day_length",
   "night_length",
   "sunrise",
   "sunset"]

/-- The class `gaussian_solar` as a template argument. -/
def gaussian_solar_class : module_class :=
  { get_inputs := gaussian_solar.get_inputs, get_outputs := gaussian_solar.get_outputs }

/-- The class `oscillator_clock_calculator_sk` as a template argument. -/
def oscillator_clock_calculator_sk_class : module_class :=
  { get_inputs := oscillator_clock_calculator_sk.get_inputs
    get_outputs := oscillator_clock_calculator_sk.get_outputs }

/-- The module classes registered in `module_wrapper_creators` whose headers
are not among the sources.  Nothing is assumed about their lists. -/
structure module_headers where
  grimm_soybean_flowering : module_class
  grimm_soybean_flowering_calculator : module_class
  harmonic_energy : module_class
  harmonic_oscillator : module_class
  incident_shortwave_from_ground_par : module_class
  light_macro_environment : module_class
  light_from_solar : module_class
  magic_clock : module_class
  Module_1 : module_class
  Module_2 : module_class
  Module_3 : module_class
  night_and_day_trackers : module_class
  oscillator_clock_calculator : module_class
  phase_clock : module_class
  poincare_clock : module_class
  pokhilko_circadian_clock : module_class
  shortwave_atmospheric_scattering : module_class
  thermal_time_beta : module_class
  thermal_time_bilinear : module_class
  thermal_time_linear : module_class
  thermal_time_linear_extended : module_class
  thermal_time_trilinear : module_class

/-! ## The registry and `create` -/

/-- The function template `create_wrapper<T>`: a function of no argument that
returns a new `module_wrapper<T>`. -/
def create_wrapper (T : module_class) : Unit → module_wrapper_base :=
  fun _ => module_wrapper T

/-- The type `module_wrapper_creator_map`: module name to creator function. -/
abbrev module_wrapper_creator_map := List (String × (Unit → module_wrapper_base))

/-- The initialiser of `module_wrapper_factory::module_wrapper_creators`, in
the order of the source. -/
def module_wrapper_creators (h : module_headers) : module_wrapper_creator_map :=
  [ ("gaussian_solar", create_wrapper gaussian_solar_class),
    ("grimm_soybean_flowering", create_wrapper h.grimm_soybean_flowering),
    ("grimm_soybean_flowering_calculator", create_wrapper h.grimm_soybean_flowering_calculator),
    ("harmonic_energy", create_wrapper h.harmonic_energy),
    ("harmonic_oscillator", create_wrapper h.harmonic_oscillator),
    ("incident_shortwave_from_ground_par", create_wrapper h.incident_shortwave_from_ground_par),
    ("light_macro_environment", create_wrapper h.light_macro_environment),
    ("light_from_solar", create_wrapper h.light_from_solar),
    ("magic_clock", create_wrapper h.magic_clock),
    ("Module_1", create_wrapper h.Module_1),
    ("Module_2", create_wrapper h.Module_2),
    ("Module_3", create_wrapper h.Module_3),
    ("night_and_day_trackers", create_wrapper h.night_and_day_trackers),
    ("oscillator_clock_calculator", create_wrapper h.oscillator_clock_calculator),
    ("oscillator_clock_calculator_sk", create_wrapper oscillator_clock_calculator_sk_class),
    ("phase_clock", create_wrapper h.phase_clock),
    ("poincare_clock", create_wrapper h.poincare_clock),
    ("pokhilko_circadian_clock", create_wrapper h.pokhilko_circadian_clock),
    ("shortwave_atmospheric_scattering", create_wrapper h.shortwave_atmospheric_scattering),
    ("thermal_time_beta", create_wrapper h.thermal_time_beta),
    ("thermal_time_bilinear", create_wrapper h.thermal_time_bilinear),
    ("thermal_time_linear", create_wrapper h.thermal_time_linear),
    ("thermal_time_linear_extended", create_wrapper h.thermal_time_linear_extended),
    ("thermal_time_trilinear", create_wrapper h.thermal_time_trilinear) ]

/-- The 24 keys of `module_wrapper_creators`, in the order of the source. -/
def registered_names : List String :=
  [ "gaussian_solar", "grimm_soybean_flowering", "grimm_soybean_flowering_calculator",
    "harmonic_energy", "harmonic_oscillator", "incident_shortwave_from_ground_par",
    "light_macro_environment", "light_from_solar", "magic_clock", "Module_1",
    "Module_2", "Module_3", "night_and_day_trackers", "oscillator_clock_calculator",
    "oscillator_clock_calculator_sk", "phase_clock", "poincare_clock",
    "pokhilko_circadian_clock", "shortwave_atmospheric_scattering", "thermal_time_beta",
    "thermal_time_bilinear", "thermal_time_linear", "thermal_time_linear_extended",
    "thermal_time_trilinear" ]

/-- The template argument of `create_wrapper` on each line of the initialiser
of `module_wrapper_creators`: the module class registered under each name. -/
def registered_modules (h : module_headers) : List (String × module_class) :=
  [ ("gaussian_solar", gaussian_solar_class),
    ("grimm_soybean_flowering", h.grimm_soybean_flowering),
    ("grimm_soybean_flowering_calculator", h.grimm_soybean_flowering_calculator),
    ("harmonic_energy", h.harmonic_energy),
    ("harmonic_oscillator", h.harmonic_oscillator),
    ("incident_shortwave_from_ground_par", h.incident_shortwave_from_ground_par),
    ("light_macro_environment", h.light_macro_environment),
    ("light_from_solar", h.light_from_solar),
    ("magic_clock", h.magic_clock),
    ("Module_1", h.Module_1),
    ("Module_2", h.Module_2),
    ("Module_3", h.Module_3),
    ("night_and_day_trackers", h.night_and_day_trackers),
    ("oscillator_clock_calculator", h.oscillator_clock_calculator),
    ("oscillator_clock_calculator_sk", oscillator_clock_calculator_sk_class),
    ("phase_clock", h.phase_clock),
    ("poincare_clock", h.poincare_clock),
    ("pokhilko_circadian_clock", h.pokhilko_circadian_clock),
    ("shortwave_atmospheric_scattering", h.shortwave_atmospheric_scattering),
    ("thermal_time_beta", h.thermal_time_beta),
    ("thermal_time_bilinear", h.thermal_time_bilinear),
    ("thermal_time_linear", h.thermal_time_linear),
    ("thermal_time_linear_extended", h.thermal_time_linear_extended),
    ("thermal_time_trilinear", h.thermal_time_trilinear) ]

/-- The member function `std::unordered_map::at`: the value stored under
`key`, or `std::out_of_range` when there is none.  The text of the standard
library's message is not fixed by the language; it is the argument `what`. -/
def map_at {V : Type} (what : String) (m : List (String × V)) (key : String) :
    Except exception V :=
  match m.lookup key with
  | some v => .ok v
  | none => .error (.out_of_range what)

/-- The function `module_wrapper_factory::create`.  The `try` block looks the
name up and calls the creator; the handler `catch (std::out_of_range)`
replaces the exception by one that carries the message built from the
name. -/
def create (h : module_headers) (what : String) (module_name : String) :
    Except exception module_wrapper_base :=
  match (map_at what (module_wrapper_creators h) module_name).map (fun f => f ()) with
  | .ok w => .ok w
  | .error (.out_of_range _) =>
      let message := "\"" ++ module_name ++
                     "\"" ++
                     " was given as a module name, " ++
                     "but no module with that name could be found.\n"
      .error (.out_of_range message)
  | .error e => .error e

/-! ## `get_modules` -/

/-- The function `std::tolower` on an `unsigned char`, in the "C" locale: the
letters `A` to `Z` (codes 65 to 90) are moved to `a` to `z`, every other
character is returned as it is. -/
def tolower (c : Char) : Char :=
  if 65 ≤ c.toNat ∧ c.toNat ≤ 90 then Char.ofNat (c.toNat + 32) else c

/-- The member function `std::string::compare`: the lexicographic comparison
of the character codes, a proper prefix being smaller.  Only the sign of the
result is fixed by the language; the model returns `-1`, `0` or `1`. -/
def string_compare : List Char → List Char → Int
  | [], [] => 0
  | [], _ :: _ => -1
  | _ :: _, [] => 1
  | a :: as, b :: bs =>
      if a.toNat < b.toNat then -1
      else if b.toNat < a.toNat then 1
      else string_compare as bs

/-- The lambda `case_insensitive_compare` of `get_modules`: lowercase copies
of both arguments are compared, and the answer is `false` exactly when the
comparison is positive. -/
def case_insensitive_compare (a b : String) : Bool :=
  let al := a.data.map tolower
  let bl := b.data.map tolower
  let compare := string_compare al bl
  if compare > 0 then false else true

/-- The algorithm `std::sort(first, last, comp)`.  The language does not fix
the algorithm; the model is the insertion sort that places every element
before the first element `y` of the sorted rest for which `comp x y` holds. -/
def std_sort {α : Type} (comp : α → α → Bool) (v : List α) : List α :=
  v.insertionSort (fun a b => comp a b = true)

/-- The function `module_wrapper_factory::get_modules`.  The argument is the
content of `module_wrapper_creators` in the order in which the range-based
`for` enumerates it. -/
def get_modules (enumeration : module_wrapper_creator_map) : List String :=
  let module_name_vector := enumeration.foldl (fun v x => v ++ [x.1]) []
  std_sort case_insensitive_compare module_name_vector

/-! ## `get_all_quantities` -/

/-- The type `std::unordered_map<std::string, std::vector<std::string>>` of
the catalog. -/
abbrev quantity_map_type := List (String × List String)

/-- The statement `m[key].push_back(value)`: `operator[]` finds the vector
stored under `key`, inserting an empty one first when there is none, and the
value is appended to it. -/
def push_back_at (m : quantity_map_type) (key value : String) : quantity_map_type :=
  match m with
  | [] => [(key, [value])]
  | (k, vec) :: rest =>
      if k = key then (k, vec ++ [value]) :: rest
      else (k, vec) :: push_back_at rest key value

/-- The lambda `add_quantity_map_entry` of `get_all_quantities`, with the
captured `quantity_map` as an explicit argument and result. -/
def add_quantity_map_entry (quantity_map : quantity_map_type)
    (module_name quantity_type quantity_name : String) : quantity_map_type :=
  let quantity_map := push_back_at quantity_map "module_name" module_name
  let quantity_map := push_back_at quantity_map "quantity_type" quantity_type
  push_back_at quantity_map "quantity_name" quantity_name

/-- The loop `for (module_name : ...)` of `get_all_quantities`, run over the
sequence `names` from the table `quantity_map`: an exception thrown by
`create` leaves the loop and the function. -/
def get_all_quantities_loop (h : module_headers) (what : String) :
    List String → quantity_map_type → Except exception quantity_map_type
  | [], quantity_map => .ok quantity_map
  | module_name :: rest, quantity_map =>
      match create h what module_name with
      | .error e => .error e
      | .ok w =>
          let quantity_map := w.get_inputs.foldl
            (fun m input_name => add_quantity_map_entry m module_name "input" input_name)
            quantity_map
          let quantity_map := w.get_outputs.foldl
            (fun m output_name => add_quantity_map_entry m module_name "output" output_name)
            quantity_map
          get_all_quantities_loop h what rest quantity_map

/-- The function `module_wrapper_factory::get_all_quantities`; `enumeration`
is the order in which `get_modules` enumerates the registry. -/
def get_all_quantities (h : module_headers) (what : String)
    (enumeration : module_wrapper_creator_map) : Except exception quantity_map_type :=
  let quantity_map : quantity_map_type :=
    [("module_name", []),
     ("quantity_type", []),
     ("quantity_name", [])]
  get_all_quantities_loop h what (get_modules enumeration) quantity_map

/-- The vector stored under `key` in a catalog, empty when there is none. -/
def column (m : quantity_map_type) (key : String) : List String :=
  (m.lookup key).getD []

/-- The rows that one module contributes to the catalog: its inputs in
declared order, then its outputs in declared order. -/
def module_rows (module_name : String) (T : module_class) :
    List (String × String × String) :=
  T.get_inputs.map (fun q => (module_name, "input", q)) ++
    T.get_outputs.map (fun q => (module_name, "output", q))

/-- The module class registered under a name; a class without quantities for
a name that is not registered. -/
def class_of (h : module_headers) (name : String) : module_class :=
  ((registered_modules h).lookup name).getD { get_inputs := [], get_outputs := [] }

/-! ## Parameter maps and module instances

In this embedding the type `double` is an ordered field `F` with a floor
function, and the theorems take `F` to be the real numbers: it serves the
properties that do not depend on rounding, overflow or the special values
of floating point arithmetic (which inputs are read, which entries are
written, which branch is taken).  The properties of the computed values
that do depend on them are proved on the second embedding of the section
"Double precision arithmetic". -/

/-- The type `std::unordered_map<std::string, double>` of the parameter
maps. -/
abbrev state_map (F : Type) := List (String × F)

/-- A `double*` or `const double*` that points into a parameter map: the key
of the entry it points to. -/
abbrev pointer := String

/-- Whether a parameter map has an entry for `name`. -/
def has_quantity {F : Type} (m : state_map F) (name : String) : Bool :=
  (m.lookup name).isSome

/-- Modelled from the spec: the helper `get_ip` of `modules.h`, which is not
among the sources.  It returns a read handle for `name` and fails with a
"quantity not found" error when the input map has no such entry. -/
def get_ip {F : Type} (input_parameters : state_map F) (name : String) :
    Except exception pointer :=
  if has_quantity input_parameters name then .ok name
  else .error (.quantity_not_found name)

/-- Modelled from the spec: the helper `get_op` of `modules.h`, which is not
among the sources.  It returns a write handle for `name` and fails with a
"quantity not found" error when the output map has no such entry. -/
def get_op {F : Type} (output_parameters : state_map F) (name : String) :
    Except exception pointer :=
  if has_quantity output_parameters name then .ok name
  else .error (.quantity_not_found name)

/-- Reading through a `const double*`: the value of the entry, when the map
has it. -/
def deref {F : Type} (m : state_map F) (p : pointer) : Option F :=
  m.lookup p

/-- Modelled from the spec: the helper `update` of `modules.h`, which is not
among the sources.  It stores `value` in the entry the write handle points
to and touches no other entry. -/
def update {F : Type} (m : state_map F) (p : pointer) (value : F) : state_map F :=
  m.map (fun e => if e.1 = p then (e.1, value) else e)

/-- The data members of the class `gaussian_solar`. -/
structure gaussian_solar where
  doy_dbl_ip : pointer
  target_doy_dbl_ip : pointer
  new_dl_ip : pointer
  solar_op : pointer
  deriving DecidableEq, Repr

/-- The constructor `gaussian_solar::gaussian_solar`: the member initialisers
run in order, and the first one that throws ends the construction. -/
def gaussian_solar.construct {F : Type}
    (input_parameters output_parameters : state_map F) :
    Except exception gaussian_solar := do
  let doy_dbl_ip ← get_ip input_parameters "doy_dbl"
  let target_doy_dbl_ip ← get_ip input_parameters "target_doy_dbl"
  let new_dl_ip ← get_ip input_parameters "new_dl"
  let solar_op ← get_op output_parameters "solar"
  pure { doy_dbl_ip, target_doy_dbl_ip, new_dl_ip, solar_op }

/-- The local variables of `gaussian_solar::do_operation`. -/
structure gaussian_solar.locals (F : Type) where
  hour : F
  day_length : F
  sigma : F
  solar : F

/-- The part "collect inputs and make calculations" of
`gaussian_solar::do_operation`, as a function of the three values read
through the input pointers.  The function `exp` of the C library is the
argument `exp`. -/
def gaussian_solar.calculations {F : Type} [LinearOrderedField F] [FloorRing F]
    (exp : F → F) (doy_dbl target_doy_dbl new_dl : F) : gaussian_solar.locals F :=
  let hour : F := 24 * (doy_dbl - (⌊doy_dbl⌋ : F))
  let max_solar : F := 1000
  let day_length : F := if doy_dbl < target_doy_dbl then 11 else new_dl
  let sigma : F := day_length / 4
  let solar : F := max_solar * exp (-(hour - 12) * (hour - 12) / (sigma * sigma))
  { hour, day_length, sigma, solar }

/-- The member function `gaussian_solar::do_operation`: the three inputs are
read through the pointers of the instance, the calculations are made, and
`solar` is stored through `solar_op`.  The result is the output map after
the call, or `none` when a pointer of the instance does not point into the
input map. -/
def gaussian_solar.do_operation {F : Type} [LinearOrderedField F] [FloorRing F]
    (exp : F → F) (self : gaussian_solar)
    (input_parameters output_parameters : state_map F) : Option (state_map F) := do
  let doy_dbl ← deref input_parameters self.doy_dbl_ip
  let target_doy_dbl ← deref input_parameters self.target_doy_dbl_ip
  let new_dl ← deref input_parameters self.new_dl_ip
  let solar := (gaussian_solar.calculations exp doy_dbl target_doy_dbl new_dl).solar
  pure (update output_parameters self.solar_op solar)

/-- The data members of the class `oscillator_clock_calculator_sk`. -/
structure oscillator_clock_calculator_sk where
  doy_dbl_ip : pointer
  kick_strength_ip : pointer
  kick_start_ip : pointer
  kick_end_ip : pointer
  dawn_b_ip : pointer
  dawn_a_ip : pointer
  dusk_b_ip : pointer
  dusk_a_ip : pointer
  ref_b_ip : pointer
  ref_a_ip : pointer
  dawn_kick_op : pointer
  dusk_kick_op : pointer
  dawn_phase_op : pointer
  dusk_phase_op : pointer
  ref_phase_op : pointer
  dawn_radius_op : pointer
  dusk_radius_op : pointer
  ref_radius_op : pointer
  day_length_op : pointer
  night_length_op : pointer
  sunrise_op : pointer
  sunset_op : pointer
  deriving DecidableEq, Repr

/-- The constructor
`oscillator_clock_calculator_sk::oscillator_clock_calculator_sk`: the member
initialisers run in order, and the first one that throws ends the
construction. -/
def oscillator_clock_calculator_sk.construct {F : Type}
    (input_parameters output_parameters : state_map F) :
    Except exception oscillator_clock_calculator_sk := do
  let doy_dbl_ip ← get_ip input_parameters "doy_dbl"
  let kick_strength_ip ← get_ip input_parameters "kick_strength"
  let kick_start_ip ← get_ip input_parameters "kick_start"
  let kick_end_ip ← get_ip input_parameters "kick_end"
  let dawn_b_ip ← get_ip input_parameters "dawn_b"
  let dawn_a_ip ← get_ip input_parameters "dawn_a"
  let dusk_b_ip ← get_ip input_parameters "dusk_b"
  let dusk_a_ip ← get_ip input_parameters "dusk_a"
  let ref_b_ip ← get_ip input_parameters "ref_b"
  let ref_a_ip ← get_ip input_parameters "ref_a"
  let dawn_kick_op ← get_op output_parameters "dawn_kick"
  let dusk_kick_op ← get_op output_parameters "dusk_kick"
  let dawn_phase_op ← get_op output_parameters "dawn_phase"
  let dusk_phase_op ← get_op output_parameters "dusk_phase"
  let ref_phase_op ← get_op output_parameters "ref_phase"
  let dawn_radius_op ← get_op output_parameters "dawn_radius"
  let dusk_radius_op ← get_op output_parameters "dusk_radius"
  let ref_radius_op ← get_op output_parameters "ref_radius"
  let day_length_op ← get_op output_parameters "day_length"
  let night_length_op ← get_op output_parameters "night_length"
  let sunrise_op ← get_op output_parameters "sunrise"
  let sunset_op ← get_op output_parameters "sunset"
  pure {
         doy_dbl_ip, kick_strength_ip, kick_start_ip, kick_end_ip,
         dawn_b_ip, dawn_a_ip, dusk_b_ip, dusk_a_ip,
         ref_b_ip, ref_a_ip,
         dawn_kick_op, dusk_kick_op, dawn_phase_op, dusk_phase_op,
         ref_phase_op, dawn_radius_op, dusk_radius_op, ref_radius_op,
         day_length_op, night_length_op, sunrise_op, sunset_op }

/-- The 24 registered names in the order of their lowercase copies. -/
def sorted_names : List String :=
  [ "gaussian_solar", "grimm_soybean_flowering", "grimm_soybean_flowering_calculator",
    "harmonic_energy", "harmonic_oscillator", "incident_shortwave_from_ground_par",
    "light_from_solar", "light_macro_environment", "magic_clock", "Module_1",
    "Module_2", "Module_3", "night_and_day_trackers", "oscillator_clock_calculator",
    "oscillator_clock_calculator_sk", "phase_clock", "poincare_clock",
    "pokhilko_circadian_clock", "shortwave_atmospheric_scattering", "thermal_time_beta",
    "thermal_time_bilinear", "thermal_time_linear", "thermal_time_linear_extended",
    "thermal_time_trilinear" ]

/-- The catalog whose three columns are the components of `rows`. -/
def table_of_rows (rows : List (String × String × String)) : quantity_map_type :=
  [("module_name", rows.map (fun r => r.1)),
   ("quantity_type", rows.map (fun r => r.2.1)),
   ("quantity_name", rows.map (fun r => r.2.2))]

/-- The rows `(module_name[i], quantity_type[i], quantity_name[i])` of a
catalog. -/
def rows_of (m : quantity_map_type) : List (String × String × String) :=
  (column m "module_name").zip ((column m "quantity_type").zip (column m "quantity_name"))

/-- The first name of `names` for which the parameter map has no entry. -/
def first_missing {F : Type} (m : state_map F) (names : List String) : Option String :=
  names.find? (fun q => !has_quantity m q)

/-- The outcome of a constructor that looks up `inputs` in the input map and
then `outputs` in the output map, in this order: the error for the first
name that is missing, or else the instance `self`. -/
def bind_outcome {F α : Type} (input_parameters output_parameters : state_map F)
    (inputs outputs : List String) (self : α) : Except exception α :=
  match first_missing input_parameters inputs with
  | some q => .error (.quantity_not_found q)
  | none =>
    match first_missing output_parameters outputs with
    | some q => .error (.quantity_not_found q)
    | none => .ok self

/-- The invariant of the catalog under construction: the map has exactly the
keys `module_name`, `quantity_type` and `quantity_name`, its three vectors
have the same length, every entry of `quantity_type` is `input` or `output`,
and every entry of `module_name` is a registered name. -/
def well_typed (m : quantity_map_type) : Prop :=
  (m.map Prod.fst).Perm ["module_name", "quantity_type", "quantity_name"] ∧
  (column m "module_name").length = (column m "quantity_type").length ∧
  (column m "quantity_type").length = (column m "quantity_name").length ∧
  (∀ t ∈ column m "quantity_type", t = "input" ∨ t = "output") ∧
  (∀ n ∈ column m "module_name", n ∈ registered_names)

/-! ## `oscillator_clock_calculator_sk::do_operation` -/

/-- The sequence of calls `update(pointer, value)` at the end of a
`do_operation`, applied in order to the output map. -/
def apply_updates {F : Type} (m : state_map F) (updates : List (pointer × F)) : state_map F :=
  updates.foldl (fun m u => update m u.1 u.2) m

/-- The local variables of `oscillator_clock_calculator_sk::do_operation`,
and the three radii that it passes to `update`. -/
structure oscillator_clock_calculator_sk.locals (F : Type) where
  hour : F
  dawn_kick : F
  dusk_kick : F
  dawn_phase : F
  dusk_phase : F
  ref_phase : F
  dawn_radius : F
  dusk_radius : F
  ref_radius : F
  day_length : F
  night_length : F
  sunrise : F
  sunset : F

/-- The part "collect inputs and make calculations" of
`oscillator_clock_calculator_sk::do_operation`, as a function of the ten
values read through the input pointers.  The functions `sin` and `sqrt` of
the C library, the constant `math_constants::pi` of `constants.h` and the
helper `range_adjusted_atan2` of `oscillator_clock_calculator.hpp` are not
among the sources; they are arguments. -/
def oscillator_clock_calculator_sk.calculations {F : Type} [LinearOrderedField F]
    [FloorRing F] (sin sqrt : F → F) (pi : F) (range_adjusted_atan2 : F → F → F)
    (doy_dbl kick_strength kick_start kick_end dawn_b dawn_a dusk_b dusk_a ref_b ref_a : F) :
    oscillator_clock_calculator_sk.locals F :=
  let hour : F := 24 * (doy_dbl - (⌊doy_dbl⌋ : F))
  let dawn_kick : F :=
    if doy_dbl ≥ kick_start ∧ doy_dbl ≤ kick_end then kick_strength * sin (doy_dbl * 2 * pi)
    else 0
  let dusk_kick : F := 0
  let dawn_phase : F := range_adjusted_atan2 dawn_b dawn_a
  let dusk_phase : F := range_adjusted_atan2 dusk_b dusk_a
  let ref_phase : F := range_adjusted_atan2 ref_b ref_a
  let day_length : F :=
    if dusk_phase > dawn_phase then (dawn_phase - dusk_phase + 2 * pi) * 12 / pi
    else (dawn_phase - dusk_phase) * 12 / pi
  let night_length : F :=
    if dawn_phase > dusk_phase then (dusk_phase - dawn_phase + 2 * pi) * 12 / pi
    else (dusk_phase - dawn_phase) * 12 / pi
  let sunrise : F :=
    if dawn_phase * 12 / pi < hour then hour - dawn_phase * 12 / pi
    else hour - dawn_phase * 12 / pi + 24
  let sunset : F :=
    if dusk_phase * 12 / pi < hour then hour - dusk_phase * 12 / pi
    else hour - dusk_phase * 12 / pi + 24
  { hour, dawn_kick, dusk_kick, dawn_phase, dusk_phase, ref_phase,
    dawn_radius := sqrt (dawn_a * dawn_a + dawn_b * dawn_b),
    dusk_radius := sqrt (dusk_a * dusk_a + dusk_b * dusk_b),
    ref_radius := sqrt (ref_a * ref_a + ref_b * ref_b),
    day_length, night_length, sunrise, sunset }

/-- The part "update the output parameter list" of
`oscillator_clock_calculator_sk::do_operation`: the twelve calls of `update`,
in the order of the source. -/
def oscillator_clock_calculator_sk.updates {F : Type}
    (self : oscillator_clock_calculator_sk) (c : oscillator_clock_calculator_sk.locals F) :
    List (pointer × F) :=
  [(self.dawn_kick_op, c.dawn_kick),
   (self.dusk_kick_op, c.dusk_kick),
   (self.dawn_phase_op, c.dawn_phase),
   (self.dusk_phase_op, c.dusk_phase),
   (self.ref_phase_op, c.ref_phase),
   (self.dawn_radius_op, c.dawn_radius),
   (self.dusk_radius_op, c.dusk_radius),
   (self.ref_radius_op, c.ref_radius),
   (self.day_length_op, c.day_length),
   (self.night_length_op, c.night_length),
   (self.sunrise_op, c.sunrise),
   (self.sunset_op, c.sunset)]

/-- The member function `oscillator_clock_calculator_sk::do_operation`: the
ten inputs are read through the pointers of the instance, the calculations
are made, and the twelve outputs are stored through the output pointers.
The result is the output map after the call, or `none` when a pointer of the
instance does not point into the input map. -/
def oscillator_clock_calculator_sk.do_operation {F : Type} [LinearOrderedField F]
    [FloorRing F] (sin sqrt : F → F) (pi : F) (range_adjusted_atan2 : F → F → F)
    (self : oscillator_clock_calculator_sk)
    (input_parameters output_parameters : state_map F) : Option (state_map F) := do
  let doy_dbl ← deref input_parameters self.doy_dbl_ip
  let kick_strength ← deref input_parameters self.kick_strength_ip
  let kick_start ← deref input_parameters self.kick_start_ip
  let kick_end ← deref input_parameters self.kick_end_ip
  let dawn_b ← deref input_parameters self.dawn_b_ip
  let dawn_a ← deref input_parameters self.dawn_a_ip
  let dusk_b ← deref input_parameters self.dusk_b_ip
  let dusk_a ← deref input_parameters self.dusk_a_ip
  let ref_b ← deref input_parameters self.ref_b_ip
  let ref_a ← deref input_parameters self.ref_a_ip
  let c := oscillator_clock_calculator_sk.calculations sin sqrt pi range_adjusted_atan2
    doy_dbl kick_strength kick_start kick_end dawn_b dawn_a dusk_b dusk_a ref_b ref_a
  pure (apply_updates output_parameters (oscillator_clock_calculator_sk.updates self c))

/-- The effect of one call `update(pointer, value)` on one entry of the
output map. -/
def update_entry {F : Type} (u : pointer × F) (e : String × F) : String × F :=
  if e.1 = u.1 then (e.1, u.2) else e

/-- The effect of a sequence of calls of `update` on one entry of the
output map. -/
def update_entries {F : Type} (updates : List (pointer × F)) (e : String × F) : String × F :=
  updates.foldl (fun e u => update_entry u e) e

/-- A concrete function for the absent helper `range_adjusted_atan2`, on
which the calculations can be evaluated: the angle of the point `(x, y)`,
taken in the interval from 0 to `2 * pi`. -/
noncomputable def sample_range_adjusted_atan2 (y x : ℝ) : ℝ :=
  if Complex.arg ⟨x, y⟩ < 0 then Complex.arg ⟨x, y⟩ + 2 * Real.pi else Complex.arg ⟨x, y⟩

/-- A concrete input map for `oscillator_clock_calculator_sk`: a quarter of
a day after midnight, a kick of strength 2 that is active, the dawn and the
reference oscillator at the point `(a, b) = (0, 1)` and the dusk oscillator
at the point `(a, b) = (1, 0)`. -/
def sample_oscillator_inputs : state_map ℝ :=
  [("doy_dbl", 0.25), ("kick_strength", 2), ("kick_start", 0), ("kick_end", 1),
   ("dawn_b", 1), ("dawn_a", 0), ("dusk_b", 0), ("dusk_a", 1), ("ref_b", 1), ("ref_a", 0)]

/-- A concrete output map for `oscillator_clock_calculator_sk`, with an
entry for every declared output and one more entry. -/
def sample_oscillator_outputs : state_map ℝ :=
  [("dawn_kick", 0), ("dusk_kick", 0), ("dawn_phase", 0), ("dusk_phase", 0),
   ("ref_phase", 0), ("dawn_radius", 0), ("dusk_radius", 0), ("ref_radius", 0),
   ("day_length", 0), ("night_length", 0), ("sunrise", 0), ("sunset", 0), ("solar", 7)]

/-- The instance of `oscillator_clock_calculator_sk` that the constructor
returns: every pointer is the name of its quantity. -/
def sample_oscillator : oscillator_clock_calculator_sk :=
  { doy_dbl_ip := "doy_dbl", kick_strength_ip := "kick_strength",
    kick_start_ip := "kick_start", kick_end_ip := "kick_end",
    dawn_b_ip := "dawn_b", dawn_a_ip := "dawn_a", dusk_b_ip := "dusk_b",
    dusk_a_ip := "dusk_a", ref_b_ip := "ref_b", ref_a_ip := "ref_a",
    dawn_kick_op := "dawn_kick", dusk_kick_op := "dusk_kick",
    dawn_phase_op := "dawn_phase", dusk_phase_op := "dusk_phase",
    ref_phase_op := "ref_phase", dawn_radius_op := "dawn_radius",
    dusk_radius_op := "dusk_radius", ref_radius_op := "ref_radius",
    day_length_op := "day_length", night_length_op := "night_length",
    sunrise_op := "sunrise", sunset_op := "sunset" }

/-! ## Runs in which an allocation fails -/

/-- The function `module_wrapper_factory::create` on a run in which the
expression `new module_wrapper<T>` of `create_wrapper` may fail.  The
argument `new_succeeds` tells, for each module name, whether the allocation
made for it succeeds; when it does not, `new` throws `std::bad_alloc` inside
the `try` block, and the handler `catch (std::out_of_range)` does not catch
it.  With `new_succeeds` constantly true this is `create`. -/
def create_when (new_succeeds : String → Bool) (h : module_headers) (what : String)
    (module_name : String) : Except exception module_wrapper_base :=
  match map_at what (module_wrapper_creators h) module_name with
  | .ok f => if new_succeeds module_name then .ok (f ()) else .error .bad_alloc
  | .error (.out_of_range _) =>
      let message := "\"" ++ module_name ++
                     "\"" ++
                     " was given as a module name, " ++
                     "but no module with that name could be found.\n"
      .error (.out_of_range message)
  | .error e => .error e

/-- The loop of `get_all_quantities` on such a run: the body of
`get_all_quantities_loop`, with the call of `create` answered by
`create_when new_succeeds`. -/
def get_all_quantities_loop_when (new_succeeds : String → Bool) (h : module_headers)
    (what : String) : List String → quantity_map_type → Except exception quantity_map_type
  | [], quantity_map => .ok quantity_map
  | module_name :: rest, quantity_map =>
      match create_when new_succeeds h what module_name with
      | .error e => .error e
      | .ok w =>
          let quantity_map := w.get_inputs.foldl
            (fun m input_name => add_quantity_map_entry m module_name "input" input_name)
            quantity_map
          let quantity_map := w.get_outputs.foldl
            (fun m output_name => add_quantity_map_entry m module_name "output" output_name)
            quantity_map
          get_all_quantities_loop_when new_succeeds h what rest quantity_map

/-- The function `module_wrapper_factory::get_all_quantities` on such a
run. -/
def get_all_quantities_when (new_succeeds : String → Bool) (h : module_headers)
    (what : String) (enumeration : module_wrapper_creator_map) :
    Except exception quantity_map_type :=
  let quantity_map : quantity_map_type :=
    [("module_name", []),
     ("quantity_type", []),
     ("quantity_name", [])]
  get_all_quantities_loop_when new_succeeds h what (get_modules enumeration) quantity_map

/-! ## The effect of `do_operation` on both parameter maps -/

/-- The two parameter maps that a module instance points into. -/
structure parameter_maps (F : Type) where
  input_parameters : state_map F
  output_parameters : state_map F

/-- The effect of one call of `gaussian_solar::do_operation` on the two
maps.  The member function dereferences its `const double*` members, which
point into the input map, and calls `update` on `solar_op` only, which
points into the output map. -/
def gaussian_solar.do_operation_on {F : Type} [LinearOrderedField F] [FloorRing F]
    (exp : F → F) (self : gaussian_solar) (maps : parameter_maps F) :
    Option (parameter_maps F) :=
  (gaussian_solar.do_operation exp self maps.input_parameters maps.output_parameters).map
    (fun output_parameters =>
      { input_parameters := maps.input_parameters, output_parameters := output_parameters })

/-- The effect of one call of `oscillator_clock_calculator_sk::do_operation`
on the two maps.  The member function dereferences its `const double*`
members, which point into the input map, and calls `update` on its twelve
`double*` members only, which point into the output map. -/
def oscillator_clock_calculator_sk.do_operation_on {F : Type} [LinearOrderedField F] [FloorRing F]
    (sin sqrt : F → F) (pi : F) (range_adjusted_atan2 : F → F → F)
    (self : oscillator_clock_calculator_sk) (maps : parameter_maps F) : Option (parameter_maps F) :=
  (oscillator_clock_calculator_sk.do_operation sin sqrt pi range_adjusted_atan2 self maps.input_parameters
    maps.output_parameters).map
    (fun output_parameters =>
      { input_parameters := maps.input_parameters, output_parameters := output_parameters })

/-! ## Double precision arithmetic

The theorems on the values of `gaussian_solar` and of
`oscillator_clock_calculator_sk` that depend on rounding, overflow,
underflow or NaN use a second embedding of the calculations, in which the
type `double` is the binary64 format of IEEE 754 with the default rounding
(to nearest, ties to even).  Every arithmetic operation of the source is
one operation of the format, rounded on its own: the expressions are
evaluated in binary64, not in an extended format, and no multiplication is
fused with an addition.  The payload and the sign of a NaN are not
modelled. -/

/-- A value of the type `double`: NaN, an infinity with its sign, or a
finite number with its sign and its magnitude (the two zeros have the
magnitude 0). -/
inductive double where
  | nan
  | infinite (negative : Bool)
  | finite (negative : Bool) (magnitude : ℚ)
  deriving DecidableEq

/-- Rounding of a rational number to the nearest integer, a tie going to the
even one. -/
def round_half_even (x : ℚ) : ℤ :=
  if x - ⌊x⌋ < 1 / 2 then ⌊x⌋
  else if 1 / 2 < x - ⌊x⌋ then ⌊x⌋ + 1
  else if ⌊x⌋ % 2 = 0 then ⌊x⌋
  else ⌊x⌋ + 1

/-- Rounding of the exact result of an operation to binary64, from its sign
and its magnitude `q`: the nearest multiple of the spacing `2 ^ (e - 52)`
of the format at `q`, where `2 ^ e <= q < 2 ^ (e + 1)` and `e` is at least
-1022 (below `2 ^ (-1022)` the spacing is that of the subnormal numbers); a
result of `2 ^ 1024` or more is an infinity. -/
def double.round (negative : Bool) (q : ℚ) : double :=
  if q = 0 then .finite negative 0
  else
    let e : ℤ := max (Int.log 2 q) (-1022)
    let spacing : ℚ := 2 ^ (e - 52)
    let r : ℚ := round_half_even (q / spacing) * spacing
    if r < 2 ^ (1024 : ℤ) then .finite negative r else .infinite negative

/-- The number that a finite `double` stands for; 0 for the other values. -/
def double.value : double → ℚ
  | .finite negative magnitude => if negative then -magnitude else magnitude
  | _ => 0

/-- The conversion of a literal of the source, or of an `int`, to `double`. -/
def double.literal (q : ℚ) : double :=
  double.round (decide (q < 0)) |q|

/-- The unary minus of `double`. -/
def double.neg : double → double
  | .nan => .nan
  | .infinite negative => .infinite (!negative)
  | .finite negative magnitude => .finite (!negative) magnitude

/-- The addition of `double`. -/
def double.add : double → double → double
  | .nan, _ => .nan
  | _, .nan => .nan
  | .infinite s, .infinite t => if s = t then .infinite s else .nan
  | .infinite s, .finite _ _ => .infinite s
  | .finite _ _, .infinite t => .infinite t
  | .finite s m, .finite t n =>
      let sum : ℚ := (double.finite s m).value + (double.finite t n).value
      if sum = 0 then .finite (s && t) 0
      else double.round (decide (sum < 0)) |sum|

/-- The subtraction of `double`. -/
def double.sub (a b : double) : double :=
  double.add a (double.neg b)

/-- The multiplication of `double`. -/
def double.mul : double → double → double
  | .nan, _ => .nan
  | _, .nan => .nan
  | .infinite s, .infinite t => .infinite (xor s t)
  | .infinite s, .finite t n => if n = 0 then .nan else .infinite (xor s t)
  | .finite s m, .infinite t => if m = 0 then .nan else .infinite (xor s t)
  | .finite s m, .finite t n => double.round (xor s t) (m * n)

/-- The division of `double`. -/
def double.div : double → double → double
  | .nan, _ => .nan
  | _, .nan => .nan
  | .infinite _, .infinite _ => .nan
  | .infinite s, .finite t _ => .infinite (xor s t)
  | .finite s _, .infinite t => .finite (xor s t) 0
  | .finite s m, .finite t n =>
      if n = 0 then (if m = 0 then .nan else .infinite (xor s t))
      else double.round (xor s t) (m / n)

/-- The comparison `a < b` of `double`: false when an operand is NaN. -/
def double.lt : double → double → Bool
  | .nan, _ => false
  | _, .nan => false
  | .infinite s, .infinite t => s && !t
  | .infinite s, .finite _ _ => s
  | .finite _ _, .infinite t => !t
  | .finite s m, .finite t n => decide ((double.finite s m).value < (double.finite t n).value)

/-- The comparison `a <= b` of `double`: false when an operand is NaN. -/
def double.le : double → double → Bool
  | .nan, _ => false
  | _, .nan => false
  | .infinite s, .infinite t => s || !t
  | .infinite s, .finite _ _ => s
  | .finite _ _, .infinite t => !t
  | .finite s m, .finite t n => decide ((double.finite s m).value ≤ (double.finite t n).value)

/-- The function `floor` of the C library, which is exact. -/
def double.floor : double → double
  | .nan => .nan
  | .infinite negative => .infinite negative
  | .finite negative magnitude =>
      if negative then (if magnitude = 0 then .finite true 0 else .finite true ⌈magnitude⌉)
      else .finite false ⌊magnitude⌋

/-- The part "collect inputs and make calculations" of
`gaussian_solar::do_operation` in double precision: every operation of the
source is the operation of `double`, in the order in which C++ evaluates
the expressions.  The function `exp` of the C library is the argument
`exp`. -/
def gaussian_solar.calculations_double (exp : double → double)
    (doy_dbl target_doy_dbl new_dl : double) : gaussian_solar.locals double :=
  let hour : double :=
    double.mul (double.literal 24) (double.sub doy_dbl (double.floor doy_dbl))
  let max_solar : double := double.literal 1000
  let day_length : double :=
    if double.lt doy_dbl target_doy_dbl then double.literal 11 else new_dl
  let sigma : double := double.div day_length (double.literal 4)
  let solar : double :=
    double.mul max_solar
      (exp (double.div
        (double.mul (double.neg (double.sub hour (double.literal 12)))
          (double.sub hour (double.literal 12)))
        (double.mul sigma sigma)))
  { hour, day_length, sigma, solar }

/-- The member function `gaussian_solar::do_operation` in double precision,
on parameter maps of `double` values. -/
def gaussian_solar.do_operation_double (exp : double → double) (self : gaussian_solar)
    (input_parameters output_parameters : state_map double) : Option (state_map double) := do
  let doy_dbl ← deref input_parameters self.doy_dbl_ip
  let target_doy_dbl ← deref input_parameters self.target_doy_dbl_ip
  let new_dl ← deref input_parameters self.new_dl_ip
  let solar := (gaussian_solar.calculations_double exp doy_dbl target_doy_dbl new_dl).solar
  pure (update output_parameters self.solar_op solar)

/-- The comparison `a > b` of `double`. -/
def double.gt (a b : double) : Bool :=
  double.lt b a

/-- The comparison `a >= b` of `double`. -/
def double.ge (a b : double) : Bool :=
  double.le b a

/-- The part "collect inputs and make calculations" of
`oscillator_clock_calculator_sk::do_operation` in double precision: every
operation of the source is the operation of `double`, in the order in which
C++ evaluates the expressions, each one rounded on its own; an `int` operand
is converted to `double` first.  The functions `sin` and `sqrt` of the C
library, the constant `math_constants::pi` of `constants.h` and the helper
`range_adjusted_atan2` of `oscillator_clock_calculator.hpp` are arguments. -/
def oscillator_clock_calculator_sk.calculations_double (sin sqrt : double → double)
    (pi : double) (range_adjusted_atan2 : double → double → double)
    (doy_dbl kick_strength kick_start kick_end dawn_b dawn_a dusk_b dusk_a ref_b ref_a :
      double) : oscillator_clock_calculator_sk.locals double :=
  let hour : double :=
    double.mul (double.literal 24) (double.sub doy_dbl (double.floor doy_dbl))
  let dawn_kick : double :=
    if double.ge doy_dbl kick_start && double.le doy_dbl kick_end
    then double.mul kick_strength (sin (double.mul (double.mul doy_dbl (double.literal 2)) pi))
    else double.literal 0
  let dusk_kick : double := double.literal 0
  let dawn_phase : double := range_adjusted_atan2 dawn_b dawn_a
  let dusk_phase : double := range_adjusted_atan2 dusk_b dusk_a
  let ref_phase : double := range_adjusted_atan2 ref_b ref_a
  let day_length : double :=
    if double.gt dusk_phase dawn_phase
    then double.div
      (double.mul
        (double.add (double.sub dawn_phase dusk_phase) (double.mul (double.literal 2) pi))
        (double.literal 12)) pi
    else double.div (double.mul (double.sub dawn_phase dusk_phase) (double.literal 12)) pi
  let night_length : double :=
    if double.gt dawn_phase dusk_phase
    then double.div
      (double.mul
        (double.add (double.sub dusk_phase dawn_phase) (double.mul (double.literal 2) pi))
        (double.literal 12)) pi
    else double.div (double.mul (double.sub dusk_phase dawn_phase) (double.literal 12)) pi
  let sunrise : double :=
    if double.lt (double.div (double.mul dawn_phase (double.literal 12)) pi) hour
    then double.sub hour (double.div (double.mul dawn_phase (double.literal 12)) pi)
    else double.add
      (double.sub hour (double.div (double.mul dawn_phase (double.literal 12)) pi))
      (double.literal 24)
  let sunset : double :=
    if double.lt (double.div (double.mul dusk_phase (double.literal 12)) pi) hour
    then double.sub hour (double.div (double.mul dusk_phase (double.literal 12)) pi)
    else double.add
      (double.sub hour (double.div (double.mul dusk_phase (double.literal 12)) pi))
      (double.literal 24)
  { hour, dawn_kick, dusk_kick, dawn_phase, dusk_phase, ref_phase,
    dawn_radius := sqrt (double.add (double.mul dawn_a dawn_a) (double.mul dawn_b dawn_b)),
    dusk_radius := sqrt (double.add (double.mul dusk_a dusk_a) (double.mul dusk_b dusk_b)),
    ref_radius := sqrt (double.add (double.mul ref_a ref_a) (double.mul ref_b ref_b)),
    day_length, night_length, sunrise, sunset }

/-- The member function `oscillator_clock_calculator_sk::do_operation` in
double precision, on parameter maps of `double` values. -/
def oscillator_clock_calculator_sk.do_operation_double (sin sqrt : double → double)
    (pi : double) (range_adjusted_atan2 : double → double → double)
    (self : oscillator_clock_calculator_sk)
    (input_parameters output_parameters : state_map double) : Option (state_map double) := do
  let doy_dbl ← deref input_parameters self.doy_dbl_ip
  let kick_strength ← deref input_parameters self.kick_strength_ip
  let kick_start ← deref input_parameters self.kick_start_ip
  let kick_end ← deref input_parameters self.kick_end_ip
  let dawn_b ← deref input_parameters self.dawn_b_ip
  let dawn_a ← deref input_parameters self.dawn_a_ip
  let dusk_b ← deref input_parameters self.dusk_b_ip
  let dusk_a ← deref input_parameters self.dusk_a_ip
  let ref_b ← deref input_parameters self.ref_b_ip
  let ref_a ← deref input_parameters self.ref_a_ip
  let c := oscillator_clock_calculator_sk.calculations_double sin sqrt pi range_adjusted_atan2
    doy_dbl kick_strength kick_start kick_end dawn_b dawn_a dusk_b dusk_a ref_b ref_a
  pure (apply_updates output_parameters (oscillator_clock_calculator_sk.updates self c))

/-- The `double` nearest to the number pi, `3.141592653589793`: the value
of a constant `pi` of type `double` that is written with 16 or more correct
digits. -/
def double_pi : double :=
  .finite false (884279719003555 / 2 ^ 48)

/-- A concrete function in place of `exp` of the C library, on which the
calculations can be evaluated: it has the values of `exp` at NaN, at the
infinities and at the zeros, and elsewhere it is the rounded value of
`1 + x + x^2 / 2` for a positive `x` and of the inverse of
`1 + |x| + x^2 / 2` for a negative `x`. -/
def sample_exp : double → double
  | .nan => .nan
  | .infinite negative => if negative then .finite false 0 else .infinite false
  | .finite negative magnitude =>
      if magnitude = 0 then .finite false 1
      else if negative then
        double.round false (1 / (1 + magnitude + magnitude * magnitude / 2))
      else double.round false (1 + magnitude + magnitude * magnitude / 2)

/-- A concrete function in place of the absent helper `range_adjusted_atan2`
in double precision, on which the calculations can be evaluated: a quarter
turn for a point `(a, b)` with `a` equal to 0 and `b` positive, and 0, the
angle of the points with `b` equal to 0 and `a` positive, for every other
point. -/
def sample_range_adjusted_atan2_double (y x : double) : double :=
  if double.gt y (.finite false 0) && decide (x = .finite false 0)
  then .finite false (884279719003555 / 2 ^ 49)
  else .finite false 0

/-- A concrete input map of `double` values for the module
`oscillator_clock_calculator_sk`, with the given instant and the given
points of the dawn and of the dusk oscillator, a kick of strength 2 during
the first day and the reference oscillator at the point `(a, b) = (0, 1)`. -/
def sample_oscillator_inputs_double (doy_dbl dawn_b dawn_a dusk_b dusk_a : double) :
    state_map double :=
  [("doy_dbl", doy_dbl), ("kick_strength", .finite false 2), ("kick_start", .finite false 0),
   ("kick_end", .finite false 1), ("dawn_b", dawn_b), ("dawn_a", dawn_a),
   ("dusk_b", dusk_b), ("dusk_a", dusk_a), ("ref_b", .finite false 1),
   ("ref_a", .finite false 0)]

/-- A concrete output map of `double` values for the module
`oscillator_clock_calculator_sk`, with an entry for every declared output
and one more entry. -/
def sample_oscillator_outputs_double : state_map double :=
  [("dawn_kick", .finite false 0), ("dusk_kick", .finite false 0),
   ("dawn_phase", .finite false 0), ("dusk_phase", .finite false 0),
   ("ref_phase", .finite false 0), ("dawn_radius", .finite false 0),
   ("dusk_radius", .finite false 0), ("ref_radius", .finite false 0),
   ("day_length", .finite false 0), ("night_length", .finite false 0),
   ("sunrise", .finite false 0), ("sunset", .finite false 0), ("solar", .finite false 7)]

/-- A concrete instance of `gaussian_solar`: every pointer is the name of
its quantity. -/
def sample_gaussian_solar : gaussian_solar :=
  { doy_dbl_ip := "doy_dbl", target_doy_dbl_ip := "target_doy_dbl",
    new_dl_ip := "new_dl", solar_op := "solar" }

/-- A concrete input map of `double` values for the module
`gaussian_solar`. -/
def sample_gaussian_solar_inputs (doy_dbl target_doy_dbl new_dl : double) : state_map double :=
  [("doy_dbl", doy_dbl), ("target_doy_dbl", target_doy_dbl), ("new_dl", new_dl)]

/-! ## Concrete inputs -/

/-- A module class with one input and one output, named after the class. -/
def sample_class (name : String) : module_class :=
  { get_inputs := [name ++ "_in"], get_outputs := [name ++ "_out"] }

/-- A concrete choice for the module classes whose headers are not among the
sources, on which the registry can be evaluated. -/
def sample_headers : module_headers :=
  { grimm_soybean_flowering := sample_class "grimm_soybean_flowering"
    grimm_soybean_flowering_calculator := sample_class "grimm_soybean_flowering_calculator"
    harmonic_energy := sample_class "harmonic_energy"
    harmonic_oscillator := sample_class "harmonic_oscillator"
    incident_shortwave_from_ground_par := sample_class "incident_shortwave_from_ground_par"
    light_macro_environment := sample_class "light_macro_environment"
    light_from_solar := sample_class "light_from_solar"
    magic_clock := sample_class "magic_clock"
    Module_1 := sample_class "Module_1"
    Module_2 := sample_class "Module_2"
    Module_3 := sample_class "Module_3"
    night_and_day_trackers := sample_class "night_and_day_trackers"
    oscillator_clock_calculator := sample_class "oscillator_clock_calculator"
    phase_clock := sample_class "phase_clock"
    poincare_clock := sample_class "poincare_clock"
    pokhilko_circadian_clock := sample_class "pokhilko_circadian_clock"
    shortwave_atmospheric_scattering := sample_class "shortwave_atmospheric_scattering"
    thermal_time_beta := sample_class "thermal_time_beta"
    thermal_time_bilinear := sample_class "thermal_time_bilinear"
    thermal_time_linear := sample_class "thermal_time_linear"
    thermal_time_linear_extended := sample_class "thermal_time_linear_extended"
    thermal_time_trilinear := sample_class "thermal_time_trilinear" }

/-! ## Lemmas on association lists -/

theorem lookup_map_snd {V W : Type} (f : V → W) (k : String) (l : List (String × V)) :
    (l.map (fun p => (p.1, f p.2))).lookup k = (l.lookup k).map f := by
  induction l with
  | nil => rfl
  | cons p l ih =>
    obtain ⟨k1, v⟩ := p
    by_cases hk : k = k1
    · subst hk; simp [List.lookup]
    · have hb : (k == k1) = false := by simpa using hk
      simp [List.lookup, hb, ih]

theorem lookup_eq_none_of_not_mem {V : Type} (k : String) (l : List (String × V))
    (hk : k ∉ l.map Prod.fst) : l.lookup k = none := by
  induction l with
  | nil => rfl
  | cons p l ih =>
    obtain ⟨k1, v⟩ := p
    simp only [List.map_cons, List.mem_cons, not_or] at hk
    have hb : (k == k1) = false := by simpa using hk.1
    simp [List.lookup, hb, ih hk.2]

theorem lookup_eq_some_of_mem {V : Type} (k : String) (v : V) (l : List (String × V))
    (hnd : (l.map Prod.fst).Nodup) (hmem : (k, v) ∈ l) : l.lookup k = some v := by
  induction l with
  | nil => simp at hmem
  | cons p l ih =>
    obtain ⟨k1, v1⟩ := p
    simp only [List.map_cons, List.nodup_cons] at hnd
    rcases List.mem_cons.1 hmem with heq | htail
    · cases heq; simp [List.lookup]
    · have hne : k ≠ k1 := by
        rintro rfl
        exact hnd.1 (List.mem_map.2 ⟨(k, v), htail, rfl⟩)
      have hb : (k == k1) = false := by simpa using hne
      simp [List.lookup, hb, ih hnd.2 htail]

theorem mem_of_lookup_eq_some {V : Type} (k : String) (v : V) (l : List (String × V))
    (hl : l.lookup k = some v) : (k, v) ∈ l := by
  induction l with
  | nil => simp [List.lookup] at hl
  | cons p l ih =>
    obtain ⟨k1, v1⟩ := p
    by_cases hk : k = k1
    · subst hk
      simp [List.lookup] at hl
      simp [hl]
    · have hb : (k == k1) = false := by simpa using hk
      simp only [List.lookup, hb] at hl
      exact List.mem_cons_of_mem _ (ih hl)

/-! ## The registry -/

theorem module_wrapper_creators_eq (h : module_headers) :
    module_wrapper_creators h =
      (registered_modules h).map (fun p => (p.1, create_wrapper p.2)) := rfl

theorem registered_modules_keys (h : module_headers) :
    (registered_modules h).map Prod.fst = registered_names := rfl

theorem module_wrapper_creators_keys (h : module_headers) :
    (module_wrapper_creators h).map Prod.fst = registered_names := rfl

theorem registered_names_nodup : registered_names.Nodup := by decide

theorem create_of_not_registered (h : module_headers) (what name : String)
    (hname : name ∉ registered_names) :
    create h what name = .error (.out_of_range
      ("\"" ++ name ++ "\"" ++ " was given as a module name, " ++
        "but no module with that name could be found.\n")) := by
  have hl : (module_wrapper_creators h).lookup name = none :=
    lookup_eq_none_of_not_mem name _ (by rw [module_wrapper_creators_keys]; exact hname)
  simp [create, map_at, hl, Except.map]

theorem create_of_registered (h : module_headers) (what name : String) (T : module_class)
    (hmem : (name, T) ∈ registered_modules h) :
    create h what name = .ok (module_wrapper T) := by
  have hl : (registered_modules h).lookup name = some T :=
    lookup_eq_some_of_mem name T _
      (by rw [registered_modules_keys]; exact registered_names_nodup) hmem
  simp [create, map_at, module_wrapper_creators_eq, lookup_map_snd, hl, Except.map,
    create_wrapper]

/-- C1: for every name that is not one of the 24 keys of
`module_wrapper_creators`, `create` returns no wrapper: it fails with
`std::out_of_range`, whose message is the name between double quotes,
followed by the fixed text and a newline; the characters of the name occur
in the message. -/
theorem create_unknown_name_fails (h : module_headers) (what name : String)
    (hname : name ∉ registered_names) :
    create h what name = .error (.out_of_range
        ("\"" ++ name ++
          "\" was given as a module name, but no module with that name could be found.\n")) ∧
      name.data <:+: ("\"" ++ name ++
          "\" was given as a module name, but no module with that name could be found.\n").data
    := by
  refine ⟨?_, ?_⟩
  · rw [create_of_not_registered h what name hname]
    simp only [String.append_assoc]
    rfl
  · refine ⟨['"'], ("\" was given as a module name, but no module with that name could be found.\n").data, ?_⟩
    simp [String.data_append]

/-- Witness of C1 at the name `nonexistent_name` of the spec. -/
theorem create_unknown_name_fails_witness :
    "nonexistent_name" ∉ registered_names ∧
    create sample_headers "" "nonexistent_name" = .error (.out_of_range
      "\"nonexistent_name\" was given as a module name, but no module with that name could be found.\n") :=
  ⟨by decide, (create_unknown_name_fails sample_headers "" "nonexistent_name" (by decide)).1⟩

/-- C2: for every registered name `create` succeeds, and the wrapper it
returns reports the inputs and outputs declared by the module class that is
registered under the name; for `gaussian_solar` these are three inputs and
one output, for `oscillator_clock_calculator_sk` the 10 inputs and the 12
outputs of its `get_inputs` and `get_outputs`, in declared order. -/
theorem create_registered_reports_declared_lists (h : module_headers) (what : String) :
    (∀ name ∈ registered_names, ∃ T w, (name, T) ∈ registered_modules h ∧
        create h what name = .ok w ∧
        w.get_inputs = T.get_inputs ∧ w.get_outputs = T.get_outputs) ∧
    (∃ w, create h what "gaussian_solar" = .ok w ∧
        w.get_inputs = ["doy_dbl", "target_doy_dbl", "new_dl"] ∧
        w.get_outputs = ["solar"]) ∧
    (∃ w, create h what "oscillator_clock_calculator_sk" = .ok w ∧
        w.get_inputs = oscillator_clock_calculator_sk.get_inputs ∧
        w.get_outputs = oscillator_clock_calculator_sk.get_outputs ∧
        w.get_inputs.length = 10 ∧ w.get_outputs.length = 12) := by
  refine ⟨?_, ?_, ?_⟩
  · intro name hname
    rw [← registered_modules_keys h] at hname
    obtain ⟨⟨n, T⟩, hmem, hn⟩ := List.mem_map.1 hname
    cases hn
    exact ⟨T, module_wrapper T, hmem, create_of_registered h what n T hmem, rfl, rfl⟩
  · refine ⟨module_wrapper gaussian_solar_class,
      create_of_registered h what _ _ (by simp [registered_modules]), rfl, rfl⟩
  · refine ⟨module_wrapper oscillator_clock_calculator_sk_class,
      create_of_registered h what _ _ (by simp [registered_modules]), rfl, rfl, rfl, rfl⟩

/-! ## The comparator and the sort -/

theorem string_compare_swap (a b : List Char) :
    string_compare b a = - string_compare a b := by
  induction a generalizing b with
  | nil => cases b <;> simp [string_compare]
  | cons x xs ih =>
    cases b with
    | nil => simp [string_compare]
    | cons y ys =>
      simp only [string_compare]
      split_ifs <;> first | omega | simp | exact ih ys

theorem string_compare_eq_zero (a b : List Char) (h : string_compare a b = 0) : a = b := by
  induction a generalizing b with
  | nil => cases b <;> simp_all [string_compare]
  | cons x xs ih =>
    cases b with
    | nil => simp [string_compare] at h
    | cons y ys =>
      simp only [string_compare] at h
      by_cases h1 : x.toNat < y.toNat
      · simp [h1] at h
      · by_cases h2 : y.toNat < x.toNat
        · simp [h1, h2] at h
        · simp only [h1, h2, if_false] at h
          have hxy : x = y := by
            apply Char.ext
            apply UInt32.ext
            show x.toNat = y.toNat
            omega
          rw [hxy, ih ys h]

theorem string_compare_trans (a b c : List Char) (hab : string_compare a b ≤ 0)
    (hbc : string_compare b c ≤ 0) : string_compare a c ≤ 0 := by
  induction a generalizing b c with
  | nil => cases c <;> simp [string_compare]
  | cons x xs ih =>
    cases b with
    | nil => simp [string_compare] at hab
    | cons y ys =>
      cases c with
      | nil => simp [string_compare] at hbc
      | cons z zs =>
        simp only [string_compare] at hab hbc ⊢
        split_ifs at hab hbc ⊢ <;> first | omega | exact ih ys zs hab hbc

theorem case_insensitive_compare_iff (a b : String) :
    case_insensitive_compare a b = true ↔
      string_compare (a.data.map tolower) (b.data.map tolower) ≤ 0 := by
  simp [case_insensitive_compare]

theorem case_insensitive_compare_total (a b : String) :
    case_insensitive_compare a b = true ∨ case_insensitive_compare b a = true := by
  rw [case_insensitive_compare_iff, case_insensitive_compare_iff,
    string_compare_swap (a.data.map tolower) (b.data.map tolower)]
  omega

theorem case_insensitive_compare_trans (a b c : String)
    (hab : case_insensitive_compare a b = true) (hbc : case_insensitive_compare b c = true) :
    case_insensitive_compare a c = true := by
  rw [case_insensitive_compare_iff] at *
  exact string_compare_trans _ _ _ hab hbc

theorem sorted_std_sort (l : List String) :
    (std_sort case_insensitive_compare l).Sorted
      (fun a b => case_insensitive_compare a b = true) :=
  @List.sorted_insertionSort String (fun a b => case_insensitive_compare a b = true) _
    ⟨case_insensitive_compare_total⟩ ⟨case_insensitive_compare_trans⟩ l

theorem perm_std_sort (l : List String) : (std_sort case_insensitive_compare l).Perm l :=
  List.perm_insertionSort _ l

theorem strictly_sorted_of_sorted (l : List String)
    (hs : l.Sorted (fun a b => case_insensitive_compare a b = true))
    (hnd : (l.map (fun a => a.data.map tolower)).Nodup) :
    l.Sorted (fun a b => string_compare (a.data.map tolower) (b.data.map tolower) < 0) := by
  have hne : l.Pairwise (fun a b => a.data.map tolower ≠ b.data.map tolower) :=
    List.pairwise_map.1 hnd
  refine (List.Pairwise.and hs hne).imp ?_
  rintro a b ⟨hle, hneq⟩
  rw [case_insensitive_compare_iff] at hle
  have h0 : string_compare (a.data.map tolower) (b.data.map tolower) ≠ 0 :=
    fun h => hneq (string_compare_eq_zero _ _ h)
  omega

theorem registered_perm_sorted_names : registered_names.Perm sorted_names := by decide

theorem sorted_names_lower_nodup :
    (sorted_names.map (fun a => a.data.map tolower)).Nodup := by decide

theorem sorted_names_strictly_sorted :
    sorted_names.Sorted
      (fun a b => string_compare (a.data.map tolower) (b.data.map tolower) < 0) := by
  decide

theorem std_sort_registered (l : List String) (hl : l.Perm registered_names) :
    std_sort case_insensitive_compare l = sorted_names := by
  have hp : (std_sort case_insensitive_compare l).Perm sorted_names :=
    (perm_std_sort l).trans (hl.trans registered_perm_sorted_names)
  have hnd : ((std_sort case_insensitive_compare l).map (fun a => a.data.map tolower)).Nodup :=
    ((hp.map _).nodup_iff).2 sorted_names_lower_nodup
  have h1 := strictly_sorted_of_sorted _ (sorted_std_sort l) hnd
  exact @List.eq_of_perm_of_sorted String _
    ⟨fun a b hab hba => absurd (string_compare_swap (a.data.map tolower) (b.data.map tolower))
      (by omega)⟩ _ _ hp h1 sorted_names_strictly_sorted

/-! ## `get_modules` -/

theorem foldl_push_back_fst {V : Type} (l : List (String × V)) (acc : List String) :
    l.foldl (fun v x => v ++ [x.1]) acc = acc ++ l.map Prod.fst := by
  induction l generalizing acc with
  | nil => simp
  | cons p l ih => simp [ih]

theorem get_modules_eq (enumeration : module_wrapper_creator_map) :
    get_modules enumeration =
      std_sort case_insensitive_compare (enumeration.map Prod.fst) := by
  simp [get_modules, foldl_push_back_fst]

theorem get_modules_of_perm (h : module_headers) (enumeration : module_wrapper_creator_map)
    (henum : enumeration.Perm (module_wrapper_creators h)) :
    get_modules enumeration = sorted_names := by
  rw [get_modules_eq]
  apply std_sort_registered
  rw [← module_wrapper_creators_keys h]
  exact henum.map _

theorem sorted_names_lower_lt :
    sorted_names.Pairwise (fun a b => a.data.map tolower < b.data.map tolower) := by
  decide

/-- C3: whatever the order in which the registry is enumerated,
`get_modules` returns a permutation of the 24 registered names, without
repetition, in which the lowercase copy of every name is strictly smaller
than the lowercase copy of the next one.  `Module_1`, `Module_2` and
`Module_3` stand between `magic_clock` and `night_and_day_trackers`, and
`light_from_solar` stands before `light_macro_environment`. -/
theorem get_modules_sorted_permutation (h : module_headers)
    (enumeration : module_wrapper_creator_map)
    (henum : enumeration.Perm (module_wrapper_creators h)) :
    (get_modules enumeration).Perm registered_names ∧
    (get_modules enumeration).Nodup ∧
    (get_modules enumeration).length = 24 ∧
    (get_modules enumeration).Chain'
      (fun a b => a.data.map tolower < b.data.map tolower) ∧
    ["magic_clock", "Module_1", "Module_2", "Module_3", "night_and_day_trackers"] <:+:
      get_modules enumeration ∧
    ["light_from_solar", "light_macro_environment"] <:+: get_modules enumeration ∧
    get_modules enumeration =
      [ "gaussian_solar", "grimm_soybean_flowering", "grimm_soybean_flowering_calculator",
        "harmonic_energy", "harmonic_oscillator", "incident_shortwave_from_ground_par",
        "light_from_solar", "light_macro_environment", "magic_clock", "Module_1",
        "Module_2", "Module_3", "night_and_day_trackers", "oscillator_clock_calculator",
        "oscillator_clock_calculator_sk", "phase_clock", "poincare_clock",
        "pokhilko_circadian_clock", "shortwave_atmospheric_scattering", "thermal_time_beta",
        "thermal_time_bilinear", "thermal_time_linear", "thermal_time_linear_extended",
        "thermal_time_trilinear" ] := by
  rw [get_modules_of_perm h enumeration henum]
  refine ⟨registered_perm_sorted_names.symm, by decide, rfl,
    List.Pairwise.chain' sorted_names_lower_lt, ?_, ?_, rfl⟩
  · exact ⟨["gaussian_solar", "grimm_soybean_flowering", "grimm_soybean_flowering_calculator",
        "harmonic_energy", "harmonic_oscillator", "incident_shortwave_from_ground_par",
        "light_from_solar", "light_macro_environment"], ["oscillator_clock_calculator",
        "oscillator_clock_calculator_sk", "phase_clock", "poincare_clock",
        "pokhilko_circadian_clock", "shortwave_atmospheric_scattering", "thermal_time_beta",
        "thermal_time_bilinear", "thermal_time_linear", "thermal_time_linear_extended",
        "thermal_time_trilinear"], rfl⟩
  · exact ⟨["gaussian_solar", "grimm_soybean_flowering", "grimm_soybean_flowering_calculator",
        "harmonic_energy", "harmonic_oscillator", "incident_shortwave_from_ground_par"],
        ["magic_clock", "Module_1",
        "Module_2", "Module_3", "night_and_day_trackers", "oscillator_clock_calculator",
        "oscillator_clock_calculator_sk", "phase_clock", "poincare_clock",
        "pokhilko_circadian_clock", "shortwave_atmospheric_scattering", "thermal_time_beta",
        "thermal_time_bilinear", "thermal_time_linear", "thermal_time_linear_extended",
        "thermal_time_trilinear"], rfl⟩

/-- Witness of C3: the registry enumerated in the order of its initialiser. -/
theorem get_modules_sorted_permutation_witness :
    (module_wrapper_creators sample_headers).Perm (module_wrapper_creators sample_headers) ∧
    (get_modules (module_wrapper_creators sample_headers)).Chain'
      (fun a b => a.data.map tolower < b.data.map tolower) :=
  ⟨List.Perm.refl _,
    (get_modules_sorted_permutation sample_headers _ (List.Perm.refl _)).2.2.2.1⟩

/-- C4: the result of `get_modules` does not depend on the order in which
the registry is enumerated: two enumerations of the 24 registered entries
give the same sequence, and so do two successive calls. -/
theorem get_modules_enumeration_independent (h : module_headers)
    (first second : module_wrapper_creator_map)
    (hfirst : first.Perm (module_wrapper_creators h))
    (hsecond : second.Perm (module_wrapper_creators h)) :
    get_modules first = get_modules second := by
  rw [get_modules_of_perm h first hfirst, get_modules_of_perm h second hsecond]

/-- Witness of C4: the order of the initialiser and its reverse. -/
theorem get_modules_enumeration_independent_witness :
    (module_wrapper_creators sample_headers).Perm (module_wrapper_creators sample_headers) ∧
    (module_wrapper_creators sample_headers).reverse.Perm
      (module_wrapper_creators sample_headers) ∧
    get_modules (module_wrapper_creators sample_headers) =
      get_modules (module_wrapper_creators sample_headers).reverse :=
  ⟨List.Perm.refl _, List.reverse_perm _,
    get_modules_enumeration_independent sample_headers _ _ (List.Perm.refl _)
      (List.reverse_perm _)⟩

/-! ## `get_all_quantities` -/

theorem add_quantity_map_entry_table (rows : List (String × String × String))
    (m t q : String) :
    add_quantity_map_entry (table_of_rows rows) m t q = table_of_rows (rows ++ [(m, t, q)]) := by
  simp [add_quantity_map_entry, push_back_at, table_of_rows]

theorem foldl_add_quantity_map_entry (rows : List (String × String × String))
    (m t : String) (names : List String) :
    names.foldl (fun qm q => add_quantity_map_entry qm m t q) (table_of_rows rows) =
      table_of_rows (rows ++ names.map (fun q => (m, t, q))) := by
  induction names generalizing rows with
  | nil => simp
  | cons q names ih =>
    rw [List.foldl_cons, add_quantity_map_entry_table, ih]
    simp

theorem lookup_registered (h : module_headers) (name : String)
    (hname : name ∈ registered_names) :
    (name, class_of h name) ∈ registered_modules h := by
  rw [← registered_modules_keys h] at hname
  obtain ⟨⟨n, T⟩, hmem, hn⟩ := List.mem_map.1 hname
  cases hn
  have hl : (registered_modules h).lookup n = some T :=
    lookup_eq_some_of_mem n T _
      (by rw [registered_modules_keys]; exact registered_names_nodup) hmem
  simpa [class_of, hl] using hmem

theorem get_all_quantities_loop_registered (h : module_headers) (what : String)
    (names : List String) (hnames : ∀ name ∈ names, name ∈ registered_names)
    (rows : List (String × String × String)) :
    get_all_quantities_loop h what names (table_of_rows rows) =
      .ok (table_of_rows
        (rows ++ names.flatMap (fun name => module_rows name (class_of h name)))) := by
  induction names generalizing rows with
  | nil => simp [get_all_quantities_loop]
  | cons name names ih =>
    have hc := create_of_registered h what name _
      (lookup_registered h name (hnames name (List.mem_cons_self _ _)))
    simp only [get_all_quantities_loop, hc, module_wrapper, foldl_add_quantity_map_entry]
    rw [ih (fun n hn => hnames n (List.mem_cons_of_mem _ hn))]
    simp [module_rows, List.flatMap_cons, List.append_assoc]

theorem get_all_quantities_eq (h : module_headers) (what : String)
    (enumeration : module_wrapper_creator_map)
    (henum : enumeration.Perm (module_wrapper_creators h)) :
    get_all_quantities h what enumeration =
      .ok (table_of_rows
        (sorted_names.flatMap (fun name => module_rows name (class_of h name)))) := by
  have h0 : ([("module_name", []), ("quantity_type", []), ("quantity_name", [])] :
      quantity_map_type) = table_of_rows [] := rfl
  simp only [get_all_quantities, get_modules_of_perm h enumeration henum, h0]
  rw [get_all_quantities_loop_registered h what sorted_names
    (fun n hn => registered_perm_sorted_names.symm.subset hn)]
  simp

theorem sorted_registered_modules_perm (h : module_headers) :
    (sorted_names.map (fun name => (name, class_of h name))).Perm (registered_modules h) := by
  simp [sorted_names, class_of, registered_modules, List.lookup]
  exact List.Perm.swap _ _ _
theorem column_table_of_rows (rows : List (String × String × String)) :
    column (table_of_rows rows) "module_name" = rows.map (fun r => r.1) ∧
    column (table_of_rows rows) "quantity_type" = rows.map (fun r => r.2.1) ∧
    column (table_of_rows rows) "quantity_name" = rows.map (fun r => r.2.2) := by
  simp [column, table_of_rows, List.lookup]

theorem rows_of_table_of_rows (rows : List (String × String × String)) :
    rows_of (table_of_rows rows) = rows := by
  obtain ⟨h1, h2, h3⟩ := column_table_of_rows rows
  rw [rows_of, h1, h2, h3, List.zip_map', List.zip_map']
  simp

theorem get_all_quantities_ordered (h : module_headers) (what : String)
    (enumeration : module_wrapper_creator_map)
    (henum : enumeration.Perm (module_wrapper_creators h)) :
    ∃ ordered : List (String × module_class),
      ordered.Perm (registered_modules h) ∧
      ordered.map Prod.fst = get_modules enumeration ∧
      get_all_quantities h what enumeration =
        .ok (table_of_rows (ordered.flatMap (fun p => module_rows p.1 p.2))) := by
  refine ⟨sorted_names.map (fun name => (name, class_of h name)),
    sorted_registered_modules_perm h, ?_, ?_⟩
  · rw [get_modules_of_perm h enumeration henum, List.map_map]
    exact List.map_id _
  · rw [get_all_quantities_eq h what enumeration henum, List.flatMap_map]

/-- C5: `get_all_quantities` returns a table whose rows are, for the modules
in the order of `get_modules`, the rows `(m, "input", q)` for the inputs of
`m` in declared order followed by the rows `(m, "output", q)` for its
outputs in declared order; each of the three columns has as many entries as
the registered modules have inputs and outputs together. -/
theorem get_all_quantities_rows (h : module_headers) (what : String)
    (enumeration : module_wrapper_creator_map)
    (henum : enumeration.Perm (module_wrapper_creators h)) :
    ∃ (quantity_map : quantity_map_type) (ordered : List (String × module_class)),
      get_all_quantities h what enumeration = .ok quantity_map ∧
      ordered.Perm (registered_modules h) ∧
      ordered.map Prod.fst = get_modules enumeration ∧
      rows_of quantity_map = ordered.flatMap (fun p =>
        p.2.get_inputs.map (fun q => (p.1, "input", q)) ++
          p.2.get_outputs.map (fun q => (p.1, "output", q))) ∧
      (rows_of quantity_map).length =
        ((registered_modules h).map
          (fun p => p.2.get_inputs.length + p.2.get_outputs.length)).sum ∧
      (column quantity_map "module_name").length = (rows_of quantity_map).length ∧
      (column quantity_map "quantity_type").length = (rows_of quantity_map).length ∧
      (column quantity_map "quantity_name").length = (rows_of quantity_map).length := by
  obtain ⟨ordered, hperm, hkeys, hq⟩ := get_all_quantities_ordered h what enumeration henum
  obtain ⟨h1, h2, h3⟩ := column_table_of_rows (ordered.flatMap (fun p => module_rows p.1 p.2))
  refine ⟨_, ordered, hq, hperm, hkeys, ?_, ?_, ?_, ?_, ?_⟩
  · rw [rows_of_table_of_rows]
    rfl
  · rw [rows_of_table_of_rows, List.length_flatMap]
    have hs := (hperm.map (fun p : String × module_class =>
      p.2.get_inputs.length + p.2.get_outputs.length)).sum_eq
    rw [← hs]
    congr 1
    apply List.map_congr_left
    intro p _
    simp [module_rows]
  · rw [rows_of_table_of_rows, h1, List.length_map]
  · rw [rows_of_table_of_rows, h2, List.length_map]
  · rw [rows_of_table_of_rows, h3, List.length_map]

/-- Witness of C5: the registry enumerated in the order of its
initialiser. -/
theorem get_all_quantities_rows_witness :
    (module_wrapper_creators sample_headers).Perm (module_wrapper_creators sample_headers) ∧
    ∃ (quantity_map : quantity_map_type) (ordered : List (String × module_class)),
      get_all_quantities sample_headers "" (module_wrapper_creators sample_headers) =
        .ok quantity_map ∧
      ordered.Perm (registered_modules sample_headers) ∧
      ordered.map Prod.fst = get_modules (module_wrapper_creators sample_headers) ∧
      rows_of quantity_map = ordered.flatMap (fun p =>
        p.2.get_inputs.map (fun q => (p.1, "input", q)) ++
          p.2.get_outputs.map (fun q => (p.1, "output", q))) ∧
      (rows_of quantity_map).length =
        ((registered_modules sample_headers).map
          (fun p => p.2.get_inputs.length + p.2.get_outputs.length)).sum ∧
      (column quantity_map "module_name").length = (rows_of quantity_map).length ∧
      (column quantity_map "quantity_type").length = (rows_of quantity_map).length ∧
      (column quantity_map "quantity_name").length = (rows_of quantity_map).length :=
  ⟨List.Perm.refl _,
    get_all_quantities_rows sample_headers "" _ (List.Perm.refl _)⟩

theorem countP_module_rows_input (name : String) (T : module_class) (q : String) :
    (module_rows name T).countP (fun r => r.2.1 == "input" && r.2.2 == q) =
      T.get_inputs.count q := by
  simp [module_rows, List.countP_append, List.countP_map, Function.comp_def, List.count]

theorem countP_module_rows_output (name : String) (T : module_class) (q : String) :
    (module_rows name T).countP (fun r => r.2.1 == "output" && r.2.2 == q) =
      T.get_outputs.count q := by
  simp [module_rows, List.countP_append, List.countP_map, Function.comp_def, List.count]

theorem count_module_rows_of_ne (name m t q : String) (T : module_class) (hne : name ≠ m) :
    (module_rows name T).count (m, t, q) = 0 := by
  rw [List.count_eq_zero]
  simp [module_rows, hne]

theorem count_doy_dbl_registered (h : module_headers) :
    ((registered_modules h).flatMap (fun p => module_rows p.1 p.2)).count
        ("gaussian_solar", "input", "doy_dbl") = 1 ∧
    ((registered_modules h).flatMap (fun p => module_rows p.1 p.2)).count
        ("oscillator_clock_calculator_sk", "input", "doy_dbl") = 1 := by
  constructor <;>
  · simp only [registered_modules, List.count_flatMap, List.map, Function.comp_def, List.sum_cons,
      List.sum_nil]
    simp [count_module_rows_of_ne]
    decide

/-- C6: `get_all_quantities` removes no duplicate: for every quantity name
`q`, the number of rows of type `input` (of type `output`) with name `q` is
the number of occurrences of `q`, with multiplicity, in the input lists (in
the output lists) of all registered modules.  The input `doy_dbl` is
recorded once for `gaussian_solar` and once for
`oscillator_clock_calculator_sk`. -/
theorem get_all_quantities_counts_every_occurrence (h : module_headers) (what : String)
    (enumeration : module_wrapper_creator_map)
    (henum : enumeration.Perm (module_wrapper_creators h)) :
    ∃ quantity_map : quantity_map_type,
      get_all_quantities h what enumeration = .ok quantity_map ∧
      (∀ q : String,
        (rows_of quantity_map).countP (fun r => r.2.1 == "input" && r.2.2 == q) =
          ((registered_modules h).map (fun p => p.2.get_inputs.count q)).sum) ∧
      (∀ q : String,
        (rows_of quantity_map).countP (fun r => r.2.1 == "output" && r.2.2 == q) =
          ((registered_modules h).map (fun p => p.2.get_outputs.count q)).sum) ∧
      (rows_of quantity_map).count ("gaussian_solar", "input", "doy_dbl") = 1 ∧
      (rows_of quantity_map).count
        ("oscillator_clock_calculator_sk", "input", "doy_dbl") = 1 := by
  obtain ⟨ordered, hperm, -, hq⟩ := get_all_quantities_ordered h what enumeration henum
  have hrows := hperm.flatMap_right (fun p => module_rows p.1 p.2)
  refine ⟨_, hq, ?_, ?_, ?_, ?_⟩
  · intro q
    rw [rows_of_table_of_rows, hrows.countP_eq, List.countP_flatMap]
    congr 1
    apply List.map_congr_left
    intro p _
    exact countP_module_rows_input p.1 p.2 q
  · intro q
    rw [rows_of_table_of_rows, hrows.countP_eq, List.countP_flatMap]
    congr 1
    apply List.map_congr_left
    intro p _
    exact countP_module_rows_output p.1 p.2 q
  · rw [rows_of_table_of_rows]
    exact (hrows.countP_eq _).trans (count_doy_dbl_registered h).1
  · rw [rows_of_table_of_rows]
    exact (hrows.countP_eq _).trans (count_doy_dbl_registered h).2

/-- Witness of C6: the registry enumerated in the order of its
initialiser. -/
theorem get_all_quantities_counts_every_occurrence_witness :
    (module_wrapper_creators sample_headers).Perm (module_wrapper_creators sample_headers) ∧
    ∃ quantity_map : quantity_map_type,
      get_all_quantities sample_headers "" (module_wrapper_creators sample_headers) =
        .ok quantity_map ∧
      (rows_of quantity_map).countP (fun r => r.2.1 == "input" && r.2.2 == "doy_dbl") =
        ((registered_modules sample_headers).map
          (fun p => p.2.get_inputs.count "doy_dbl")).sum ∧
      ((registered_modules sample_headers).map
          (fun p => p.2.get_inputs.count "doy_dbl")).sum = 2 := by
  refine ⟨List.Perm.refl _, ?_⟩
  obtain ⟨quantity_map, hq, hin, -, -, -⟩ :=
    get_all_quantities_counts_every_occurrence sample_headers ""
      (module_wrapper_creators sample_headers) (List.Perm.refl _)
  exact ⟨quantity_map, hq, hin "doy_dbl", by decide⟩

theorem create_when_true (h : module_headers) (what name : String) :
    create_when (fun _ => true) h what name = create h what name := by
  unfold create_when create
  cases hl : map_at what (module_wrapper_creators h) name with
  | ok f => simp [Except.map]
  | error e => cases e <;> simp [Except.map]

theorem get_all_quantities_loop_when_true (h : module_headers) (what : String)
    (names : List String) (quantity_map : quantity_map_type) :
    get_all_quantities_loop_when (fun _ => true) h what names quantity_map =
      get_all_quantities_loop h what names quantity_map := by
  induction names generalizing quantity_map with
  | nil => rfl
  | cons name names ih =>
    simp only [get_all_quantities_loop_when, get_all_quantities_loop, create_when_true]
    cases create h what name with
    | error e => rfl
    | ok w => exact ih _

theorem create_when_of_registered (new_succeeds : String → Bool) (h : module_headers)
    (what name : String) (hname : name ∈ registered_names) :
    create_when new_succeeds h what name =
      if new_succeeds name then .ok (module_wrapper (class_of h name))
      else .error .bad_alloc := by
  have hl : (registered_modules h).lookup name = some (class_of h name) :=
    lookup_eq_some_of_mem name _ _
      (by rw [registered_modules_keys]; exact registered_names_nodup)
      (lookup_registered h name hname)
  simp [create_when, map_at, module_wrapper_creators_eq, lookup_map_snd, hl, create_wrapper]

theorem get_all_quantities_loop_when_first_failure (new_succeeds : String → Bool)
    (h : module_headers) (what : String)
    (done : List String) (module_name : String) (rest : List String) (e : exception)
    (hdone : ∀ n ∈ done, ∃ w, create_when new_succeeds h what n = .ok w)
    (hfail : create_when new_succeeds h what module_name = .error e)
    (quantity_map : quantity_map_type) :
    get_all_quantities_loop_when new_succeeds h what (done ++ module_name :: rest)
      quantity_map = .error e := by
  induction done generalizing quantity_map with
  | nil => simp [get_all_quantities_loop_when, hfail]
  | cons n done ih =>
    obtain ⟨w, hw⟩ := hdone n (List.mem_cons_self _ _)
    simp only [List.cons_append, get_all_quantities_loop_when, hw]
    exact ih (fun m hm => hdone m (List.mem_cons_of_mem _ hm)) _

theorem exists_first_false (new_succeeds : String → Bool) (names : List String)
    (hfail : ∃ n ∈ names, new_succeeds n = false) :
    ∃ done module_name rest, names = done ++ module_name :: rest ∧
      (∀ n ∈ done, new_succeeds n = true) ∧ new_succeeds module_name = false := by
  induction names with
  | nil => simp at hfail
  | cons n names ih =>
    cases hn : new_succeeds n with
    | false => exact ⟨[], n, names, rfl, by simp, hn⟩
    | true =>
      have htail : ∃ m ∈ names, new_succeeds m = false := by
        obtain ⟨m, hm, he⟩ := hfail
        rcases List.mem_cons.1 hm with rfl | hm
        · rw [hn] at he; cases he
        · exact ⟨m, hm, he⟩
      obtain ⟨done, module_name, rest, hsplit, hdone, he⟩ := ih htail
      refine ⟨n :: done, module_name, rest, by rw [hsplit]; rfl, ?_, he⟩
      intro m hm
      rcases List.mem_cons.1 hm with rfl | hm
      · exact hn
      · exact hdone m hm

/-- C7: the catalog build is all-or-nothing.  On a run of
`get_all_quantities` over the registry in which the instantiation of a module
of the sequence of `get_modules` fails, because `new` throws `std::bad_alloc`
in `create_wrapper`, the function returns no table: it fails with the error
of the first module of the sequence whose instantiation fails, whatever the
loop has accumulated for the modules before it.  On a run in which every
allocation succeeds the function is `get_all_quantities`. -/
theorem get_all_quantities_all_or_nothing (new_succeeds : String → Bool)
    (h : module_headers) (what : String)
    (enumeration : module_wrapper_creator_map)
    (henum : enumeration.Perm (module_wrapper_creators h))
    (failing : String) (hmem : failing ∈ get_modules enumeration)
    (hfail : new_succeeds failing = false) :
    ∃ done module_name rest,
      get_modules enumeration = done ++ module_name :: rest ∧
      (∀ n ∈ done, ∃ w, create_when new_succeeds h what n = .ok w) ∧
      create_when new_succeeds h what module_name = .error .bad_alloc ∧
      get_all_quantities_when new_succeeds h what enumeration = .error .bad_alloc ∧
      (∀ quantity_map : quantity_map_type,
        get_all_quantities_loop_when new_succeeds h what (module_name :: rest) quantity_map =
          .error .bad_alloc) ∧
      get_all_quantities_when (fun _ => true) h what enumeration =
        get_all_quantities h what enumeration := by
  have hsub : ∀ name ∈ get_modules enumeration, name ∈ registered_names := by
    intro name hname
    rw [get_modules_of_perm h enumeration henum] at hname
    exact registered_perm_sorted_names.symm.subset hname
  obtain ⟨done, module_name, rest, hsplit, hdone, he⟩ :=
    exists_first_false new_succeeds (get_modules enumeration) ⟨failing, hmem, hfail⟩
  have hdone2 : ∀ n ∈ done, ∃ w, create_when new_succeeds h what n = .ok w := by
    intro n hn
    have hreg : n ∈ registered_names := hsub n (by rw [hsplit]; simp [hn])
    exact ⟨_, by rw [create_when_of_registered new_succeeds h what n hreg, hdone n hn]; rfl⟩
  have hfail2 : create_when new_succeeds h what module_name = .error .bad_alloc := by
    have hreg : module_name ∈ registered_names := hsub module_name (by rw [hsplit]; simp)
    rw [create_when_of_registered new_succeeds h what module_name hreg, he]
    rfl
  refine ⟨done, module_name, rest, hsplit, hdone2, hfail2, ?_, ?_, ?_⟩
  · simp only [get_all_quantities_when, hsplit]
    exact get_all_quantities_loop_when_first_failure new_succeeds h what done module_name rest
      _ hdone2 hfail2 _
  · intro quantity_map
    exact get_all_quantities_loop_when_first_failure new_succeeds h what [] module_name rest
      _ (by simp) hfail2 _
  · simp only [get_all_quantities_when, get_all_quantities,
      get_all_quantities_loop_when_true]

/-- Witness of C7: the registry in the order of its initialiser, on a run in
which the allocation for `magic_clock` fails. -/
theorem get_all_quantities_all_or_nothing_witness :
    (module_wrapper_creators sample_headers).Perm (module_wrapper_creators sample_headers) ∧
    "magic_clock" ∈ get_modules (module_wrapper_creators sample_headers) ∧
    get_all_quantities_when (fun name => name != "magic_clock") sample_headers ""
      (module_wrapper_creators sample_headers) = .error .bad_alloc := by
  have hmem : "magic_clock" ∈ get_modules (module_wrapper_creators sample_headers) := by
    rw [get_modules_of_perm sample_headers _ (List.Perm.refl _)]
    decide
  obtain ⟨_, _, _, _, _, _, hq, _, _⟩ :=
    get_all_quantities_all_or_nothing (fun name => name != "magic_clock") sample_headers ""
      (module_wrapper_creators sample_headers) (List.Perm.refl _) "magic_clock" hmem
      (by decide)
  exact ⟨List.Perm.refl _, hmem, hq⟩

/-! ## Binding a module to its parameter maps -/

theorem bind_outcome_spec {F α : Type} (input_parameters output_parameters : state_map F)
    (inputs outputs : List String) (self : α) :
    ((∃ m, bind_outcome input_parameters output_parameters inputs outputs self = .ok m) ↔
      (∀ q ∈ inputs, has_quantity input_parameters q = true) ∧
      (∀ q ∈ outputs, has_quantity output_parameters q = true)) ∧
    ((∃ e, bind_outcome input_parameters output_parameters inputs outputs self = .error e) ↔
      (∃ q ∈ inputs, has_quantity input_parameters q = false) ∨
      (∃ q ∈ outputs, has_quantity output_parameters q = false)) ∧
    (∀ e, bind_outcome input_parameters output_parameters inputs outputs self = .error e →
      ∃ q, e = .quantity_not_found q ∧
        ((q ∈ inputs ∧ has_quantity input_parameters q = false) ∨
         (q ∈ outputs ∧ has_quantity output_parameters q = false))) ∧
    (∀ m, bind_outcome input_parameters output_parameters inputs outputs self = .ok m →
      m = self) := by
  unfold bind_outcome first_missing
  cases hi : inputs.find? (fun q => !has_quantity input_parameters q) with
  | some q =>
    have hq : has_quantity input_parameters q = false := by simpa using List.find?_some hi
    have hmem := List.mem_of_find?_eq_some hi
    refine ⟨?_, ?_, ?_, ?_⟩
    · simp only [false_iff, not_and, reduceCtorEq, exists_false]
      intro hall
      have := hall q hmem
      simp [hq] at this
    · simp only [Except.error.injEq, exists_eq', true_iff]
      exact Or.inl ⟨q, hmem, hq⟩
    · intro e he
      cases he
      exact ⟨q, rfl, Or.inl ⟨hmem, hq⟩⟩
    · intro m hm
      cases hm
  | none =>
    have hin : ∀ q ∈ inputs, has_quantity input_parameters q = true := by
      simpa using List.find?_eq_none.1 hi
    cases ho : outputs.find? (fun q => !has_quantity output_parameters q) with
    | some q =>
      have hq : has_quantity output_parameters q = false := by simpa using List.find?_some ho
      have hmem := List.mem_of_find?_eq_some ho
      refine ⟨?_, ?_, ?_, ?_⟩
      · simp only [false_iff, not_and, reduceCtorEq, exists_false]
        intro _ hall
        have := hall q hmem
        simp [hq] at this
      · simp only [Except.error.injEq, exists_eq', true_iff]
        exact Or.inr ⟨q, hmem, hq⟩
      · intro e he
        cases he
        exact ⟨q, rfl, Or.inr ⟨hmem, hq⟩⟩
      · intro m hm
        cases hm
    | none =>
      have hout : ∀ q ∈ outputs, has_quantity output_parameters q = true := by
        simpa using List.find?_eq_none.1 ho
      refine ⟨?_, ?_, ?_, ?_⟩
      · simp only [Except.ok.injEq, exists_eq', true_iff]
        exact ⟨hin, hout⟩
      · simp only [reduceCtorEq, exists_false, false_iff, not_or, not_exists, not_and]
        exact ⟨fun q hq => by simp [hin q hq], fun q hq => by simp [hout q hq]⟩
      · intro e he
        cases he
      · intro m hm
        cases hm
        rfl

theorem gaussian_solar_construct_eq {F : Type}
    (input_parameters output_parameters : state_map F) :
    gaussian_solar.construct input_parameters output_parameters =
      bind_outcome input_parameters output_parameters gaussian_solar.get_inputs
        gaussian_solar.get_outputs
        {
        doy_dbl_ip := "doy_dbl",
        target_doy_dbl_ip := "target_doy_dbl",
        new_dl_ip := "new_dl",
        solar_op := "solar" } := by
  by_cases h1 : has_quantity input_parameters "doy_dbl" = true
  swap
  · simp [gaussian_solar.construct, bind_outcome, first_missing, get_ip, get_op, bind,
      Except.bind, pure, Except.pure, gaussian_solar.get_inputs,
      gaussian_solar.get_outputs, *]
  by_cases h2 : has_quantity input_parameters "target_doy_dbl" = true
  swap
  · simp [gaussian_solar.construct, bind_outcome, first_missing, get_ip, get_op, bind,
      Except.bind, pure, Except.pure, gaussian_solar.get_inputs,
      gaussian_solar.get_outputs, *]
  by_cases h3 : has_quantity input_parameters "new_dl" = true
  swap
  · simp [gaussian_solar.construct, bind_outcome, first_missing, get_ip, get_op, bind,
      Except.bind, pure, Except.pure, gaussian_solar.get_inputs,
      gaussian_solar.get_outputs, *]
  by_cases h4 : has_quantity output_parameters "solar" = true
  swap
  · simp [gaussian_solar.construct, bind_outcome, first_missing, get_ip, get_op, bind,
      Except.bind, pure, Except.pure, gaussian_solar.get_inputs,
      gaussian_solar.get_outputs, *]
  simp [gaussian_solar.construct, bind_outcome, first_missing, get_ip, get_op, bind,
      Except.bind, pure, Except.pure, gaussian_solar.get_inputs,
      gaussian_solar.get_outputs, *]

theorem oscillator_clock_calculator_sk_construct_eq {F : Type}
    (input_parameters output_parameters : state_map F) :
    oscillator_clock_calculator_sk.construct input_parameters output_parameters =
      bind_outcome input_parameters output_parameters oscillator_clock_calculator_sk.get_inputs
        oscillator_clock_calculator_sk.get_outputs
        {
        doy_dbl_ip := "doy_dbl",
        kick_strength_ip := "kick_strength",
        kick_start_ip := "kick_start",
        kick_end_ip := "kick_end",
        dawn_b_ip := "dawn_b",
        dawn_a_ip := "dawn_a",
        dusk_b_ip := "dusk_b",
        dusk_a_ip := "dusk_a",
        ref_b_ip := "ref_b",
        ref_a_ip := "ref_a",
        dawn_kick_op := "dawn_kick",
        dusk_kick_op := "dusk_kick",
        dawn_phase_op := "dawn_phase",
        dusk_phase_op := "dusk_phase",
        ref_phase_op := "ref_phase",
        dawn_radius_op := "dawn_radius",
        dusk_radius_op := "dusk_radius",
        ref_radius_op := "ref_radius",
        day_length_op := "day_length",
        night_length_op := "night_length",
        sunrise_op := "sunrise",
        sunset_op := "sunset" } := by
  by_cases h1 : has_quantity input_parameters "doy_dbl" = true
  swap
  · simp [oscillator_clock_calculator_sk.construct, bind_outcome, first_missing, get_ip, get_op, bind,
      Except.bind, pure, Except.pure, oscillator_clock_calculator_sk.get_inputs,
      oscillator_clock_calculator_sk.get_outputs, *]
  by_cases h2 : has_quantity input_parameters "kick_strength" = true
  swap
  · simp [oscillator_clock_calculator_sk.construct, bind_outcome, first_missing, get_ip, get_op, bind,
      Except.bind, pure, Except.pure, oscillator_clock_calculator_sk.get_inputs,
      oscillator_clock_calculator_sk.get_outputs, *]
  by_cases h3 : has_quantity input_parameters "kick_start" = true
  swap
  · simp [oscillator_clock_calculator_sk.construct, bind_outcome, first_missing, get_ip, get_op, bind,
      Except.bind, pure, Except.pure, oscillator_clock_calculator_sk.get_inputs,
      oscillator_clock_calculator_sk.get_outputs, *]
  by_cases h4 : has_quantity input_parameters "kick_end" = true
  swap
  · simp [oscillator_clock_calculator_sk.construct, bind_outcome, first_missing, get_ip, get_op, bind,
      Except.bind, pure, Except.pure, oscillator_clock_calculator_sk.get_inputs,
      oscillator_clock_calculator_sk.get_outputs, *]
  by_cases h5 : has_quantity input_parameters "dawn_b" = true
  swap
  · simp [oscillator_clock_calculator_sk.construct, bind_outcome, first_missing, get_ip, get_op, bind,
      Except.bind, pure, Except.pure, oscillator_clock_calculator_sk.get_inputs,
      oscillator_clock_calculator_sk.get_outputs, *]
  by_cases h6 : has_quantity input_parameters "dawn_a" = true
  swap
  · simp [oscillator_clock_calculator_sk.construct, bind_outcome, first_missing, get_ip, get_op, bind,
      Except.bind, pure, Except.pure, oscillator_clock_calculator_sk.get_inputs,
      oscillator_clock_calculator_sk.get_outputs, *]
  by_cases h7 : has_quantity input_parameters "dusk_b" = true
  swap
  · simp [oscillator_clock_calculator_sk.construct, bind_outcome, first_missing, get_ip, get_op, bind,
      Except.bind, pure, Except.pure, oscillator_clock_calculator_sk.get_inputs,
      oscillator_clock_calculator_sk.get_outputs, *]
  by_cases h8 : has_quantity input_parameters "dusk_a" = true
  swap
  · simp [oscillator_clock_calculator_sk.construct, bind_outcome, first_missing, get_ip, get_op, bind,
      Except.bind, pure, Except.pure, oscillator_clock_calculator_sk.get_inputs,
      oscillator_clock_calculator_sk.get_outputs, *]
  by_cases h9 : has_quantity input_parameters "ref_b" = true
  swap
  · simp [oscillator_clock_calculator_sk.construct, bind_outcome, first_missing, get_ip, get_op, bind,
      Except.bind, pure, Except.pure, oscillator_clock_calculator_sk.get_inputs,
      oscillator_clock_calculator_sk.get_outputs, *]
  by_cases h10 : has_quantity input_parameters "ref_a" = true
  swap
  · simp [oscillator_clock_calculator_sk.construct, bind_outcome, first_missing, get_ip, get_op, bind,
      Except.bind, pure, Except.pure, oscillator_clock_calculator_sk.get_inputs,
      oscillator_clock_calculator_sk.get_outputs, *]
  by_cases h11 : has_quantity output_parameters "dawn_kick" = true
  swap
  · simp [oscillator_clock_calculator_sk.construct, bind_outcome, first_missing, get_ip, get_op, bind,
      Except.bind, pure, Except.pure, oscillator_clock_calculator_sk.get_inputs,
      oscillator_clock_calculator_sk.get_outputs, *]
  by_cases h12 : has_quantity output_parameters "dusk_kick" = true
  swap
  · simp [oscillator_clock_calculator_sk.construct, bind_outcome, first_missing, get_ip, get_op, bind,
      Except.bind, pure, Except.pure, oscillator_clock_calculator_sk.get_inputs,
      oscillator_clock_calculator_sk.get_outputs, *]
  by_cases h13 : has_quantity output_parameters "dawn_phase" = true
  swap
  · simp [oscillator_clock_calculator_sk.construct, bind_outcome, first_missing, get_ip, get_op, bind,
      Except.bind, pure, Except.pure, oscillator_clock_calculator_sk.get_inputs,
      oscillator_clock_calculator_sk.get_outputs, *]
  by_cases h14 : has_quantity output_parameters "dusk_phase" = true
  swap
  · simp [oscillator_clock_calculator_sk.construct, bind_outcome, first_missing, get_ip, get_op, bind,
      Except.bind, pure, Except.pure, oscillator_clock_calculator_sk.get_inputs,
      oscillator_clock_calculator_sk.get_outputs, *]
  by_cases h15 : has_quantity output_parameters "ref_phase" = true
  swap
  · simp [oscillator_clock_calculator_sk.construct, bind_outcome, first_missing, get_ip, get_op, bind,
      Except.bind, pure, Except.pure, oscillator_clock_calculator_sk.get_inputs,
      oscillator_clock_calculator_sk.get_outputs, *]
  by_cases h16 : has_quantity output_parameters "dawn_radius" = true
  swap
  · simp [oscillator_clock_calculator_sk.construct, bind_outcome, first_missing, get_ip, get_op, bind,
      Except.bind, pure, Except.pure, oscillator_clock_calculator_sk.get_inputs,
      oscillator_clock_calculator_sk.get_outputs, *]
  by_cases h17 : has_quantity output_parameters "dusk_radius" = true
  swap
  · simp [oscillator_clock_calculator_sk.construct, bind_outcome, first_missing, get_ip, get_op, bind,
      Except.bind, pure, Except.pure, oscillator_clock_calculator_sk.get_inputs,
      oscillator_clock_calculator_sk.get_outputs, *]
  by_cases h18 : has_quantity output_parameters "ref_radius" = true
  swap
  · simp [oscillator_clock_calculator_sk.construct, bind_outcome, first_missing, get_ip, get_op, bind,
      Except.bind, pure, Except.pure, oscillator_clock_calculator_sk.get_inputs,
      oscillator_clock_calculator_sk.get_outputs, *]
  by_cases h19 : has_quantity output_parameters "day_length" = true
  swap
  · simp [oscillator_clock_calculator_sk.construct, bind_outcome, first_missing, get_ip, get_op, bind,
      Except.bind, pure, Except.pure, oscillator_clock_calculator_sk.get_inputs,
      oscillator_clock_calculator_sk.get_outputs, *]
  by_cases h20 : has_quantity output_parameters "night_length" = true
  swap
  · simp [oscillator_clock_calculator_sk.construct, bind_outcome, first_missing, get_ip, get_op, bind,
      Except.bind, pure, Except.pure, oscillator_clock_calculator_sk.get_inputs,
      oscillator_clock_calculator_sk.get_outputs, *]
  by_cases h21 : has_quantity output_parameters "sunrise" = true
  swap
  · simp [oscillator_clock_calculator_sk.construct, bind_outcome, first_missing, get_ip, get_op, bind,
      Except.bind, pure, Except.pure, oscillator_clock_calculator_sk.get_inputs,
      oscillator_clock_calculator_sk.get_outputs, *]
  by_cases h22 : has_quantity output_parameters "sunset" = true
  swap
  · simp [oscillator_clock_calculator_sk.construct, bind_outcome, first_missing, get_ip, get_op, bind,
      Except.bind, pure, Except.pure, oscillator_clock_calculator_sk.get_inputs,
      oscillator_clock_calculator_sk.get_outputs, *]
  simp [oscillator_clock_calculator_sk.construct, bind_outcome, first_missing, get_ip, get_op, bind,
      Except.bind, pure, Except.pure, oscillator_clock_calculator_sk.get_inputs,
      oscillator_clock_calculator_sk.get_outputs, *]


theorem bind_outcome_spec_of_eq {F α : Type} (input_parameters output_parameters : state_map F)
    (inputs outputs : List String) (self : α) (c : Except exception α)
    (hc : c = bind_outcome input_parameters output_parameters inputs outputs self) :
    ((∃ m, c = .ok m) ↔
      (∀ q ∈ inputs, has_quantity input_parameters q = true) ∧
      (∀ q ∈ outputs, has_quantity output_parameters q = true)) ∧
    ((∃ e, c = .error e) ↔
      (∃ q ∈ inputs, has_quantity input_parameters q = false) ∨
      (∃ q ∈ outputs, has_quantity output_parameters q = false)) ∧
    (∀ e, c = .error e →
      ∃ q, e = .quantity_not_found q ∧
        ((q ∈ inputs ∧ has_quantity input_parameters q = false) ∨
         (q ∈ outputs ∧ has_quantity output_parameters q = false))) ∧
    (∀ m, c = .ok m → m = self) := by
  subst hc
  exact bind_outcome_spec input_parameters output_parameters inputs outputs self

/-- C8: binding succeeds exactly when the maps hold every declared quantity.
The constructor of `gaussian_solar` (of `oscillator_clock_calculator_sk`)
returns an instance if and only if every name of `get_inputs` has an entry
in the input map and every name of `get_outputs` has an entry in the output
map; it fails if and only if one of them is missing, the error is the
missing-quantity error for a declared name that is missing, and the pointers
of a constructed instance are, in order, the names of `get_inputs` and of
`get_outputs`. -/
theorem construct_succeeds_iff_declared_quantities_present {F : Type}
    (input_parameters output_parameters : state_map F) :
    (((∃ m, gaussian_solar.construct input_parameters output_parameters = .ok m) ↔
        (∀ q ∈ gaussian_solar.get_inputs, has_quantity input_parameters q = true) ∧
        (∀ q ∈ gaussian_solar.get_outputs, has_quantity output_parameters q = true)) ∧
      ((∃ e, gaussian_solar.construct input_parameters output_parameters = .error e) ↔
        (∃ q ∈ gaussian_solar.get_inputs, has_quantity input_parameters q = false) ∨
        (∃ q ∈ gaussian_solar.get_outputs, has_quantity output_parameters q = false)) ∧
      (∀ e, gaussian_solar.construct input_parameters output_parameters = .error e →
        ∃ q, e = .quantity_not_found q ∧
          ((q ∈ gaussian_solar.get_inputs ∧ has_quantity input_parameters q = false) ∨
           (q ∈ gaussian_solar.get_outputs ∧ has_quantity output_parameters q = false))) ∧
      (∀ m, gaussian_solar.construct input_parameters output_parameters = .ok m →
        [
          m.doy_dbl_ip, m.target_doy_dbl_ip, m.new_dl_ip] =
          gaussian_solar.get_inputs ∧
        [
          m.solar_op] =
          gaussian_solar.get_outputs)) ∧
    (((∃ m, oscillator_clock_calculator_sk.construct input_parameters output_parameters = .ok m) ↔
        (∀ q ∈ oscillator_clock_calculator_sk.get_inputs, has_quantity input_parameters q = true) ∧
        (∀ q ∈ oscillator_clock_calculator_sk.get_outputs, has_quantity output_parameters q = true)) ∧
      ((∃ e, oscillator_clock_calculator_sk.construct input_parameters output_parameters = .error e) ↔
        (∃ q ∈ oscillator_clock_calculator_sk.get_inputs, has_quantity input_parameters q = false) ∨
        (∃ q ∈ oscillator_clock_calculator_sk.get_outputs, has_quantity output_parameters q = false)) ∧
      (∀ e, oscillator_clock_calculator_sk.construct input_parameters output_parameters = .error e →
        ∃ q, e = .quantity_not_found q ∧
          ((q ∈ oscillator_clock_calculator_sk.get_inputs ∧ has_quantity input_parameters q = false) ∨
           (q ∈ oscillator_clock_calculator_sk.get_outputs ∧ has_quantity output_parameters q = false))) ∧
      (∀ m, oscillator_clock_calculator_sk.construct input_parameters output_parameters = .ok m →
        [
          m.doy_dbl_ip, m.kick_strength_ip, m.kick_start_ip, m.kick_end_ip,
          m.dawn_b_ip, m.dawn_a_ip, m.dusk_b_ip, m.dusk_a_ip,
          m.ref_b_ip, m.ref_a_ip] =
          oscillator_clock_calculator_sk.get_inputs ∧
        [
          m.dawn_kick_op, m.dusk_kick_op, m.dawn_phase_op, m.dusk_phase_op,
          m.ref_phase_op, m.dawn_radius_op, m.dusk_radius_op, m.ref_radius_op,
          m.day_length_op, m.night_length_op, m.sunrise_op, m.sunset_op] =
          oscillator_clock_calculator_sk.get_outputs)) := by
  constructor
  · obtain ⟨h1, h2, h3, h4⟩ := bind_outcome_spec_of_eq input_parameters output_parameters _ _ _ _
      (gaussian_solar_construct_eq input_parameters output_parameters)
    refine ⟨h1, h2, h3, ?_⟩
    intro m hm
    rw [h4 m hm]
    exact ⟨rfl, rfl⟩
  · obtain ⟨h1, h2, h3, h4⟩ := bind_outcome_spec_of_eq input_parameters output_parameters _ _ _ _
      (oscillator_clock_calculator_sk_construct_eq input_parameters output_parameters)
    refine ⟨h1, h2, h3, ?_⟩
    intro m hm
    rw [h4 m hm]
    exact ⟨rfl, rfl⟩

/-- Witness of C8: the maps of the spec bind `gaussian_solar`; without the
entry `new_dl` the construction fails with the error for `new_dl`. -/
theorem construct_succeeds_iff_declared_quantities_present_witness :
    (∃ m, gaussian_solar.construct
        [("doy_dbl", (25 / 2 : ℚ)), ("target_doy_dbl", 200), ("new_dl", 14)]
        [("solar", (0 : ℚ))] = .ok m) ∧
    gaussian_solar.construct
        [("doy_dbl", (25 / 2 : ℚ)), ("target_doy_dbl", 200)]
        [("solar", (0 : ℚ))] = .error (.quantity_not_found "new_dl") := by
  refine ⟨?_, rfl⟩
  exact (construct_succeeds_iff_declared_quantities_present
    [("doy_dbl", (25 / 2 : ℚ)), ("target_doy_dbl", 200), ("new_dl", 14)]
    [("solar", (0 : ℚ))]).1.1.2 ⟨by decide, by decide⟩

/-! ## `gaussian_solar::do_operation` -/

theorem lookup_update_self {F : Type} (m : state_map F) (p : pointer) (value : F)
    (hp : has_quantity m p = true) : deref (update m p value) p = some value := by
  induction m with
  | nil => simp [has_quantity, List.lookup] at hp
  | cons e m ih =>
    obtain ⟨k, x⟩ := e
    by_cases hk : p = k
    · subst hk
      show List.lookup p ((if p = p then (p, value) else (p, x)) :: _) = some value
      rw [if_pos rfl]
      simp [List.lookup]
    · have hb : (p == k) = false := by simpa using hk
      have hkp : ¬ k = p := fun h => hk h.symm
      simp only [has_quantity, List.lookup, hb] at hp
      show List.lookup p ((if k = p then (k, value) else (k, x)) :: update m p value) =
        some value
      rw [if_neg hkp]
      simp only [List.lookup, hb]
      exact ih hp

theorem gaussian_solar_construct_ok {F : Type} (input_parameters output_parameters : state_map F)
    (self : gaussian_solar)
    (hself : gaussian_solar.construct input_parameters output_parameters = .ok self) :
    self = { doy_dbl_ip := "doy_dbl", target_doy_dbl_ip := "target_doy_dbl",
             new_dl_ip := "new_dl", solar_op := "solar" } ∧
    has_quantity output_parameters "solar" = true := by
  obtain ⟨h1, -, -, h4⟩ := bind_outcome_spec_of_eq input_parameters output_parameters _ _ _ _
    (gaussian_solar_construct_eq input_parameters output_parameters)
  refine ⟨h4 self hself, ?_⟩
  exact (h1.1 ⟨self, hself⟩).2 "solar" (by simp [gaussian_solar.get_outputs])

theorem gaussian_solar_do_operation_eq {F : Type} [LinearOrderedField F] [FloorRing F]
    (exp : F → F) (self : gaussian_solar) (input_parameters output_parameters : state_map F)
    (doy_dbl target_doy_dbl new_dl : F)
    (hself : gaussian_solar.construct input_parameters output_parameters = .ok self)
    (hdoy : deref input_parameters "doy_dbl" = some doy_dbl)
    (htarget : deref input_parameters "target_doy_dbl" = some target_doy_dbl)
    (hnew : deref input_parameters "new_dl" = some new_dl) :
    gaussian_solar.do_operation exp self input_parameters output_parameters =
      some (update output_parameters "solar"
        (gaussian_solar.calculations exp doy_dbl target_doy_dbl new_dl).solar) := by
  rw [(gaussian_solar_construct_ok input_parameters output_parameters self hself).1]
  simp [gaussian_solar.do_operation, hdoy, htarget, hnew]

theorem exp_neg_lt_of_lt_exp19 : Real.exp (-(144 / (2.75 : ℝ) ^ 2)) < 1 / 100000000 := by
  have h1 : (100000000 : ℝ) < Real.exp 19 := by
    have hpow : Real.exp 19 = Real.exp 1 ^ 19 := by
      rw [← Real.exp_nat_mul]; norm_num
    rw [hpow]
    have hb : (2.7182818283 : ℝ) < Real.exp 1 := Real.exp_one_gt_d9
    calc (100000000 : ℝ) < (2.7182818283 : ℝ) ^ 19 := by norm_num
      _ < Real.exp 1 ^ 19 := pow_lt_pow_left₀ hb (by norm_num) (by norm_num)
  have h2 : Real.exp 19 ≤ Real.exp (144 / (2.75 : ℝ) ^ 2) :=
    Real.exp_le_exp.2 (by norm_num)
  rw [Real.exp_neg, inv_eq_one_div]
  exact one_div_lt_one_div_of_lt (by norm_num) (lt_of_lt_of_le h1 h2)

/-- C10: for every `doy_dbl` strictly less than `target_doy_dbl`,
`gaussian_solar` stores `1000 * exp(-(hour - 12)^2 / sigma^2)` in `solar`,
with `hour = 24 * (doy_dbl - floor(doy_dbl))` and `sigma = 11/4 = 2.75`,
whatever `new_dl` is.  For `doy_dbl = 12`, `target_doy_dbl = 200`,
`new_dl = 14` this gives `hour = 0` and
`solar = 1000 * exp(-144 / 2.75^2)`, which is positive and below 0.00001. -/
theorem gaussian_solar_before_target :
    (∀ (self : gaussian_solar) (input_parameters output_parameters : state_map ℝ)
        (doy_dbl target_doy_dbl new_dl : ℝ),
      gaussian_solar.construct input_parameters output_parameters = .ok self →
      deref input_parameters "doy_dbl" = some doy_dbl →
      deref input_parameters "target_doy_dbl" = some target_doy_dbl →
      deref input_parameters "new_dl" = some new_dl →
      doy_dbl < target_doy_dbl →
      (gaussian_solar.calculations Real.exp doy_dbl target_doy_dbl new_dl).hour =
        24 * (doy_dbl - ⌊doy_dbl⌋) ∧
      (gaussian_solar.calculations Real.exp doy_dbl target_doy_dbl new_dl).sigma = 11 / 4 ∧
      (11 / 4 : ℝ) = 2.75 ∧
      gaussian_solar.do_operation Real.exp self input_parameters output_parameters =
        some (update output_parameters "solar"
          (1000 * Real.exp (-(24 * (doy_dbl - ⌊doy_dbl⌋) - 12) ^ 2 / (11 / 4) ^ 2))) ∧
      deref (update output_parameters "solar"
          (1000 * Real.exp (-(24 * (doy_dbl - ⌊doy_dbl⌋) - 12) ^ 2 / (11 / 4) ^ 2))) "solar" =
        some (1000 * Real.exp (-(24 * (doy_dbl - ⌊doy_dbl⌋) - 12) ^ 2 / (11 / 4) ^ 2))) ∧
    (gaussian_solar.calculations Real.exp 12.0 200 14.0).hour = 0 ∧
    (gaussian_solar.calculations Real.exp 12.0 200 14.0).solar =
      1000 * Real.exp (-144 / 2.75 ^ 2) ∧
    0 < (gaussian_solar.calculations Real.exp 12.0 200 14.0).solar ∧
    (gaussian_solar.calculations Real.exp 12.0 200 14.0).solar < 0.00001 := by
  have hsolar : ∀ doy_dbl target_doy_dbl new_dl : ℝ, doy_dbl < target_doy_dbl →
      (gaussian_solar.calculations Real.exp doy_dbl target_doy_dbl new_dl).solar =
        1000 * Real.exp (-(24 * (doy_dbl - ⌊doy_dbl⌋) - 12) ^ 2 / (11 / 4) ^ 2) := by
    intro doy_dbl target_doy_dbl new_dl hlt
    simp only [gaussian_solar.calculations, if_pos hlt]
    congr 2
    ring
  have hfloor : ⌊(12.0 : ℝ)⌋ = 12 := by
    rw [Int.floor_eq_iff]; norm_num
  have h12 : (gaussian_solar.calculations Real.exp 12.0 200 14.0).solar =
      1000 * Real.exp (-(144 / (2.75 : ℝ) ^ 2)) := by
    rw [hsolar 12.0 200 14.0 (by norm_num), hfloor]
    norm_num
  refine ⟨?_, ?_, ?_, ?_, ?_⟩
  · intro self input_parameters output_parameters doy_dbl target_doy_dbl new_dl hself hdoy
      htarget hnew hlt
    refine ⟨rfl, ?_, by norm_num, ?_, ?_⟩
    · simp only [gaussian_solar.calculations, if_pos hlt]
    · rw [gaussian_solar_do_operation_eq Real.exp self input_parameters output_parameters
        doy_dbl target_doy_dbl new_dl hself hdoy htarget hnew, hsolar _ _ _ hlt]
    · exact lookup_update_self _ _ _
        (gaussian_solar_construct_ok input_parameters output_parameters self hself).2
  · simp only [gaussian_solar.calculations]
    rw [hfloor]
    norm_num
  · rw [h12, neg_div]
  · rw [h12]
    exact mul_pos (by norm_num) (Real.exp_pos _)
  · rw [h12]
    have := exp_neg_lt_of_lt_exp19
    norm_num at this ⊢
    linarith

/-- Witness of C10: the maps of the spec, with `doy_dbl = 12`,
`target_doy_dbl = 200` and `new_dl = 14`. -/
theorem gaussian_solar_before_target_witness :
    gaussian_solar.do_operation Real.exp
        { doy_dbl_ip := "doy_dbl", target_doy_dbl_ip := "target_doy_dbl",
          new_dl_ip := "new_dl", solar_op := "solar" }
        [("doy_dbl", (12.0 : ℝ)), ("target_doy_dbl", 200), ("new_dl", 14.0)]
        [("solar", (0 : ℝ))] =
      some (update [("solar", (0 : ℝ))] "solar"
        (1000 * Real.exp (-(24 * ((12.0 : ℝ) - ⌊(12.0 : ℝ)⌋) - 12) ^ 2 / (11 / 4) ^ 2))) :=
  (gaussian_solar_before_target.1
    { doy_dbl_ip := "doy_dbl", target_doy_dbl_ip := "target_doy_dbl",
      new_dl_ip := "new_dl", solar_op := "solar" }
    [("doy_dbl", (12.0 : ℝ)), ("target_doy_dbl", 200), ("new_dl", 14.0)]
    [("solar", (0 : ℝ))] 12.0 200 14.0 rfl rfl rfl rfl (by norm_num)).2.2.2.1

/-! ## The comparator as a lexicographic order -/

theorem string_compare_self (a : List Char) : string_compare a a = 0 := by
  induction a with
  | nil => rfl
  | cons x xs ih => simp [string_compare, ih]

theorem char_lt_iff_toNat (x y : Char) : x < y ↔ x.toNat < y.toNat := Iff.rfl

theorem string_compare_neg_iff_lex (a b : List Char) :
    string_compare a b < 0 ↔ List.Lex (fun x y : Char => x < y) a b := by
  induction a generalizing b with
  | nil =>
    cases b with
    | nil => simp [string_compare]
    | cons y ys => simp [string_compare, List.Lex.nil]
  | cons x xs ih =>
    cases b with
    | nil => simp [string_compare]
    | cons y ys =>
      simp only [string_compare]
      by_cases h1 : x.toNat < y.toNat
      · simp only [h1, if_true]
        exact ⟨fun _ => List.Lex.rel ((char_lt_iff_toNat x y).2 h1), fun _ => by omega⟩
      · by_cases h2 : y.toNat < x.toNat
        · simp only [h1, h2, if_true, if_false]
          constructor
          · intro h; omega
          · intro h
            cases h with
            | cons h => omega
            | rel h => exact absurd ((char_lt_iff_toNat x y).1 h) h1
        · simp only [h1, h2, if_false]
          have hxy : x = y := by
            apply Char.ext
            apply UInt32.ext
            show x.toNat = y.toNat
            omega
          subst hxy
          rw [ih ys]
          constructor
          · intro h; exact List.Lex.cons h
          · intro h
            cases h with
            | cons h => exact h
            | rel h => exact absurd ((char_lt_iff_toNat x x).1 h) h1

/-- C13: the comparator of `get_modules` is the lowercase-fold comparison.
For all strings `a` and `b`, `case_insensitive_compare a b` is true if and
only if the lowercase copy of `a` is equal to, or lexicographically smaller
than, the lowercase copy of `b`, where `tolower` moves exactly the letters
`A` to `Z`.  It is true for `(a, a)`, and for two strings with the same
lowercase copy it is true in both directions. -/
theorem case_insensitive_compare_is_lowercase_order :
    (∀ a b : String, case_insensitive_compare a b = true ↔
      (a.data.map tolower = b.data.map tolower ∨
        List.Lex (fun x y : Char => x < y) (a.data.map tolower) (b.data.map tolower))) ∧
    (∀ c : Char, tolower c =
      if 'A' ≤ c ∧ c ≤ 'Z' then Char.ofNat (c.toNat + 32) else c) ∧
    (∀ a : String, case_insensitive_compare a a = true) ∧
    (∀ a b : String, a.data.map tolower = b.data.map tolower →
      case_insensitive_compare a b = true ∧ case_insensitive_compare b a = true) ∧
    case_insensitive_compare "Module_1" "module_1" = true ∧
    case_insensitive_compare "module_1" "Module_1" = true := by
  have hiff : ∀ a b : String, case_insensitive_compare a b = true ↔
      (a.data.map tolower = b.data.map tolower ∨
        List.Lex (fun x y : Char => x < y) (a.data.map tolower) (b.data.map tolower)) := by
    intro a b
    rw [← string_compare_neg_iff_lex]
    have h0 : string_compare (a.data.map tolower) (b.data.map tolower) = 0 ↔
        a.data.map tolower = b.data.map tolower :=
      ⟨string_compare_eq_zero _ _, fun h => by rw [h]; exact string_compare_self _⟩
    rw [← h0]
    simp only [case_insensitive_compare]
    constructor
    · intro h
      have : ¬ string_compare (a.data.map tolower) (b.data.map tolower) > 0 := by
        intro hpos; simp [hpos] at h
      omega
    · intro h
      have : ¬ string_compare (a.data.map tolower) (b.data.map tolower) > 0 := by omega
      simp [this]
  refine ⟨hiff, ?_, ?_, ?_, by decide, by decide⟩
  · intro c
    rfl
  · intro a
    exact (hiff a a).2 (Or.inl rfl)
  · intro a b hab
    exact ⟨(hiff a b).2 (Or.inl hab), (hiff b a).2 (Or.inl hab.symm)⟩

/-! ## Reachability of the error branch and the invariant of the catalog -/

theorem create_of_mem_registered_names (h : module_headers) (what name : String)
    (hname : name ∈ registered_names) :
    create h what name = .ok (module_wrapper (class_of h name)) :=
  create_of_registered h what name _ (lookup_registered h name hname)

/-- C19: the module-not-found branch of `create` is not reached from
`get_all_quantities`.  Every name that `get_modules` returns is a key of
`module_wrapper_creators`, so `create` succeeds for it, and
`get_all_quantities` returns a table: it does not fail, in particular not
with `std::out_of_range`. -/
theorem unknown_module_branch_unreachable (h : module_headers) (what : String)
    (enumeration : module_wrapper_creator_map)
    (henum : enumeration.Perm (module_wrapper_creators h)) :
    (∀ name ∈ get_modules enumeration,
      name ∈ (module_wrapper_creators h).map Prod.fst ∧
      ∃ w, create h what name = .ok w) ∧
    (∃ quantity_map, get_all_quantities h what enumeration = .ok quantity_map) ∧
    (∀ message : String,
      get_all_quantities h what enumeration ≠ .error (.out_of_range message)) := by
  refine ⟨?_, ?_, ?_⟩
  · intro name hname
    rw [get_modules_of_perm h enumeration henum] at hname
    have hreg : name ∈ registered_names := registered_perm_sorted_names.symm.subset hname
    exact ⟨by rw [module_wrapper_creators_keys]; exact hreg, _,
      create_of_mem_registered_names h what name hreg⟩
  · exact ⟨_, get_all_quantities_eq h what enumeration henum⟩
  · intro message
    rw [get_all_quantities_eq h what enumeration henum]
    exact fun hne => by cases hne

/-- Witness of C19: the registry enumerated in the reverse of the order of
its initialiser. -/
theorem unknown_module_branch_unreachable_witness :
    (module_wrapper_creators sample_headers).reverse.Perm
      (module_wrapper_creators sample_headers) ∧
    ∀ name ∈ get_modules (module_wrapper_creators sample_headers).reverse,
      name ∈ (module_wrapper_creators sample_headers).map Prod.fst ∧
      ∃ w, create sample_headers "" name = .ok w :=
  ⟨List.reverse_perm _,
    (unknown_module_branch_unreachable sample_headers "" _ (List.reverse_perm _)).1⟩

theorem keys_push_back_at (m : quantity_map_type) (key value : String)
    (hkey : key ∈ m.map Prod.fst) :
    (push_back_at m key value).map Prod.fst = m.map Prod.fst := by
  induction m with
  | nil => simp at hkey
  | cons e m ih =>
    obtain ⟨k, vec⟩ := e
    by_cases hk : k = key
    · simp [push_back_at, hk]
    · have hmem : key ∈ m.map Prod.fst := by
        rcases List.mem_cons.1 hkey with heq | hmem
        · exact absurd heq.symm hk
        · exact hmem
      simp [push_back_at, hk, ih hmem]

theorem column_push_back_at_self (m : quantity_map_type) (key value : String) :
    column (push_back_at m key value) key = column m key ++ [value] := by
  induction m with
  | nil => simp [push_back_at, column, List.lookup]
  | cons e m ih =>
    obtain ⟨k, vec⟩ := e
    by_cases hk : k = key
    · subst hk
      simp [push_back_at, column, List.lookup]
    · have hb : (key == k) = false := by simpa using fun h : key = k => hk h.symm
      simp only [column] at ih
      simp [push_back_at, hk, column, List.lookup, hb, ih]

theorem column_push_back_at_of_ne (m : quantity_map_type) (key value other : String)
    (hne : other ≠ key) :
    column (push_back_at m key value) other = column m other := by
  induction m with
  | nil =>
    have hb : (other == key) = false := by simpa using hne
    simp [push_back_at, column, List.lookup, hb]
  | cons e m ih =>
    obtain ⟨k, vec⟩ := e
    by_cases hk : k = key
    · subst hk
      have hb : (other == k) = false := by simpa using hne
      simp [push_back_at, column, List.lookup, hb]
    · simp only [column] at ih
      by_cases ho : other = k
      · subst ho
        simp [push_back_at, hk, column, List.lookup]
      · have hb : (other == k) = false := by simpa using ho
        simp [push_back_at, hk, column, List.lookup, hb, ih]

theorem well_typed_add_quantity_map_entry (m : quantity_map_type)
    (module_name quantity_type quantity_name : String) (hm : well_typed m)
    (hname : module_name ∈ registered_names)
    (htype : quantity_type = "input" ∨ quantity_type = "output") :
    well_typed (add_quantity_map_entry m module_name quantity_type quantity_name) := by
  obtain ⟨hkeys, hlen1, hlen2, htypes, hnames⟩ := hm
  have hk1 : "module_name" ∈ m.map Prod.fst := hkeys.symm.subset (by simp)
  have hk2 : "quantity_type" ∈ m.map Prod.fst := hkeys.symm.subset (by simp)
  have hk3 : "quantity_name" ∈ m.map Prod.fst := hkeys.symm.subset (by simp)
  have e1 := keys_push_back_at m "module_name" module_name hk1
  have e2 := keys_push_back_at (push_back_at m "module_name" module_name) "quantity_type"
    quantity_type (by rw [e1]; exact hk2)
  have e3 := keys_push_back_at
    (push_back_at (push_back_at m "module_name" module_name) "quantity_type" quantity_type)
    "quantity_name" quantity_name (by rw [e2, e1]; exact hk3)
  have c1 : column (add_quantity_map_entry m module_name quantity_type quantity_name)
      "module_name" = column m "module_name" ++ [module_name] := by
    simp only [add_quantity_map_entry]
    rw [column_push_back_at_of_ne _ _ _ _ (by decide),
      column_push_back_at_of_ne _ _ _ _ (by decide), column_push_back_at_self]
  have c2 : column (add_quantity_map_entry m module_name quantity_type quantity_name)
      "quantity_type" = column m "quantity_type" ++ [quantity_type] := by
    simp only [add_quantity_map_entry]
    rw [column_push_back_at_of_ne _ _ _ _ (by decide), column_push_back_at_self,
      column_push_back_at_of_ne _ _ _ _ (by decide)]
  have c3 : column (add_quantity_map_entry m module_name quantity_type quantity_name)
      "quantity_name" = column m "quantity_name" ++ [quantity_name] := by
    simp only [add_quantity_map_entry]
    rw [column_push_back_at_self, column_push_back_at_of_ne _ _ _ _ (by decide),
      column_push_back_at_of_ne _ _ _ _ (by decide)]
  refine ⟨?_, ?_, ?_, ?_, ?_⟩
  · show (List.map Prod.fst (push_back_at (push_back_at (push_back_at m "module_name"
      module_name) "quantity_type" quantity_type) "quantity_name" quantity_name)).Perm _
    rw [e3, e2, e1]
    exact hkeys
  · rw [c1, c2, List.length_append, List.length_append, hlen1]
    rfl
  · rw [c2, c3, List.length_append, List.length_append, hlen2]
    rfl
  · intro t ht
    rw [c2, List.mem_append] at ht
    rcases ht with ht | ht
    · exact htypes t ht
    · rw [List.mem_singleton.1 ht]; exact htype
  · intro n hn
    rw [c1, List.mem_append] at hn
    rcases hn with hn | hn
    · exact hnames n hn
    · rw [List.mem_singleton.1 hn]; exact hname

theorem well_typed_foldl (m : quantity_map_type) (module_name quantity_type : String)
    (names : List String) (hm : well_typed m) (hname : module_name ∈ registered_names)
    (htype : quantity_type = "input" ∨ quantity_type = "output") :
    well_typed (names.foldl
      (fun qm q => add_quantity_map_entry qm module_name quantity_type q) m) := by
  induction names generalizing m with
  | nil => exact hm
  | cons q names ih =>
    exact ih _ (well_typed_add_quantity_map_entry m module_name quantity_type q hm hname htype)

theorem well_typed_loop (h : module_headers) (what : String) (names : List String)
    (hnames : ∀ name ∈ names, name ∈ registered_names) (m : quantity_map_type)
    (hm : well_typed m) :
    ∃ result, get_all_quantities_loop h what names m = .ok result ∧ well_typed result := by
  induction names generalizing m with
  | nil => exact ⟨m, rfl, hm⟩
  | cons name names ih =>
    have hreg := hnames name (List.mem_cons_self _ _)
    simp only [get_all_quantities_loop, create_of_mem_registered_names h what name hreg]
    apply ih (fun n hn => hnames n (List.mem_cons_of_mem _ hn))
    exact well_typed_foldl _ name "output" _
      (well_typed_foldl m name "input" _ hm hreg (Or.inl rfl)) hreg (Or.inr rfl)

/-- C20: the table built by `get_all_quantities` is rectangular and well
typed at every step.  The initial table has the invariant; every call of
`add_quantity_map_entry` with the name of a module of `get_modules` and the
type `input` or `output` keeps it; the loop keeps it from any table that has
it; and the returned map has it: exactly the three keys `module_name`,
`quantity_type` and `quantity_name`, three vectors of the same length, types
that are `input` or `output`, and module names that are registered. -/
theorem catalog_table_invariant (h : module_headers) (what : String)
    (enumeration : module_wrapper_creator_map)
    (henum : enumeration.Perm (module_wrapper_creators h)) :
    well_typed [("module_name", []), ("quantity_type", []), ("quantity_name", [])] ∧
    (∀ (m : quantity_map_type) (module_name quantity_type quantity_name : String),
      well_typed m → module_name ∈ get_modules enumeration →
      quantity_type = "input" ∨ quantity_type = "output" →
      well_typed (add_quantity_map_entry m module_name quantity_type quantity_name)) ∧
    (∀ (names : List String) (m : quantity_map_type),
      (∀ name ∈ names, name ∈ get_modules enumeration) → well_typed m →
      ∃ result, get_all_quantities_loop h what names m = .ok result ∧ well_typed result) ∧
    (∃ quantity_map, get_all_quantities h what enumeration = .ok quantity_map ∧
      well_typed quantity_map ∧
      (quantity_map.map Prod.fst).Perm ["module_name", "quantity_type", "quantity_name"] ∧
      (column quantity_map "module_name").length =
        (column quantity_map "quantity_type").length ∧
      (column quantity_map "quantity_type").length =
        (column quantity_map "quantity_name").length ∧
      (∀ t ∈ column quantity_map "quantity_type", t = "input" ∨ t = "output") ∧
      (∀ n ∈ column quantity_map "module_name", n ∈ registered_names)) := by
  have hinit : well_typed [("module_name", []), ("quantity_type", []), ("quantity_name", [])] :=
    ⟨List.Perm.refl _, rfl, rfl, by simp [column, List.lookup], by simp [column, List.lookup]⟩
  have hsub : ∀ name ∈ get_modules enumeration, name ∈ registered_names := by
    intro name hname
    rw [get_modules_of_perm h enumeration henum] at hname
    exact registered_perm_sorted_names.symm.subset hname
  refine ⟨hinit, ?_, ?_, ?_⟩
  · intro m module_name quantity_type quantity_name hm hname htype
    exact well_typed_add_quantity_map_entry m _ _ _ hm (hsub _ hname) htype
  · intro names m hnames hm
    exact well_typed_loop h what names (fun n hn => hsub n (hnames n hn)) m hm
  · obtain ⟨result, hres, hwt⟩ := well_typed_loop h what (get_modules enumeration) hsub _ hinit
    exact ⟨result, hres, hwt, hwt⟩

/-- Witness of C20: the registry enumerated in the order of its
initialiser. -/
theorem catalog_table_invariant_witness :
    (module_wrapper_creators sample_headers).Perm (module_wrapper_creators sample_headers) ∧
    ∃ quantity_map,
      get_all_quantities sample_headers "" (module_wrapper_creators sample_headers) =
        .ok quantity_map ∧ well_typed quantity_map := by
  refine ⟨List.Perm.refl _, ?_⟩
  obtain ⟨quantity_map, hq, hwt, -⟩ :=
    (catalog_table_invariant sample_headers "" _ (List.Perm.refl _)).2.2.2
  exact ⟨quantity_map, hq, hwt⟩

/-! ## Lemmas on `update` -/

theorem keys_update {F : Type} (m : state_map F) (p : pointer) (value : F) :
    (update m p value).map Prod.fst = m.map Prod.fst := by
  induction m with
  | nil => rfl
  | cons e m ih =>
    obtain ⟨k, x⟩ := e
    show (if k = p then (k, value) else (k, x)).1 :: (update m p value).map Prod.fst = _
    rw [ih]
    by_cases hk : k = p <;> simp [hk]

theorem deref_update_of_ne {F : Type} (m : state_map F) (p q : pointer) (value : F)
    (hne : q ≠ p) : deref (update m p value) q = deref m q := by
  induction m with
  | nil => rfl
  | cons e m ih =>
    obtain ⟨k, x⟩ := e
    show List.lookup q ((if k = p then (k, value) else (k, x)) :: update m p value) =
      List.lookup q ((k, x) :: m)
    by_cases hk : k = p
    · subst hk
      have hb : (q == k) = false := by simpa using hne
      rw [if_pos rfl]
      simp only [List.lookup, hb]
      exact ih
    · rw [if_neg hk]
      by_cases hq : q = k
      · subst hq; simp [List.lookup]
      · have hb : (q == k) = false := by simpa using hq
        simp only [List.lookup, hb]
        exact ih

theorem has_quantity_iff_mem_keys {F : Type} (m : state_map F) (q : String) :
    has_quantity m q = true ↔ q ∈ m.map Prod.fst := by
  induction m with
  | nil => simp [has_quantity, List.lookup]
  | cons e m ih =>
    obtain ⟨k, x⟩ := e
    by_cases hq : q = k
    · subst hq; simp [has_quantity, List.lookup]
    · have hb : (q == k) = false := by simpa using hq
      simp only [has_quantity, List.lookup, hb] at ih ⊢
      simp [hq, ih]

theorem has_quantity_update {F : Type} (m : state_map F) (p q : pointer) (value : F) :
    has_quantity (update m p value) q = has_quantity m q := by
  have h1 := has_quantity_iff_mem_keys (update m p value) q
  have h2 := has_quantity_iff_mem_keys m q
  rw [keys_update] at h1
  cases h : has_quantity m q <;> cases h' : has_quantity (update m p value) q <;> simp_all

theorem keys_apply_updates {F : Type} (updates : List (pointer × F)) (m : state_map F) :
    (apply_updates m updates).map Prod.fst = m.map Prod.fst := by
  induction updates generalizing m with
  | nil => rfl
  | cons u updates ih =>
    show (apply_updates (update m u.1 u.2) updates).map Prod.fst = _
    rw [ih, keys_update]

theorem has_quantity_apply_updates {F : Type} (updates : List (pointer × F)) (m : state_map F)
    (q : pointer) : has_quantity (apply_updates m updates) q = has_quantity m q := by
  induction updates generalizing m with
  | nil => rfl
  | cons u updates ih =>
    show has_quantity (apply_updates (update m u.1 u.2) updates) q = _
    rw [ih, has_quantity_update]

theorem deref_apply_updates_of_not_mem {F : Type} (updates : List (pointer × F))
    (m : state_map F) (q : pointer) (hq : q ∉ updates.map Prod.fst) :
    deref (apply_updates m updates) q = deref m q := by
  induction updates generalizing m with
  | nil => rfl
  | cons u updates ih =>
    simp only [List.map_cons, List.mem_cons, not_or] at hq
    show deref (apply_updates (update m u.1 u.2) updates) q = _
    rw [ih _ hq.2, deref_update_of_ne _ _ _ _ hq.1]

theorem deref_apply_updates_of_mem {F : Type} (updates : List (pointer × F))
    (m : state_map F) (q : pointer) (value : F) (hnodup : (updates.map Prod.fst).Nodup)
    (hmem : (q, value) ∈ updates) (hq : has_quantity m q = true) :
    deref (apply_updates m updates) q = some value := by
  induction updates generalizing m with
  | nil => simp at hmem
  | cons u updates ih =>
    simp only [List.map_cons, List.nodup_cons] at hnodup
    show deref (apply_updates (update m u.1 u.2) updates) q = _
    rcases List.mem_cons.1 hmem with heq | htail
    · subst heq
      rw [deref_apply_updates_of_not_mem _ _ _ hnodup.1]
      exact lookup_update_self m q value hq
    · exact ih _ hnodup.2 htail (by rw [has_quantity_update]; exact hq)

theorem apply_updates_eq_map {F : Type} (updates : List (pointer × F)) (m : state_map F) :
    apply_updates m updates = m.map (update_entries updates) := by
  induction updates generalizing m with
  | nil =>
    show m = m.map (fun e => e)
    rw [List.map_id']
  | cons u updates ih =>
    show apply_updates (update m u.1 u.2) updates = _
    rw [ih]
    simp only [update, List.map_map]
    rfl

theorem update_entries_fst {F : Type} (updates : List (pointer × F)) (e : String × F) :
    (update_entries updates e).1 = e.1 := by
  induction updates generalizing e with
  | nil => rfl
  | cons u updates ih =>
    show (update_entries updates (update_entry u e)).1 = e.1
    rw [ih]
    unfold update_entry
    split <;> rfl

theorem update_entries_of_not_mem {F : Type} (updates : List (pointer × F)) (e : String × F)
    (he : e.1 ∉ updates.map Prod.fst) : update_entries updates e = e := by
  induction updates generalizing e with
  | nil => rfl
  | cons u updates ih =>
    simp only [List.map_cons, List.mem_cons, not_or] at he
    show update_entries updates (update_entry u e) = e
    have hstep : update_entry u e = e := by
      unfold update_entry
      rw [if_neg he.1]
    rw [hstep]
    exact ih e he.2

theorem update_entries_of_mem {F : Type} (updates : List (pointer × F)) (k : String) (x y : F)
    (hk : k ∈ updates.map Prod.fst) :
    update_entries updates (k, x) = update_entries updates (k, y) := by
  induction updates generalizing x y with
  | nil => simp at hk
  | cons u updates ih =>
    show update_entries updates (update_entry u (k, x)) =
      update_entries updates (update_entry u (k, y))
    by_cases hku : k = u.1
    · have h1 : update_entry u (k, x) = (k, u.2) := by
        unfold update_entry; rw [if_pos hku]
      have h2 : update_entry u (k, y) = (k, u.2) := by
        unfold update_entry; rw [if_pos hku]
      rw [h1, h2]
    · have h1 : update_entry u (k, x) = (k, x) := by
        unfold update_entry; rw [if_neg hku]
      have h2 : update_entry u (k, y) = (k, y) := by
        unfold update_entry; rw [if_neg hku]
      rw [h1, h2]
      apply ih
      rcases List.mem_cons.1 hk with h | h
      · exact absurd h hku
      · exact h

theorem update_entries_idempotent {F : Type} (updates : List (pointer × F)) (e : String × F) :
    update_entries updates (update_entries updates e) = update_entries updates e := by
  by_cases he : e.1 ∈ updates.map Prod.fst
  · have hfst := update_entries_fst updates e
    obtain ⟨k, x⟩ := e
    have hform : update_entries updates (k, x) = (k, (update_entries updates (k, x)).2) := by
      apply Prod.ext
      · exact hfst
      · rfl
    have hind := update_entries_of_mem updates k (update_entries updates (k, x)).2 x he
    rw [← hform] at hind
    exact hind
  · have hfix := update_entries_of_not_mem updates e he
    rw [hfix, hfix]

theorem apply_updates_idempotent {F : Type} (updates : List (pointer × F)) (m : state_map F) :
    apply_updates (apply_updates m updates) updates = apply_updates m updates := by
  rw [apply_updates_eq_map, apply_updates_eq_map, List.map_map]
  apply List.map_congr_left
  intro e _
  exact update_entries_idempotent updates e

/-! ## `oscillator_clock_calculator_sk::do_operation` -/

theorem oscillator_clock_calculator_sk_construct_ok {F : Type}
    (input_parameters output_parameters : state_map F) (self : oscillator_clock_calculator_sk)
    (hself : oscillator_clock_calculator_sk.construct input_parameters output_parameters =
      .ok self) :
    self = {
        doy_dbl_ip := "doy_dbl",
        kick_strength_ip := "kick_strength",
        kick_start_ip := "kick_start",
        kick_end_ip := "kick_end",
        dawn_b_ip := "dawn_b",
        dawn_a_ip := "dawn_a",
        dusk_b_ip := "dusk_b",
        dusk_a_ip := "dusk_a",
        ref_b_ip := "ref_b",
        ref_a_ip := "ref_a",
        dawn_kick_op := "dawn_kick",
        dusk_kick_op := "dusk_kick",
        dawn_phase_op := "dawn_phase",
        dusk_phase_op := "dusk_phase",
        ref_phase_op := "ref_phase",
        dawn_radius_op := "dawn_radius",
        dusk_radius_op := "dusk_radius",
        ref_radius_op := "ref_radius",
        day_length_op := "day_length",
        night_length_op := "night_length",
        sunrise_op := "sunrise",
        sunset_op := "sunset" } ∧
    (∀ q ∈ oscillator_clock_calculator_sk.get_inputs,
      has_quantity input_parameters q = true) ∧
    (∀ q ∈ oscillator_clock_calculator_sk.get_outputs,
      has_quantity output_parameters q = true) := by
  obtain ⟨h1, -, -, h4⟩ := bind_outcome_spec_of_eq input_parameters output_parameters _ _ _ _
    (oscillator_clock_calculator_sk_construct_eq input_parameters output_parameters)
  exact ⟨h4 self hself, (h1.1 ⟨self, hself⟩).1, (h1.1 ⟨self, hself⟩).2⟩

theorem oscillator_clock_calculator_sk_updates_keys {F : Type}
    (input_parameters output_parameters : state_map F) (self : oscillator_clock_calculator_sk)
    (hself : oscillator_clock_calculator_sk.construct input_parameters output_parameters =
      .ok self) (c : oscillator_clock_calculator_sk.locals F) :
    (oscillator_clock_calculator_sk.updates self c).map Prod.fst =
      oscillator_clock_calculator_sk.get_outputs := by
  rw [(oscillator_clock_calculator_sk_construct_ok input_parameters output_parameters self
    hself).1]
  rfl

theorem oscillator_clock_calculator_sk_do_operation_eq {F : Type} [LinearOrderedField F]
    [FloorRing F] (sin sqrt : F → F) (pi : F) (range_adjusted_atan2 : F → F → F)
    (self : oscillator_clock_calculator_sk) (input_parameters output_parameters : state_map F)
    (doy_dbl kick_strength kick_start kick_end dawn_b dawn_a dusk_b dusk_a ref_b ref_a : F)
    (hself : oscillator_clock_calculator_sk.construct input_parameters output_parameters =
      .ok self)
    (hdoy_dbl : deref input_parameters "doy_dbl" = some doy_dbl)
    (hkick_strength : deref input_parameters "kick_strength" = some kick_strength)
    (hkick_start : deref input_parameters "kick_start" = some kick_start)
    (hkick_end : deref input_parameters "kick_end" = some kick_end)
    (hdawn_b : deref input_parameters "dawn_b" = some dawn_b)
    (hdawn_a : deref input_parameters "dawn_a" = some dawn_a)
    (hdusk_b : deref input_parameters "dusk_b" = some dusk_b)
    (hdusk_a : deref input_parameters "dusk_a" = some dusk_a)
    (href_b : deref input_parameters "ref_b" = some ref_b)
    (href_a : deref input_parameters "ref_a" = some ref_a) :
    oscillator_clock_calculator_sk.do_operation sin sqrt pi range_adjusted_atan2 self
        input_parameters output_parameters =
      some (apply_updates output_parameters (oscillator_clock_calculator_sk.updates self
        (oscillator_clock_calculator_sk.calculations sin sqrt pi range_adjusted_atan2
          doy_dbl kick_strength kick_start kick_end dawn_b dawn_a dusk_b dusk_a ref_b ref_a))) := by
  rw [(oscillator_clock_calculator_sk_construct_ok input_parameters output_parameters self
    hself).1]
  simp only [oscillator_clock_calculator_sk.do_operation, hdoy_dbl, hkick_strength, hkick_start, hkick_end, hdawn_b, hdawn_a, hdusk_b, hdusk_a, href_b, href_a,
    Option.bind_eq_bind, Option.some_bind, Option.pure_def, bind, pure]

theorem oscillator_clock_calculator_sk_stored {F : Type}
    (input_parameters output_parameters : state_map F) (self : oscillator_clock_calculator_sk)
    (hself : oscillator_clock_calculator_sk.construct input_parameters output_parameters =
      .ok self) (c : oscillator_clock_calculator_sk.locals F) (q : pointer) (value : F)
    (hmem : (q, value) ∈ oscillator_clock_calculator_sk.updates self c) :
    deref (apply_updates output_parameters (oscillator_clock_calculator_sk.updates self c)) q =
      some value := by
  have hkeys := oscillator_clock_calculator_sk_updates_keys input_parameters output_parameters
    self hself c
  apply deref_apply_updates_of_mem _ _ _ _ _ hmem
  · apply (oscillator_clock_calculator_sk_construct_ok input_parameters output_parameters self
      hself).2.2
    rw [← hkeys]
    exact List.mem_map.2 ⟨(q, value), hmem, rfl⟩
  · rw [hkeys]
    decide

/-! ## The kick, the lengths of day and night, sunrise and sunset -/

theorem sample_oscillator_construct :
    oscillator_clock_calculator_sk.construct sample_oscillator_inputs
      sample_oscillator_outputs = .ok sample_oscillator := rfl

theorem exists_deref_of_has_quantity {F : Type} (m : state_map F) (q : String)
    (hq : has_quantity m q = true) : ∃ value, deref m q = some value :=
  Option.isSome_iff_exists.1 hq

theorem gaussian_solar_construct_of_present {F : Type}
    (input_parameters output_parameters : state_map F)
    (hin : ∀ q ∈ gaussian_solar.get_inputs, has_quantity input_parameters q = true)
    (hout : ∀ q ∈ gaussian_solar.get_outputs, has_quantity output_parameters q = true) :
    gaussian_solar.construct input_parameters output_parameters =
      .ok { doy_dbl_ip := "doy_dbl", target_doy_dbl_ip := "target_doy_dbl",
            new_dl_ip := "new_dl", solar_op := "solar" } := by
  obtain ⟨h1, -, -, h4⟩ := bind_outcome_spec_of_eq input_parameters output_parameters _ _ _ _
    (gaussian_solar_construct_eq input_parameters output_parameters)
  obtain ⟨m, hm⟩ := h1.2 ⟨hin, hout⟩
  rw [hm, h4 m hm]

theorem oscillator_clock_calculator_sk_construct_of_present {F : Type}
    (input_parameters output_parameters : state_map F)
    (hin : ∀ q ∈ oscillator_clock_calculator_sk.get_inputs, has_quantity input_parameters q = true)
    (hout : ∀ q ∈ oscillator_clock_calculator_sk.get_outputs, has_quantity output_parameters q = true) :
    oscillator_clock_calculator_sk.construct input_parameters output_parameters = .ok sample_oscillator := by
  obtain ⟨h1, -, -, h4⟩ := bind_outcome_spec_of_eq input_parameters output_parameters _ _ _ _
    (oscillator_clock_calculator_sk_construct_eq input_parameters output_parameters)
  obtain ⟨m, hm⟩ := h1.2 ⟨hin, hout⟩
  rw [hm, h4 m hm]
  rfl

theorem construct_succeeds_iff_present_gaussian {F : Type}
    (input_parameters output_parameters : state_map F) :
    (∃ m, gaussian_solar.construct input_parameters output_parameters = .ok m) ↔
      (∀ q ∈ gaussian_solar.get_inputs, has_quantity input_parameters q = true) ∧
      (∀ q ∈ gaussian_solar.get_outputs, has_quantity output_parameters q = true) :=
  (bind_outcome_spec_of_eq input_parameters output_parameters _ _ _ _
    (gaussian_solar_construct_eq input_parameters output_parameters)).1

/-- C11: executing a module depends only on the current values of its
declared inputs and keeps no history.  For `gaussian_solar` and for
`oscillator_clock_calculator_sk`: two runs of `do_operation` on input maps
that agree on the declared inputs store the same value in every declared
output, and a second run on unchanged inputs leaves the output map equal to
the map after the first run. -/
theorem do_operation_depends_only_on_declared_inputs {F : Type} [LinearOrderedField F]
    [FloorRing F] (exp sin sqrt : F → F) (pi : F) (range_adjusted_atan2 : F → F → F) :
    (∀ (self : gaussian_solar)
        (first_inputs second_inputs first_outputs second_outputs : state_map F),
      gaussian_solar.construct first_inputs first_outputs = .ok self →
      gaussian_solar.construct second_inputs second_outputs = .ok self →
      (∀ q ∈ gaussian_solar.get_inputs, deref first_inputs q = deref second_inputs q) →
      ∃ first_result second_result : state_map F,
        gaussian_solar.do_operation exp self first_inputs first_outputs = some first_result ∧
        gaussian_solar.do_operation exp self second_inputs second_outputs =
          some second_result ∧
        (∀ q ∈ gaussian_solar.get_outputs, ∃ value,
          deref first_result q = some value ∧ deref second_result q = some value) ∧
        gaussian_solar.do_operation exp self first_inputs first_result = some first_result) ∧
    (∀ (self : oscillator_clock_calculator_sk)
        (first_inputs second_inputs first_outputs second_outputs : state_map F),
      oscillator_clock_calculator_sk.construct first_inputs first_outputs = .ok self →
      oscillator_clock_calculator_sk.construct second_inputs second_outputs = .ok self →
      (∀ q ∈ oscillator_clock_calculator_sk.get_inputs, deref first_inputs q = deref second_inputs q) →
      ∃ first_result second_result : state_map F,
        oscillator_clock_calculator_sk.do_operation sin sqrt pi range_adjusted_atan2 self first_inputs first_outputs =
          some first_result ∧
        oscillator_clock_calculator_sk.do_operation sin sqrt pi range_adjusted_atan2 self second_inputs second_outputs =
          some second_result ∧
        (∀ q ∈ oscillator_clock_calculator_sk.get_outputs, ∃ value,
          deref first_result q = some value ∧ deref second_result q = some value) ∧
        oscillator_clock_calculator_sk.do_operation sin sqrt pi range_adjusted_atan2 self first_inputs first_result =
          some first_result) := by
  constructor
  · intro self first_inputs second_inputs first_outputs second_outputs hself1 hself2 hagree
    obtain ⟨hin1, hout1⟩ := ((construct_succeeds_iff_present_gaussian first_inputs
      first_outputs).1 ⟨self, hself1⟩)
    obtain ⟨-, hout2⟩ := ((construct_succeeds_iff_present_gaussian second_inputs
      second_outputs).1 ⟨self, hself2⟩)
    have hnamed := (gaussian_solar_construct_ok first_inputs first_outputs self hself1).1
    obtain ⟨doy_dbl, hdoy⟩ := exists_deref_of_has_quantity first_inputs "doy_dbl"
      (hin1 "doy_dbl" (by decide))
    obtain ⟨target_doy_dbl, htarget⟩ := exists_deref_of_has_quantity first_inputs
      "target_doy_dbl" (hin1 "target_doy_dbl" (by decide))
    obtain ⟨new_dl, hnew⟩ := exists_deref_of_has_quantity first_inputs "new_dl"
      (hin1 "new_dl" (by decide))
    have h2doy : deref second_inputs "doy_dbl" = some doy_dbl := by
      rw [← hagree "doy_dbl" (by decide)]; exact hdoy
    have h2target : deref second_inputs "target_doy_dbl" = some target_doy_dbl := by
      rw [← hagree "target_doy_dbl" (by decide)]; exact htarget
    have h2new : deref second_inputs "new_dl" = some new_dl := by
      rw [← hagree "new_dl" (by decide)]; exact hnew
    have e1 := gaussian_solar_do_operation_eq exp self first_inputs first_outputs
      doy_dbl target_doy_dbl new_dl hself1 hdoy htarget hnew
    have e2 := gaussian_solar_do_operation_eq exp self second_inputs second_outputs
      doy_dbl target_doy_dbl new_dl hself2 h2doy h2target h2new
    refine ⟨_, _, e1, e2, ?_, ?_⟩
    · intro q hq
      have hq' : q = "solar" := by simpa [gaussian_solar.get_outputs] using hq
      subst hq'
      exact ⟨_, lookup_update_self _ _ _ (hout1 "solar" (by decide)),
        lookup_update_self _ _ _ (hout2 "solar" (by decide))⟩
    · have hself3 : gaussian_solar.construct first_inputs
          (update first_outputs "solar"
            (gaussian_solar.calculations exp doy_dbl target_doy_dbl new_dl).solar) =
          .ok self := by
        rw [hnamed]
        apply gaussian_solar_construct_of_present _ _ hin1
        intro q hq
        rw [has_quantity_update]
        exact hout1 q hq
      rw [gaussian_solar_do_operation_eq exp self first_inputs _
        doy_dbl target_doy_dbl new_dl hself3 hdoy htarget hnew]
      have hidem := apply_updates_idempotent
        [("solar", (gaussian_solar.calculations exp doy_dbl target_doy_dbl new_dl).solar)]
        first_outputs
      exact congrArg some hidem
  · intro self first_inputs second_inputs first_outputs second_outputs hself1 hself2 hagree
    obtain ⟨hnamed, hin1, hout1⟩ := oscillator_clock_calculator_sk_construct_ok first_inputs first_outputs self hself1
    obtain ⟨-, -, hout2⟩ := oscillator_clock_calculator_sk_construct_ok second_inputs second_outputs self hself2
    obtain ⟨doy_dbl, hdoy_dbl⟩ := exists_deref_of_has_quantity first_inputs "doy_dbl"
      (hin1 "doy_dbl" (by decide))
    obtain ⟨kick_strength, hkick_strength⟩ := exists_deref_of_has_quantity first_inputs "kick_strength"
      (hin1 "kick_strength" (by decide))
    obtain ⟨kick_start, hkick_start⟩ := exists_deref_of_has_quantity first_inputs "kick_start"
      (hin1 "kick_start" (by decide))
    obtain ⟨kick_end, hkick_end⟩ := exists_deref_of_has_quantity first_inputs "kick_end"
      (hin1 "kick_end" (by decide))
    obtain ⟨dawn_b, hdawn_b⟩ := exists_deref_of_has_quantity first_inputs "dawn_b"
      (hin1 "dawn_b" (by decide))
    obtain ⟨dawn_a, hdawn_a⟩ := exists_deref_of_has_quantity first_inputs "dawn_a"
      (hin1 "dawn_a" (by decide))
    obtain ⟨dusk_b, hdusk_b⟩ := exists_deref_of_has_quantity first_inputs "dusk_b"
      (hin1 "dusk_b" (by decide))
    obtain ⟨dusk_a, hdusk_a⟩ := exists_deref_of_has_quantity first_inputs "dusk_a"
      (hin1 "dusk_a" (by decide))
    obtain ⟨ref_b, href_b⟩ := exists_deref_of_has_quantity first_inputs "ref_b"
      (hin1 "ref_b" (by decide))
    obtain ⟨ref_a, href_a⟩ := exists_deref_of_has_quantity first_inputs "ref_a"
      (hin1 "ref_a" (by decide))
    have h2doy_dbl : deref second_inputs "doy_dbl" = some doy_dbl := by
      rw [← hagree "doy_dbl" (by decide)]; exact hdoy_dbl
    have h2kick_strength : deref second_inputs "kick_strength" = some kick_strength := by
      rw [← hagree "kick_strength" (by decide)]; exact hkick_strength
    have h2kick_start : deref second_inputs "kick_start" = some kick_start := by
      rw [← hagree "kick_start" (by decide)]; exact hkick_start
    have h2kick_end : deref second_inputs "kick_end" = some kick_end := by
      rw [← hagree "kick_end" (by decide)]; exact hkick_end
    have h2dawn_b : deref second_inputs "dawn_b" = some dawn_b := by
      rw [← hagree "dawn_b" (by decide)]; exact hdawn_b
    have h2dawn_a : deref second_inputs "dawn_a" = some dawn_a := by
      rw [← hagree "dawn_a" (by decide)]; exact hdawn_a
    have h2dusk_b : deref second_inputs "dusk_b" = some dusk_b := by
      rw [← hagree "dusk_b" (by decide)]; exact hdusk_b
    have h2dusk_a : deref second_inputs "dusk_a" = some dusk_a := by
      rw [← hagree "dusk_a" (by decide)]; exact hdusk_a
    have h2ref_b : deref second_inputs "ref_b" = some ref_b := by
      rw [← hagree "ref_b" (by decide)]; exact href_b
    have h2ref_a : deref second_inputs "ref_a" = some ref_a := by
      rw [← hagree "ref_a" (by decide)]; exact href_a
    have e1 := oscillator_clock_calculator_sk_do_operation_eq sin sqrt pi range_adjusted_atan2 self first_inputs
      first_outputs doy_dbl kick_strength kick_start kick_end dawn_b dawn_a dusk_b dusk_a ref_b ref_a
      hself1 hdoy_dbl hkick_strength hkick_start hkick_end hdawn_b hdawn_a hdusk_b hdusk_a href_b href_a
    have e2 := oscillator_clock_calculator_sk_do_operation_eq sin sqrt pi range_adjusted_atan2 self second_inputs
      second_outputs doy_dbl kick_strength kick_start kick_end dawn_b dawn_a dusk_b dusk_a ref_b ref_a
      hself2 h2doy_dbl h2kick_strength h2kick_start h2kick_end h2dawn_b h2dawn_a h2dusk_b h2dusk_a h2ref_b h2ref_a
    refine ⟨_, _, e1, e2, ?_, ?_⟩
    · intro q hq
      rw [← oscillator_clock_calculator_sk_updates_keys first_inputs first_outputs self hself1
        (oscillator_clock_calculator_sk.calculations sin sqrt pi range_adjusted_atan2
          doy_dbl kick_strength kick_start kick_end dawn_b dawn_a dusk_b dusk_a ref_b ref_a)] at hq
      obtain ⟨⟨q1, value⟩, hmem, hq1⟩ := List.mem_map.1 hq
      cases hq1
      exact ⟨value, oscillator_clock_calculator_sk_stored first_inputs first_outputs self hself1 _ _ _ hmem,
        oscillator_clock_calculator_sk_stored second_inputs second_outputs self hself2 _ _ _ hmem⟩
    · have hself3 : oscillator_clock_calculator_sk.construct first_inputs
          (apply_updates first_outputs (oscillator_clock_calculator_sk.updates self
            (oscillator_clock_calculator_sk.calculations sin sqrt pi range_adjusted_atan2
              doy_dbl kick_strength kick_start kick_end dawn_b dawn_a dusk_b dusk_a ref_b ref_a))) = .ok self := by
        rw [hnamed]
        apply oscillator_clock_calculator_sk_construct_of_present _ _ hin1
        intro q hq
        rw [has_quantity_apply_updates]
        exact hout1 q hq
      rw [oscillator_clock_calculator_sk_do_operation_eq sin sqrt pi range_adjusted_atan2 self first_inputs _
        doy_dbl kick_strength kick_start kick_end dawn_b dawn_a dusk_b dusk_a ref_b ref_a
        hself3 hdoy_dbl hkick_strength hkick_start hkick_end hdawn_b hdawn_a hdusk_b hdusk_a href_b href_a]
      exact congrArg some (apply_updates_idempotent _ _)

/-- Witness of C11: two runs of `oscillator_clock_calculator_sk` on the same
input map and on two different output maps. -/
theorem do_operation_depends_only_on_declared_inputs_witness :
    ∃ first_result second_result : state_map ℝ,
      oscillator_clock_calculator_sk.do_operation Real.sin Real.sqrt Real.pi sample_range_adjusted_atan2
        sample_oscillator sample_oscillator_inputs sample_oscillator_outputs =
        some first_result ∧
      oscillator_clock_calculator_sk.do_operation Real.sin Real.sqrt Real.pi sample_range_adjusted_atan2
        sample_oscillator sample_oscillator_inputs (update sample_oscillator_outputs "sunset" 3)
        = some second_result ∧
      (∀ q ∈ oscillator_clock_calculator_sk.get_outputs, ∃ value,
        deref first_result q = some value ∧ deref second_result q = some value) ∧
      oscillator_clock_calculator_sk.do_operation Real.sin Real.sqrt Real.pi sample_range_adjusted_atan2
        sample_oscillator sample_oscillator_inputs first_result = some first_result :=
  (do_operation_depends_only_on_declared_inputs Real.exp Real.sin Real.sqrt Real.pi
    sample_range_adjusted_atan2).2 sample_oscillator sample_oscillator_inputs
    sample_oscillator_inputs sample_oscillator_outputs
    (update sample_oscillator_outputs "sunset" 3) sample_oscillator_construct rfl
    (fun _ _ => rfl)

/-- C12: executing a module writes exactly its declared outputs.  One run of
`oscillator_clock_calculator_sk::do_operation` calls `update` once for each
of the 12 names of `get_outputs`, in declared order, each with the value
calculated from the ten inputs that were read, and one run of
`gaussian_solar::do_operation` calls it for `solar` with the calculated
value; afterwards every declared output holds the value passed to `update`,
the output map has the same keys as before, every entry of the output map
under another name is unchanged, and the input map is unchanged. -/
theorem do_operation_writes_exactly_declared_outputs {F : Type} [LinearOrderedField F]
    [FloorRing F] (exp sin sqrt : F → F) (pi : F) (range_adjusted_atan2 : F → F → F) :
    (∀ (self : gaussian_solar) (input_parameters output_parameters : state_map F)
        (doy_dbl target_doy_dbl new_dl : F),
      gaussian_solar.construct input_parameters output_parameters = .ok self →
      deref input_parameters "doy_dbl" = some doy_dbl →
      deref input_parameters "target_doy_dbl" = some target_doy_dbl →
      deref input_parameters "new_dl" = some new_dl →
      gaussian_solar.do_operation exp self input_parameters output_parameters =
        some (update output_parameters "solar"
          (gaussian_solar.calculations exp doy_dbl target_doy_dbl new_dl).solar) ∧
      [self.solar_op] = gaussian_solar.get_outputs ∧
      deref (update output_parameters "solar"
          (gaussian_solar.calculations exp doy_dbl target_doy_dbl new_dl).solar) "solar" =
        some (gaussian_solar.calculations exp doy_dbl target_doy_dbl new_dl).solar ∧
      (update output_parameters "solar"
          (gaussian_solar.calculations exp doy_dbl target_doy_dbl new_dl).solar).map
          Prod.fst = output_parameters.map Prod.fst ∧
      (∀ q, q ∉ gaussian_solar.get_outputs →
        deref (update output_parameters "solar"
          (gaussian_solar.calculations exp doy_dbl target_doy_dbl new_dl).solar) q =
          deref output_parameters q) ∧
      gaussian_solar.do_operation_on exp self
          { input_parameters := input_parameters, output_parameters := output_parameters } =
        some { input_parameters := input_parameters,
               output_parameters := update output_parameters "solar"
                 (gaussian_solar.calculations exp doy_dbl target_doy_dbl new_dl).solar }) ∧
    (∀ (self : oscillator_clock_calculator_sk) (input_parameters output_parameters : state_map F)
        (doy_dbl kick_strength kick_start kick_end dawn_b dawn_a dusk_b dusk_a ref_b ref_a : F),
      oscillator_clock_calculator_sk.construct input_parameters output_parameters = .ok self →
      deref input_parameters "doy_dbl" = some doy_dbl →
      deref input_parameters "kick_strength" = some kick_strength →
      deref input_parameters "kick_start" = some kick_start →
      deref input_parameters "kick_end" = some kick_end →
      deref input_parameters "dawn_b" = some dawn_b →
      deref input_parameters "dawn_a" = some dawn_a →
      deref input_parameters "dusk_b" = some dusk_b →
      deref input_parameters "dusk_a" = some dusk_a →
      deref input_parameters "ref_b" = some ref_b →
      deref input_parameters "ref_a" = some ref_a →
      oscillator_clock_calculator_sk.do_operation sin sqrt pi range_adjusted_atan2 self input_parameters
          output_parameters =
        some (apply_updates output_parameters (oscillator_clock_calculator_sk.updates self
          (oscillator_clock_calculator_sk.calculations sin sqrt pi range_adjusted_atan2
            doy_dbl kick_strength kick_start kick_end dawn_b dawn_a dusk_b dusk_a ref_b ref_a))) ∧
      oscillator_clock_calculator_sk.updates self
          (oscillator_clock_calculator_sk.calculations sin sqrt pi range_adjusted_atan2
            doy_dbl kick_strength kick_start kick_end dawn_b dawn_a dusk_b dusk_a ref_b ref_a) =
        [
         ("dawn_kick", (oscillator_clock_calculator_sk.calculations sin sqrt pi range_adjusted_atan2
            doy_dbl kick_strength kick_start kick_end dawn_b dawn_a dusk_b dusk_a ref_b ref_a).dawn_kick),
         ("dusk_kick", (oscillator_clock_calculator_sk.calculations sin sqrt pi range_adjusted_atan2
            doy_dbl kick_strength kick_start kick_end dawn_b dawn_a dusk_b dusk_a ref_b ref_a).dusk_kick),
         ("dawn_phase", (oscillator_clock_calculator_sk.calculations sin sqrt pi range_adjusted_atan2
            doy_dbl kick_strength kick_start kick_end dawn_b dawn_a dusk_b dusk_a ref_b ref_a).dawn_phase),
         ("dusk_phase", (oscillator_clock_calculator_sk.calculations sin sqrt pi range_adjusted_atan2
            doy_dbl kick_strength kick_start kick_end dawn_b dawn_a dusk_b dusk_a ref_b ref_a).dusk_phase),
         ("ref_phase", (oscillator_clock_calculator_sk.calculations sin sqrt pi range_adjusted_atan2
            doy_dbl kick_strength kick_start kick_end dawn_b dawn_a dusk_b dusk_a ref_b ref_a).ref_phase),
         ("dawn_radius", (oscillator_clock_calculator_sk.calculations sin sqrt pi range_adjusted_atan2
            doy_dbl kick_strength kick_start kick_end dawn_b dawn_a dusk_b dusk_a ref_b ref_a).dawn_radius),
         ("dusk_radius", (oscillator_clock_calculator_sk.calculations sin sqrt pi range_adjusted_atan2
            doy_dbl kick_strength kick_start kick_end dawn_b dawn_a dusk_b dusk_a ref_b ref_a).dusk_radius),
         ("ref_radius", (oscillator_clock_calculator_sk.calculations sin sqrt pi range_adjusted_atan2
            doy_dbl kick_strength kick_start kick_end dawn_b dawn_a dusk_b dusk_a ref_b ref_a).ref_radius),
         ("day_length", (oscillator_clock_calculator_sk.calculations sin sqrt pi range_adjusted_atan2
            doy_dbl kick_strength kick_start kick_end dawn_b dawn_a dusk_b dusk_a ref_b ref_a).day_length),
         ("night_length", (oscillator_clock_calculator_sk.calculations sin sqrt pi range_adjusted_atan2
            doy_dbl kick_strength kick_start kick_end dawn_b dawn_a dusk_b dusk_a ref_b ref_a).night_length),
         ("sunrise", (oscillator_clock_calculator_sk.calculations sin sqrt pi range_adjusted_atan2
            doy_dbl kick_strength kick_start kick_end dawn_b dawn_a dusk_b dusk_a ref_b ref_a).sunrise),
         ("sunset", (oscillator_clock_calculator_sk.calculations sin sqrt pi range_adjusted_atan2
            doy_dbl kick_strength kick_start kick_end dawn_b dawn_a dusk_b dusk_a ref_b ref_a).sunset)] ∧
      (oscillator_clock_calculator_sk.updates self
          (oscillator_clock_calculator_sk.calculations sin sqrt pi range_adjusted_atan2
            doy_dbl kick_strength kick_start kick_end dawn_b dawn_a dusk_b dusk_a ref_b ref_a)).map Prod.fst = oscillator_clock_calculator_sk.get_outputs ∧
      oscillator_clock_calculator_sk.get_outputs.Nodup ∧ oscillator_clock_calculator_sk.get_outputs.length = 12 ∧
      (∀ u ∈ oscillator_clock_calculator_sk.updates self
          (oscillator_clock_calculator_sk.calculations sin sqrt pi range_adjusted_atan2
            doy_dbl kick_strength kick_start kick_end dawn_b dawn_a dusk_b dusk_a ref_b ref_a),
        deref (apply_updates output_parameters (oscillator_clock_calculator_sk.updates self
          (oscillator_clock_calculator_sk.calculations sin sqrt pi range_adjusted_atan2
            doy_dbl kick_strength kick_start kick_end dawn_b dawn_a dusk_b dusk_a ref_b ref_a))) u.1 = some u.2) ∧
      (apply_updates output_parameters (oscillator_clock_calculator_sk.updates self
          (oscillator_clock_calculator_sk.calculations sin sqrt pi range_adjusted_atan2
            doy_dbl kick_strength kick_start kick_end dawn_b dawn_a dusk_b dusk_a ref_b ref_a))).map Prod.fst = output_parameters.map Prod.fst ∧
      (∀ q, q ∉ oscillator_clock_calculator_sk.get_outputs →
        deref (apply_updates output_parameters (oscillator_clock_calculator_sk.updates self
          (oscillator_clock_calculator_sk.calculations sin sqrt pi range_adjusted_atan2
            doy_dbl kick_strength kick_start kick_end dawn_b dawn_a dusk_b dusk_a ref_b ref_a))) q = deref output_parameters q) ∧
      oscillator_clock_calculator_sk.do_operation_on sin sqrt pi range_adjusted_atan2 self
          { input_parameters := input_parameters, output_parameters := output_parameters } =
        some { input_parameters := input_parameters,
               output_parameters := apply_updates output_parameters (oscillator_clock_calculator_sk.updates self
                 (oscillator_clock_calculator_sk.calculations sin sqrt pi range_adjusted_atan2
            doy_dbl kick_strength kick_start kick_end dawn_b dawn_a dusk_b dusk_a ref_b ref_a)) }) := by
  constructor
  · intro self input_parameters output_parameters doy_dbl target_doy_dbl new_dl hself hdoy
      htarget hnew
    obtain ⟨-, hout⟩ := (construct_succeeds_iff_present_gaussian input_parameters
      output_parameters).1 ⟨self, hself⟩
    have hnamed := (gaussian_solar_construct_ok input_parameters output_parameters self
      hself).1
    have hop := gaussian_solar_do_operation_eq exp self input_parameters output_parameters
      doy_dbl target_doy_dbl new_dl hself hdoy htarget hnew
    refine ⟨hop, ?_, ?_, ?_, ?_, ?_⟩
    · rw [hnamed]; rfl
    · exact lookup_update_self _ _ _ (hout "solar" (by decide))
    · exact keys_update _ _ _
    · intro q hq
      apply deref_update_of_ne
      simpa [gaussian_solar.get_outputs] using hq
    · simp only [gaussian_solar.do_operation_on, hop, Option.map_some']
  · intro self input_parameters output_parameters doy_dbl kick_strength kick_start kick_end dawn_b dawn_a dusk_b dusk_a ref_b ref_a
      hself hdoy_dbl hkick_strength hkick_start hkick_end hdawn_b hdawn_a hdusk_b hdusk_a href_b href_a
    have hkeys := oscillator_clock_calculator_sk_updates_keys input_parameters output_parameters self hself
      (oscillator_clock_calculator_sk.calculations sin sqrt pi range_adjusted_atan2
            doy_dbl kick_strength kick_start kick_end dawn_b dawn_a dusk_b dusk_a ref_b ref_a)
    have hnamed := (oscillator_clock_calculator_sk_construct_ok input_parameters output_parameters self hself).1
    have hop := oscillator_clock_calculator_sk_do_operation_eq sin sqrt pi range_adjusted_atan2 self input_parameters
      output_parameters doy_dbl kick_strength kick_start kick_end dawn_b dawn_a dusk_b dusk_a ref_b ref_a
      hself hdoy_dbl hkick_strength hkick_start hkick_end hdawn_b hdawn_a hdusk_b hdusk_a href_b href_a
    refine ⟨hop, ?_, hkeys, by decide, rfl, ?_, ?_, ?_, ?_⟩
    · rw [hnamed]; rfl
    · intro u hu
      exact oscillator_clock_calculator_sk_stored input_parameters output_parameters self hself _ u.1 u.2 hu
    · exact keys_apply_updates _ _
    · intro q hq
      apply deref_apply_updates_of_not_mem
      rw [hkeys]
      exact hq
    · simp only [oscillator_clock_calculator_sk.do_operation_on, hop, Option.map_some']

/-- Witness of C12: one run of `oscillator_clock_calculator_sk` on an output
map that also holds the entry `solar`: the entry `dawn_phase` changes from 0
to the calculated phase, and `solar` and the input map stay as they are. -/
theorem do_operation_writes_exactly_declared_outputs_witness :
    ∃ result : state_map ℝ,
      oscillator_clock_calculator_sk.do_operation_on Real.sin Real.sqrt Real.pi sample_range_adjusted_atan2
        sample_oscillator
        { input_parameters := sample_oscillator_inputs,
          output_parameters := sample_oscillator_outputs } =
        some { input_parameters := sample_oscillator_inputs, output_parameters := result } ∧
      deref result "dawn_phase" = some (sample_range_adjusted_atan2 1 0) ∧
      deref sample_oscillator_outputs "dawn_phase" = some 0 ∧
      deref result "solar" = some 7 := by
  obtain ⟨-, -, -, -, -, hstored, -, hframe, hon⟩ :=
    (do_operation_writes_exactly_declared_outputs Real.exp Real.sin Real.sqrt Real.pi
      sample_range_adjusted_atan2).2 sample_oscillator sample_oscillator_inputs
      sample_oscillator_outputs 0.25 2 0 1 1 0 0 1 1 0 sample_oscillator_construct
      rfl rfl rfl rfl rfl rfl rfl rfl rfl rfl
  refine ⟨_, hon, ?_, rfl, ?_⟩
  · exact hstored ("dawn_phase", sample_range_adjusted_atan2 1 0)
      (by simp [oscillator_clock_calculator_sk.updates, sample_oscillator, oscillator_clock_calculator_sk.calculations])
  · rw [hframe "solar" (by decide)]
    rfl


/-! ## Rounding to binary64 -/

/-! ## Lemmas on rounding -/

theorem int_log_two_eq (q : ℚ) (e : ℤ) (hlo : (2 : ℚ) ^ e ≤ q) (hhi : q < (2 : ℚ) ^ (e + 1)) :
    Int.log 2 q = e := by
  have hpos : 0 < q := lt_of_lt_of_le (by positivity) hlo
  have h1 : e ≤ Int.log 2 q :=
    (Int.zpow_le_iff_le_log (by norm_num) hpos).1 (by exact_mod_cast hlo)
  have h2 : Int.log 2 q < e + 1 :=
    (Int.lt_zpow_iff_log_lt (by norm_num) hpos).1 (by exact_mod_cast hhi)
  omega

theorem round_half_even_intCast (n : ℤ) : round_half_even (n : ℚ) = n := by
  simp [round_half_even]

theorem floor_le_round_half_even (x : ℚ) : ⌊x⌋ ≤ round_half_even x := by
  unfold round_half_even
  split_ifs <;> omega

theorem round_half_even_le_floor_add_one (x : ℚ) : round_half_even x ≤ ⌊x⌋ + 1 := by
  unfold round_half_even
  split_ifs <;> omega

theorem round_half_even_nonneg (x : ℚ) (hx : 0 ≤ x) : 0 ≤ round_half_even x :=
  le_trans (Int.floor_nonneg.2 hx) (floor_le_round_half_even x)

theorem round_half_even_le_of_le_intCast (x : ℚ) (n : ℤ) (hx : x ≤ n) :
    round_half_even x ≤ n := by
  have hfl : ⌊x⌋ ≤ n := Int.floor_le_floor hx |>.trans (by simp)
  rcases lt_or_eq_of_le hfl with hlt | heq
  · have := round_half_even_le_floor_add_one x
    omega
  · have hxn : x = n := by
      apply le_antisymm hx
      have := Int.floor_le x
      rw [heq] at this
      exact this
    rw [hxn, round_half_even_intCast]

theorem intCast_le_round_half_even (x : ℚ) (n : ℤ) (hx : (n : ℚ) ≤ x) :
    n ≤ round_half_even x :=
  le_trans (Int.le_floor.2 hx) (floor_le_round_half_even x)

theorem round_half_even_eq_zero (x : ℚ) (h0 : 0 ≤ x) (h1 : x ≤ 1 / 2) :
    round_half_even x = 0 := by
  have hfl : ⌊x⌋ = 0 := by
    rw [Int.floor_eq_iff]
    constructor
    · simpa using h0
    · simp only [Int.cast_zero, zero_add]; linarith
  unfold round_half_even
  rw [hfl]
  simp only [Int.cast_zero, sub_zero]
  by_cases hlt : x < 1 / 2
  · rw [if_pos hlt]
  · rw [if_neg hlt, if_neg (not_lt.2 h1)]
    simp

/-- The exponent that `double.round` uses for `q`. -/
theorem round_unfold (negative : Bool) (q : ℚ) (hq : q ≠ 0) :
    double.round negative q =
      if (round_half_even (q / 2 ^ (max (Int.log 2 q) (-1022) - 52)) : ℚ) *
          2 ^ (max (Int.log 2 q) (-1022) - 52) < 2 ^ (1024 : ℤ)
      then .finite negative ((round_half_even (q / 2 ^ (max (Int.log 2 q) (-1022) - 52)) : ℚ) *
          2 ^ (max (Int.log 2 q) (-1022) - 52))
      else .infinite negative := by
  simp only [double.round, if_neg hq]

theorem round_zero (negative : Bool) : double.round negative 0 = .finite negative 0 := by
  simp [double.round]

theorem round_of_representable (negative : Bool) (q : ℚ) (e n : ℤ)
    (hlo : (2 : ℚ) ^ e ≤ q) (hhi : q < (2 : ℚ) ^ (e + 1))
    (hemin : -1022 ≤ e) (hemax : e ≤ 1023) (hn : q = n * 2 ^ (e - 52)) :
    double.round negative q = .finite negative q := by
  have hpos : 0 < q := lt_of_lt_of_le (by positivity) hlo
  have hlog := int_log_two_eq q e hlo hhi
  have hmax : max (Int.log 2 q) (-1022) = e := by rw [hlog]; exact max_eq_left hemin
  have hsp : (2 : ℚ) ^ (e - 52) ≠ 0 := by positivity
  have hquot : q / 2 ^ (e - 52) = (n : ℚ) := by
    rw [hn]; field_simp
  have hbig : q < 2 ^ (1024 : ℤ) :=
    lt_of_lt_of_le hhi (zpow_le_zpow_right₀ (by norm_num) (by omega))
  rw [round_unfold negative q hpos.ne', hmax, hquot, round_half_even_intCast, ← hn,
    if_pos hbig]

theorem round_of_small (negative : Bool) (q : ℚ) (h0 : 0 ≤ q)
    (hq : q ≤ 2 ^ (-1075 : ℤ)) : double.round negative q = .finite negative 0 := by
  rcases eq_or_lt_of_le h0 with h | hpos
  · rw [← h, round_zero]
  have hlt : q < (2 : ℚ) ^ (-1022 : ℤ) :=
    lt_of_le_of_lt hq (zpow_lt_zpow_right₀ (by norm_num) (by norm_num))
  have hlog : Int.log 2 q < -1022 :=
    (Int.lt_zpow_iff_log_lt (by norm_num) hpos).1 (by exact_mod_cast hlt)
  have hmax : max (Int.log 2 q) (-1022) = -1022 := max_eq_right hlog.le
  have hx : q / 2 ^ ((-1022 : ℤ) - 52) ≤ 1 / 2 := by
    rw [div_le_iff₀ (by positivity)]
    calc q ≤ 2 ^ (-1075 : ℤ) := hq
      _ = 1 / 2 * 2 ^ ((-1022 : ℤ) - 52) := by
        rw [show ((-1022 : ℤ) - 52) = (-1075) + 1 by norm_num, zpow_add_one₀ (by norm_num)]
        ring
  have hx0 : 0 ≤ q / 2 ^ ((-1022 : ℤ) - 52) := div_nonneg h0 (by positivity)
  rw [round_unfold negative q hpos.ne', hmax, round_half_even_eq_zero _ hx0 hx]
  have hbig : (0 : ℚ) < 2 ^ (1024 : ℤ) := by positivity
  simp [hbig]

theorem round_finite_or_infinite (negative : Bool) (q : ℚ) (h0 : 0 ≤ q) :
    (∃ m, double.round negative q = .finite negative m ∧ 0 ≤ m) ∨
      double.round negative q = .infinite negative := by
  rcases eq_or_lt_of_le h0 with h | hpos
  · left
    exact ⟨0, by rw [← h, round_zero], le_refl _⟩
  rw [round_unfold negative q hpos.ne']
  split_ifs with hbig
  · left
    refine ⟨_, rfl, ?_⟩
    apply mul_nonneg _ (by positivity)
    exact_mod_cast round_half_even_nonneg _ (div_nonneg h0 (by positivity))
  · right; rfl

theorem round_le_of_le_representable (negative : Bool) (q r : ℚ) (e n : ℤ) (h0 : 0 ≤ q)
    (hqr : q ≤ r) (hhi : r < (2 : ℚ) ^ (e + 1)) (hemin : -1022 ≤ e) (hemax : e ≤ 1023)
    (hn : r = n * 2 ^ (e - 52)) :
    ∃ m, double.round negative q = .finite negative m ∧ 0 ≤ m ∧ m ≤ r := by
  rcases eq_or_lt_of_le h0 with h | hpos
  · exact ⟨0, by rw [← h, round_zero], le_refl _, h0.trans hqr⟩
  have hlog : Int.log 2 q < e + 1 :=
    (Int.lt_zpow_iff_log_lt (by norm_num) hpos).1 (by exact_mod_cast lt_of_le_of_lt hqr hhi)
  have hle : max (Int.log 2 q) (-1022) ≤ e := max_le (by omega) hemin
  obtain ⟨k, hk⟩ : ∃ k : ℕ, e = max (Int.log 2 q) (-1022) + k :=
    ⟨(e - max (Int.log 2 q) (-1022)).toNat, by omega⟩
  set e0 := max (Int.log 2 q) (-1022) with he0
  have hsp : (0 : ℚ) < 2 ^ (e0 - 52) := by positivity
  have hr : r = ((n * 2 ^ k : ℤ) : ℚ) * 2 ^ (e0 - 52) := by
    rw [hn, hk, show e0 + (k : ℤ) - 52 = (e0 - 52) + k by ring, zpow_add₀ (by norm_num),
      zpow_natCast]
    push_cast
    ring
  have hx : q / 2 ^ (e0 - 52) ≤ ((n * 2 ^ k : ℤ) : ℚ) := by
    rw [div_le_iff₀ hsp, ← hr]
    exact hqr
  have hround := round_half_even_le_of_le_intCast _ _ hx
  have hval : (round_half_even (q / 2 ^ (e0 - 52)) : ℚ) * 2 ^ (e0 - 52) ≤ r := by
    rw [hr]
    exact mul_le_mul_of_nonneg_right (by exact_mod_cast hround) hsp.le
  have hbig : (round_half_even (q / 2 ^ (e0 - 52)) : ℚ) * 2 ^ (e0 - 52) < 2 ^ (1024 : ℤ) :=
    lt_of_le_of_lt hval (lt_of_lt_of_le hhi (zpow_le_zpow_right₀ (by norm_num) (by omega)))
  rw [round_unfold negative q hpos.ne', if_pos hbig]
  refine ⟨_, rfl, ?_, hval⟩
  apply mul_nonneg _ hsp.le
  exact_mod_cast round_half_even_nonneg _ (div_nonneg h0 hsp.le)

theorem le_round_of_representable_le (negative : Bool) (q r m : ℚ) (e n : ℤ)
    (hlo : (2 : ℚ) ^ e ≤ r) (hhi : r < (2 : ℚ) ^ (e + 1)) (hrq : r ≤ q) (hemin : -1022 ≤ e)
    (hn : r = n * 2 ^ (e - 52))
    (hm : double.round negative q = .finite negative m) : r ≤ m := by
  have hrpos : 0 < r := lt_of_lt_of_le (by positivity) hlo
  have hpos : 0 < q := lt_of_lt_of_le hrpos hrq
  have hlog : e ≤ Int.log 2 q :=
    (Int.zpow_le_iff_le_log (by norm_num) hpos).1 (by exact_mod_cast hlo.trans hrq)
  have hmax : max (Int.log 2 q) (-1022) = Int.log 2 q := max_eq_left (by omega)
  rw [round_unfold negative q hpos.ne', hmax] at hm
  split_ifs at hm with hbig
  injection hm with _ hm
  rw [← hm]
  have hsp : (0 : ℚ) < 2 ^ (Int.log 2 q - 52) := by positivity
  rcases eq_or_lt_of_le hlog with heq | hlt
  · rw [← heq] at hsp ⊢
    have hx : (n : ℚ) ≤ q / 2 ^ (e - 52) := by
      rw [le_div_iff₀ hsp, ← hn]
      exact hrq
    have hround := intCast_le_round_half_even _ _ hx
    rw [hn]
    exact mul_le_mul_of_nonneg_right (by exact_mod_cast hround) hsp.le
  · have hq2 : (2 : ℚ) ^ (Int.log 2 q) ≤ q := by
      have := Int.zpow_log_le_self (b := 2) (by norm_num) hpos
      exact_mod_cast this
    have hsplit : (2 : ℚ) ^ (Int.log 2 q) =
        (((2 : ℤ) ^ 52 : ℤ) : ℚ) * 2 ^ (Int.log 2 q - 52) := by
      have h52 : (((2 : ℤ) ^ 52 : ℤ) : ℚ) = (2 : ℚ) ^ (52 : ℤ) := by norm_num
      rw [h52, ← zpow_add₀ (by norm_num)]
      congr 1
      ring
    have hx : (((2 : ℤ) ^ 52 : ℤ) : ℚ) ≤ q / 2 ^ (Int.log 2 q - 52) := by
      rw [le_div_iff₀ hsp, ← hsplit]
      exact hq2
    have hround := intCast_le_round_half_even _ _ hx
    have hr2 : r < (2 : ℚ) ^ (Int.log 2 q) :=
      lt_of_lt_of_le hhi (zpow_le_zpow_right₀ (by norm_num) (by omega))
    have hval : (2 : ℚ) ^ (Int.log 2 q) ≤
        (round_half_even (q / 2 ^ (Int.log 2 q - 52)) : ℚ) * 2 ^ (Int.log 2 q - 52) := by
      rw [hsplit]
      exact mul_le_mul_of_nonneg_right (by exact_mod_cast hround) hsp.le
    linarith

/-! ## Literals and exact operations -/

theorem literal_of_representable (q : ℚ) (e n : ℤ) (hlo : (2 : ℚ) ^ e ≤ q)
    (hhi : q < (2 : ℚ) ^ (e + 1)) (hemin : -1022 ≤ e) (hemax : e ≤ 1023)
    (hn : q = n * 2 ^ (e - 52)) : double.literal q = .finite false q := by
  have hpos : 0 < q := lt_of_lt_of_le (by positivity) hlo
  have hneg : decide (q < 0) = false := by simpa using hpos.le
  rw [double.literal, hneg, abs_of_pos hpos]
  exact round_of_representable false q e n hlo hhi hemin hemax hn

theorem literal_4 : double.literal 4 = .finite false 4 :=
  literal_of_representable 4 2 (2 ^ 52) (by norm_num) (by norm_num) (by norm_num)
    (by norm_num) (by norm_num)

theorem literal_11 : double.literal 11 = .finite false 11 :=
  literal_of_representable 11 3 (11 * 2 ^ 49) (by norm_num) (by norm_num) (by norm_num)
    (by norm_num) (by norm_num)

theorem literal_12 : double.literal 12 = .finite false 12 :=
  literal_of_representable 12 3 (3 * 2 ^ 51) (by norm_num) (by norm_num) (by norm_num)
    (by norm_num) (by norm_num)

theorem literal_24 : double.literal 24 = .finite false 24 :=
  literal_of_representable 24 4 (3 * 2 ^ 51) (by norm_num) (by norm_num) (by norm_num)
    (by norm_num) (by norm_num)

theorem literal_1000 : double.literal 1000 = .finite false 1000 :=
  literal_of_representable 1000 9 (125 * 2 ^ 46) (by norm_num) (by norm_num) (by norm_num)
    (by norm_num) (by norm_num)

theorem round_12 (negative : Bool) : double.round negative 12 = .finite negative 12 :=
  round_of_representable negative 12 3 (3 * 2 ^ 51) (by norm_num) (by norm_num)
    (by norm_num) (by norm_num) (by norm_num)

theorem round_1000 (negative : Bool) : double.round negative 1000 = .finite negative 1000 :=
  round_of_representable negative 1000 9 (125 * 2 ^ 46) (by norm_num) (by norm_num)
    (by norm_num) (by norm_num) (by norm_num)

theorem round_half (negative : Bool) :
    double.round negative (1 / 2) = .finite negative (1 / 2) :=
  round_of_representable negative (1 / 2) (-1) (2 ^ 52) (by norm_num) (by norm_num)
    (by norm_num) (by norm_num) (by norm_num)

/-- The fractional part `doy_dbl - floor(doy_dbl)` of a finite `double`
whose exact fractional part is 1/2 is computed exactly. -/
theorem sub_floor_of_fract_half (negative : Bool) (magnitude : ℚ) (h0 : 0 ≤ magnitude)
    (hfract : Int.fract (double.finite negative magnitude).value = 1 / 2) :
    double.sub (.finite negative magnitude) (double.floor (.finite negative magnitude)) =
      .finite false (1 / 2) := by
  cases negative with
  | false =>
    have hsum : magnitude + -(⌊magnitude⌋ : ℚ) = 1 / 2 := by
      have := hfract
      simp only [double.value, Int.fract] at this
      simpa [sub_eq_add_neg] using this
    simp only [double.floor, double.sub, double.neg, double.add, double.value, Bool.not_false,
      if_true, Bool.false_eq_true, if_false, hsum]
    norm_num
    rw [abs_of_pos (by norm_num : (0 : ℚ) < 1 / 2)]
    exact round_half false
  | true =>
    have hm : magnitude ≠ 0 := by
      rintro rfl
      simp [double.value] at hfract
    have hsum : -magnitude + (⌈magnitude⌉ : ℚ) = 1 / 2 := by
      have := hfract
      simp only [double.value, Int.fract, if_true, Int.floor_neg] at this
      push_cast at this
      linarith
    simp only [double.floor, if_true, if_neg hm, double.sub, double.neg, double.add,
      double.value, Bool.not_true, Bool.false_eq_true, if_false, hsum]
    norm_num
    rw [abs_of_pos (by norm_num : (0 : ℚ) < 1 / 2)]
    exact round_half false

theorem gaussian_solar_double_hour_at_noon (negative : Bool) (magnitude : ℚ)
    (h0 : 0 ≤ magnitude)
    (hfract : Int.fract (double.finite negative magnitude).value = 1 / 2) :
    double.mul (double.literal 24)
      (double.sub (.finite negative magnitude) (double.floor (.finite negative magnitude))) =
      .finite false 12 := by
  rw [sub_floor_of_fract_half negative magnitude h0 hfract, literal_24]
  simp only [double.mul, Bool.xor_false]
  norm_num
  exact round_12 false

/-- The quotient `-(hour - 12.0) * (hour - 12.0) / (sigma * sigma)` at
`hour = 12.0` is a zero as soon as `sigma * sigma` is neither NaN nor a
zero. -/
theorem exponent_at_noon (sigma_squared : double) (hnan : sigma_squared ≠ .nan)
    (hzero : ∀ s, sigma_squared ≠ .finite s 0) :
    ∃ s, double.div
      (double.mul (double.neg (double.sub (.finite false 12) (.finite false 12)))
        (double.sub (.finite false 12) (.finite false 12))) sigma_squared = .finite s 0 := by
  have hsub : double.sub (.finite false 12) (.finite false 12) = .finite false 0 := by
    simp [double.sub, double.neg, double.add, double.value]
  have hmul : double.mul (double.neg (.finite false 0)) (.finite false 0) = .finite true 0 := by
    simp [double.neg, double.mul, round_zero]
  rw [hsub, hmul]
  cases sigma_squared with
  | nan => exact absurd rfl hnan
  | infinite t => exact ⟨xor true t, rfl⟩
  | finite t n =>
    have hn : n ≠ 0 := fun h => hzero t (by rw [h])
    exact ⟨xor true t, by simp [double.div, hn, round_zero]⟩

/-- The value of `solar` that `gaussian_solar` computes in double precision
when `hour` is 12, `sigma * sigma` is neither NaN nor a zero and `exp` maps
the zeros to 1. -/
theorem gaussian_solar_double_at_noon_of_hour (exp : double → double)
    (hexp : ∀ s, exp (.finite s 0) = .finite false 1)
    (doy_dbl target_doy_dbl new_dl : double)
    (hhour : double.mul (double.literal 24) (double.sub doy_dbl (double.floor doy_dbl)) =
      .finite false 12)
    (hnan : double.mul
        (gaussian_solar.calculations_double exp doy_dbl target_doy_dbl new_dl).sigma
        (gaussian_solar.calculations_double exp doy_dbl target_doy_dbl new_dl).sigma ≠ .nan)
    (hzero : ∀ s, double.mul
        (gaussian_solar.calculations_double exp doy_dbl target_doy_dbl new_dl).sigma
        (gaussian_solar.calculations_double exp doy_dbl target_doy_dbl new_dl).sigma ≠
          .finite s 0) :
    (gaussian_solar.calculations_double exp doy_dbl target_doy_dbl new_dl).hour =
        .finite false 12 ∧
    (gaussian_solar.calculations_double exp doy_dbl target_doy_dbl new_dl).solar =
        .finite false 1000 := by
  simp only [gaussian_solar.calculations_double, hhour, literal_12, literal_1000] at hnan hzero ⊢
  refine ⟨trivial, ?_⟩
  obtain ⟨s, hs⟩ := exponent_at_noon _ hnan hzero
  rw [hs, hexp]
  simp only [double.mul, Bool.xor_false]
  norm_num
  exact round_1000 false

theorem round_half_even_near (x : ℚ) (n : ℤ) (h : |x - n| < 1 / 2) :
    round_half_even x = n := by
  rw [abs_lt] at h
  obtain ⟨h1, h2⟩ := h
  rcases le_or_lt (n : ℚ) x with hx | hx
  · have hfl : ⌊x⌋ = n := by
      rw [Int.floor_eq_iff]
      constructor <;> linarith
    have hlt : x - (n : ℚ) < 1 / 2 := by linarith
    simp only [round_half_even, hfl, if_pos hlt]
  · have hfl : ⌊x⌋ = n - 1 := by
      rw [Int.floor_eq_iff]
      push_cast
      constructor <;> linarith
    have hnlt : ¬ x - ((n - 1 : ℤ) : ℚ) < 1 / 2 := by
      push_cast
      linarith
    have hlt : (1 : ℚ) / 2 < x - ((n - 1 : ℤ) : ℚ) := by
      push_cast
      linarith
    simp only [round_half_even, hfl, if_neg hnlt, if_pos hlt]
    ring

/-- The rounding of a number that lies within half a spacing of a
representable number of its own binade. -/
theorem round_near (negative : Bool) (q r : ℚ) (e n : ℤ)
    (hlo : (2 : ℚ) ^ e ≤ q) (hhi : q < (2 : ℚ) ^ (e + 1)) (hemin : -1022 ≤ e)
    (hr : r = n * 2 ^ (e - 52)) (hclose : |q / 2 ^ (e - 52) - n| < 1 / 2)
    (hfin : r < 2 ^ (1024 : ℤ)) :
    double.round negative q = .finite negative r := by
  have hpos : 0 < q := lt_of_lt_of_le (by positivity) hlo
  have hlog := int_log_two_eq q e hlo hhi
  have hmax : max (Int.log 2 q) (-1022) = e := by rw [hlog]; exact max_eq_left hemin
  rw [round_unfold negative q hpos.ne', hmax, round_half_even_near _ n hclose, ← hr, if_pos hfin]

theorem fract_401_half : Int.fract (double.finite false (401 / 2)).value = 1 / 2 := by
  have hfl : ⌊(401 / 2 : ℚ)⌋ = 200 := by
    rw [Int.floor_eq_iff]; norm_num
  simp only [double.value, Bool.false_eq_true, if_false, Int.fract, hfl]
  norm_num

/-- The double nearest to `1e-170` divided by 4 is computed exactly, and its
square underflows to zero. -/
theorem sigma_squared_underflows :
    double.mul
      (double.div (.finite false (5438853046443695 / 2 ^ 617)) (double.literal 4))
      (double.div (.finite false (5438853046443695 / 2 ^ 617)) (double.literal 4)) =
      .finite false 0 := by
  have hdiv : double.div (.finite false (5438853046443695 / 2 ^ 617)) (double.literal 4) =
      .finite false (5438853046443695 / 2 ^ 619) := by
    rw [literal_4]
    simp only [double.div, Bool.xor_false]
    rw [if_neg (by norm_num)]
    have hq : (5438853046443695 / 2 ^ 617 / 4 : ℚ) = 5438853046443695 / 2 ^ 619 := by norm_num
    rw [hq]
    exact round_of_representable false _ (-567) 5438853046443695 (by norm_num) (by norm_num)
      (by norm_num) (by norm_num) (by norm_num)
  rw [hdiv]
  simp only [double.mul, Bool.xor_false]
  exact round_of_small false _ (by positivity) (by norm_num)

theorem gaussian_solar_double_tiny_day_length (exp : double → double)
    (hexp : exp .nan = .nan) :
    (gaussian_solar.calculations_double exp (.finite false (401 / 2)) (.finite false 200)
      (.finite false (5438853046443695 / 2 ^ 617))).solar = .nan := by
  have hhour := gaussian_solar_double_hour_at_noon false (401 / 2) (by norm_num) fract_401_half
  have hlt : double.lt (.finite false (401 / 2)) (.finite false 200) = false := by
    simp only [double.lt, double.value]
    norm_num
  have hsub : double.sub (.finite false 12) (.finite false 12) = .finite false 0 := by
    simp [double.sub, double.neg, double.add, double.value]
  simp only [gaussian_solar.calculations_double, hhour, hlt, literal_12, literal_1000,
    Bool.false_eq_true, if_false, sigma_squared_underflows, hsub]
  simp [double.neg, double.mul, double.div, round_zero, hexp]

/-! ## Sums and differences of finite doubles -/

theorem sub_finite_nonneg (a b : ℚ) :
    double.sub (.finite false a) (.finite false b) =
      if a = b then .finite false 0
      else if a < b then double.round true (b - a) else double.round false (a - b) := by
  simp only [double.sub, double.neg, double.add, double.value, Bool.not_false, if_true,
    Bool.false_eq_true, if_false, Bool.false_and]
  by_cases hab : a = b
  · subst hab
    simp
  · have hne : a + -b ≠ 0 := fun h => hab (by linarith)
    rw [if_neg hne, if_neg hab]
    by_cases hlt : a < b
    · have hneg : a + -b < 0 := by linarith
      rw [if_pos hlt, abs_of_neg hneg]
      simp only [hneg, decide_True]
      congr 1
      ring
    · have hpos : 0 < a + -b := by
        rcases lt_or_eq_of_le (not_lt.1 hlt) with h | h
        · linarith
        · exact absurd h.symm hab
      rw [if_neg hlt, abs_of_pos hpos]
      have hn : ¬ a + -b < 0 := not_lt.2 hpos.le
      simp only [hn, decide_False]
      congr 1
      ring

theorem add_negative_nonneg (a b : ℚ) :
    double.add (.finite true a) (.finite false b) =
      if b = a then .finite false 0
      else if b < a then double.round true (a - b) else double.round false (b - a) := by
  simp only [double.add, double.value, if_true, Bool.false_eq_true, if_false, Bool.and_false]
  by_cases hab : b = a
  · subst hab
    simp
  · have hne : -a + b ≠ 0 := fun h => hab (by linarith)
    rw [if_neg hne, if_neg hab]
    by_cases hlt : b < a
    · have hneg : -a + b < 0 := by linarith
      rw [if_pos hlt, abs_of_neg hneg]
      simp only [hneg, decide_True]
      congr 1
      ring
    · have hpos : 0 < -a + b := by
        rcases lt_or_eq_of_le (not_lt.1 hlt) with h | h
        · linarith
        · exact absurd h.symm hab
      rw [if_neg hlt, abs_of_pos hpos]
      have hn : ¬ -a + b < 0 := not_lt.2 hpos.le
      simp only [hn, decide_False]
      congr 1
      ring

/-- The fractional part `doy_dbl - floor(doy_dbl)` of a finite `double` is a
`double` between 0 and 1, both included. -/
theorem sub_floor_range (negative : Bool) (magnitude : ℚ) (h0 : 0 ≤ magnitude) :
    ∃ f, double.sub (.finite negative magnitude) (double.floor (.finite negative magnitude)) =
      .finite false f ∧ 0 ≤ f ∧ f ≤ 1 := by
  cases negative with
  | false =>
    simp only [double.floor, Bool.false_eq_true, if_false]
    rw [sub_finite_nonneg]
    by_cases heq : magnitude = (⌊magnitude⌋ : ℚ)
    · rw [if_pos heq]
      exact ⟨0, rfl, le_refl 0, by norm_num⟩
    · have hlt : ¬ magnitude < (⌊magnitude⌋ : ℚ) := not_lt.2 (Int.floor_le magnitude)
      rw [if_neg heq, if_neg hlt]
      have h1 : magnitude - (⌊magnitude⌋ : ℚ) ≤ 1 := by
        have := Int.lt_floor_add_one magnitude
        linarith
      have h2 : 0 ≤ magnitude - (⌊magnitude⌋ : ℚ) := by
        have := Int.floor_le magnitude
        linarith
      exact round_le_of_le_representable false _ 1 0 (2 ^ 52) h2 h1 (by norm_num)
        (by norm_num) (by norm_num) (by norm_num)
  | true =>
    by_cases hm : magnitude = 0
    · subst hm
      refine ⟨0, ?_, le_refl 0, by norm_num⟩
      simp [double.floor, double.sub, double.neg, double.add, double.value]
    · simp only [double.floor, if_true, if_neg hm, double.sub, double.neg, Bool.not_true]
      rw [add_negative_nonneg]
      by_cases heq : (⌈magnitude⌉ : ℚ) = magnitude
      · rw [if_pos heq]
        exact ⟨0, rfl, le_refl 0, by norm_num⟩
      · have hlt : ¬ (⌈magnitude⌉ : ℚ) < magnitude := not_lt.2 (Int.le_ceil magnitude)
        rw [if_neg heq, if_neg hlt]
        have h1 : (⌈magnitude⌉ : ℚ) - magnitude ≤ 1 := by
          have := Int.ceil_lt_add_one magnitude
          linarith
        have h2 : 0 ≤ (⌈magnitude⌉ : ℚ) - magnitude := by
          have := Int.le_ceil magnitude
          linarith
        exact round_le_of_le_representable false _ 1 0 (2 ^ 52) h2 h1 (by norm_num)
          (by norm_num) (by norm_num) (by norm_num)

/-- The value `hour = 24.0 * (doy_dbl - floor(doy_dbl))` of a finite
`doy_dbl` is a `double` between 0 and 24, both included. -/
theorem hour_double_range (negative : Bool) (magnitude : ℚ) (h0 : 0 ≤ magnitude) :
    ∃ h, double.mul (double.literal 24)
      (double.sub (.finite negative magnitude) (double.floor (.finite negative magnitude))) =
      .finite false h ∧ 0 ≤ h ∧ h ≤ 24 := by
  obtain ⟨f, hf, hf0, hf1⟩ := sub_floor_range negative magnitude h0
  rw [hf, literal_24]
  simp only [double.mul, Bool.xor_false]
  exact round_le_of_le_representable false _ 24 4 (3 * 2 ^ 51) (by positivity) (by linarith)
    (by norm_num) (by norm_num) (by norm_num) (by norm_num)

/-- The product of a `double` with itself is NaN, plus infinity or a finite
number with the sign bit clear. -/
theorem mul_self_cases (a : double) :
    double.mul a a = .nan ∨ double.mul a a = .infinite false ∨
      ∃ m, double.mul a a = .finite false m ∧ 0 ≤ m := by
  cases a with
  | nan => exact Or.inl rfl
  | infinite s => exact Or.inr (Or.inl (by simp [double.mul]))
  | finite s m =>
    simp only [double.mul, Bool.xor_self]
    rcases round_finite_or_infinite false (m * m) (mul_self_nonneg m) with h | h
    · exact Or.inr (Or.inr h)
    · exact Or.inr (Or.inl h)

/-- The difference `hour - 12.0` for an `hour` between 0 and 24 is a finite
`double` of magnitude at most 12. -/
theorem hour_sub_12_range (h : ℚ) (h0 : 0 ≤ h) (h24 : h ≤ 24) :
    ∃ s a, double.sub (.finite false h) (.finite false 12) = .finite s a ∧ 0 ≤ a ∧ a ≤ 12 := by
  rw [sub_finite_nonneg]
  by_cases heq : h = 12
  · rw [if_pos heq]
    exact ⟨false, 0, rfl, le_refl 0, by norm_num⟩
  · rw [if_neg heq]
    by_cases hlt : h < 12
    · rw [if_pos hlt]
      obtain ⟨m, hm, hm0, hm1⟩ := round_le_of_le_representable true (12 - h) 12 3 (3 * 2 ^ 51)
        (by linarith) (by linarith) (by norm_num) (by norm_num) (by norm_num) (by norm_num)
      exact ⟨true, m, hm, hm0, hm1⟩
    · rw [if_neg hlt]
      obtain ⟨m, hm, hm0, hm1⟩ := round_le_of_le_representable false (h - 12) 12 3 (3 * 2 ^ 51)
        (by linarith [not_lt.1 hlt]) (by linarith) (by norm_num) (by norm_num) (by norm_num)
        (by norm_num)
      exact ⟨false, m, hm, hm0, hm1⟩

/-- The quotient `-(hour - 12.0) * (hour - 12.0) / (sigma * sigma)` has its
sign bit set and is not NaN, when `sigma * sigma` is plus infinity or a
finite number other than zero with the sign bit clear. -/
theorem exponent_nonpositive (s : Bool) (a : ℚ) (ha0 : 0 ≤ a) (ha : a ≤ 12)
    (sigma_squared : double)
    (hsq : sigma_squared = .infinite false ∨
      ∃ n, sigma_squared = .finite false n ∧ 0 ≤ n ∧ n ≠ 0) :
    double.div (double.mul (double.neg (.finite s a)) (.finite s a)) sigma_squared =
        .infinite true ∨
      ∃ m, double.div (double.mul (double.neg (.finite s a)) (.finite s a))
        sigma_squared = .finite true m ∧ 0 ≤ m := by
  have hxor : xor (!s) s = true := by cases s <;> rfl
  simp only [double.neg, double.mul, hxor]
  obtain ⟨p, hp, hp0, -⟩ := round_le_of_le_representable true (a * a) 144 7 (9 * 2 ^ 49)
    (mul_self_nonneg a) (by nlinarith) (by norm_num) (by norm_num) (by norm_num) (by norm_num)
  rw [hp]
  rcases hsq with h | ⟨n, hn, hn0, hne⟩
  · rw [h]
    exact Or.inr ⟨0, by simp [double.div], le_refl 0⟩
  · rw [hn]
    simp only [double.div, if_neg hne, Bool.xor_false]
    rcases round_finite_or_infinite true (p / n) (div_nonneg hp0 hn0) with h | h
    · exact Or.inr h
    · exact Or.inl h

theorem sigma_squared_cases (sigma : double) (hnan : double.mul sigma sigma ≠ .nan)
    (hzero : ∀ t, double.mul sigma sigma ≠ .finite t 0) :
    double.mul sigma sigma = .infinite false ∨
      ∃ n, double.mul sigma sigma = .finite false n ∧ 0 ≤ n ∧ n ≠ 0 := by
  rcases mul_self_cases sigma with h | h | ⟨n, hn, hn0⟩
  · exact absurd h hnan
  · exact Or.inl h
  · exact Or.inr ⟨n, hn, hn0, fun h => hzero false (by rw [hn, h])⟩

/-- The range of `solar` in double precision, for a finite `doy_dbl`, when
`sigma * sigma` is neither NaN nor a zero and `exp` maps the zeros to 1 and
every other argument with the sign bit set into the interval from 0 to 1. -/
theorem gaussian_solar_double_range (exp : double → double)
    (hexp_zero : ∀ s, exp (.finite s 0) = .finite false 1)
    (hexp_infinite : ∃ r, exp (.infinite true) = .finite false r ∧ 0 ≤ r ∧ r ≤ 1)
    (hexp_negative : ∀ m, 0 ≤ m → ∃ r, exp (.finite true m) = .finite false r ∧ 0 ≤ r ∧ r ≤ 1)
    (negative : Bool) (magnitude : ℚ) (h0 : 0 ≤ magnitude)
    (target_doy_dbl new_dl : double)
    (hnan : double.mul
        (gaussian_solar.calculations_double exp (.finite negative magnitude)
          target_doy_dbl new_dl).sigma
        (gaussian_solar.calculations_double exp (.finite negative magnitude)
          target_doy_dbl new_dl).sigma ≠ .nan)
    (hzero : ∀ s, double.mul
        (gaussian_solar.calculations_double exp (.finite negative magnitude)
          target_doy_dbl new_dl).sigma
        (gaussian_solar.calculations_double exp (.finite negative magnitude)
          target_doy_dbl new_dl).sigma ≠ .finite s 0) :
    ∃ solar, (gaussian_solar.calculations_double exp (.finite negative magnitude)
        target_doy_dbl new_dl).solar = .finite false solar ∧ 0 ≤ solar ∧ solar ≤ 1000 ∧
      ((gaussian_solar.calculations_double exp (.finite negative magnitude)
        target_doy_dbl new_dl).hour = .finite false 12 → solar = 1000) := by
  obtain ⟨h, hh, hh0, hh24⟩ := hour_double_range negative magnitude h0
  obtain ⟨s, a, ha, ha0, ha12⟩ := hour_sub_12_range h hh0 hh24
  have hsq := sigma_squared_cases _ hnan hzero
  have hbound : ∀ r : ℚ, 0 ≤ r → r ≤ 1 →
      ∃ solar, double.mul (.finite false 1000) (.finite false r) = .finite false solar ∧
        0 ≤ solar ∧ solar ≤ 1000 := by
    intro r hr0 hr1
    simp only [double.mul, Bool.xor_false]
    exact round_le_of_le_representable false _ 1000 9 (125 * 2 ^ 46) (by positivity)
      (by linarith) (by norm_num) (by norm_num) (by norm_num) (by norm_num)
  by_cases h12 : h = 12
  · subst h12
    obtain ⟨hhour, hsolar⟩ := gaussian_solar_double_at_noon_of_hour exp hexp_zero
      (.finite negative magnitude) target_doy_dbl new_dl hh hnan hzero
    exact ⟨1000, hsolar, by norm_num, le_refl _, fun _ => rfl⟩
  · simp only [gaussian_solar.calculations_double, hh, literal_12, literal_1000, ha] at hsq ⊢
    have hne : double.finite false h ≠ double.finite false 12 := by
      intro heq
      injection heq with _ heq
      exact h12 heq
    rcases exponent_nonpositive s a ha0 ha12 _ hsq with harg | ⟨m, harg, hm0⟩
    · rw [harg]
      obtain ⟨r, hr, hr0, hr1⟩ := hexp_infinite
      rw [hr]
      obtain ⟨solar, hs, hs0, hs1⟩ := hbound r hr0 hr1
      exact ⟨solar, hs, hs0, hs1, fun h => absurd h hne⟩
    · rw [harg]
      obtain ⟨r, hr, hr0, hr1⟩ := hexp_negative m hm0
      rw [hr]
      obtain ⟨solar, hs, hs0, hs1⟩ := hbound r hr0 hr1
      exact ⟨solar, hs, hs0, hs1, fun h => absurd h hne⟩

theorem round_144 (negative : Bool) : double.round negative 144 = .finite negative 144 :=
  round_of_representable negative 144 7 (9 * 2 ^ 49) (by norm_num) (by norm_num)
    (by norm_num) (by norm_num) (by norm_num)

/-- At midnight with a day length of a tenth of an hour the argument of
`exp` is a finite number below -746, and `solar` is 0 as soon as `exp`
underflows there. -/
theorem gaussian_solar_double_underflow (exp : double → double)
    (hunder : ∀ m, 746 ≤ m → exp (.finite true m) = .finite false 0) :
    (gaussian_solar.calculations_double exp (.finite false 12) (.finite false 0)
      (.finite false (3602879701896397 / 2 ^ 55))).solar = .finite false 0 := by
  have hfloor : double.floor (.finite false 12) = .finite false 12 := by
    have hfl : ⌊(12 : ℚ)⌋ = 12 := by
      rw [Int.floor_eq_iff]; norm_num
    simp only [double.floor, Bool.false_eq_true, if_false, hfl, Int.cast_ofNat]
  have hhour : double.mul (double.literal 24)
      (double.sub (.finite false 12) (double.floor (.finite false 12))) = .finite false 0 := by
    rw [hfloor, sub_finite_nonneg, if_pos rfl, literal_24]
    simp [double.mul, round_zero]
  have hlt : double.lt (.finite false 12) (.finite false 0) = false := by
    simp only [double.lt, double.value]
    norm_num
  have ha : double.sub (.finite false 0) (.finite false 12) = .finite true 12 := by
    rw [sub_finite_nonneg, if_neg (by norm_num), if_pos (by norm_num)]
    norm_num
    exact round_12 true
  have hp : double.mul (double.neg (.finite true 12)) (.finite true 12) = .finite true 144 := by
    simp only [double.neg, double.mul, Bool.not_true, Bool.false_xor]
    norm_num
    exact round_144 true
  have hsigma : double.div (.finite false (3602879701896397 / 2 ^ 55)) (double.literal 4) =
      .finite false (3602879701896397 / 2 ^ 57) := by
    rw [literal_4]
    simp only [double.div, Bool.xor_false]
    rw [if_neg (by norm_num)]
    have hq : (3602879701896397 / 2 ^ 55 / 4 : ℚ) = 3602879701896397 / 2 ^ 57 := by norm_num
    rw [hq]
    exact round_of_representable false _ (-6) 7205759403792794 (by norm_num) (by norm_num)
      (by norm_num) (by norm_num) (by norm_num)
  obtain ⟨n, hn, hn0, hn1⟩ := round_le_of_le_representable false
    (3602879701896397 / 2 ^ 57 * (3602879701896397 / 2 ^ 57)) (1 / 2 ^ 10) (-10) (2 ^ 52)
    (by positivity) (by norm_num) (by norm_num) (by norm_num) (by norm_num) (by norm_num)
  have hn2 : (1 / 2 ^ 11 : ℚ) ≤ n :=
    le_round_of_representable_le false _ (1 / 2 ^ 11) n (-11) (2 ^ 52) (by norm_num)
      (by norm_num) (by norm_num) (by norm_num) (by norm_num) hn
  have hnpos : 0 < n := lt_of_lt_of_le (by norm_num) hn2
  have hquot_hi : 144 / n ≤ 2 ^ 19 := by
    rw [div_le_iff₀ hnpos]
    calc (144 : ℚ) ≤ 2 ^ 19 * (1 / 2 ^ 11) := by norm_num
      _ ≤ 2 ^ 19 * n := by gcongr
  have hquot_lo : (1024 : ℚ) ≤ 144 / n := by
    rw [le_div_iff₀ hnpos]
    calc 1024 * n ≤ 1024 * (1 / 2 ^ 10) := by gcongr
      _ ≤ 144 := by norm_num
  obtain ⟨x, hx, hx0, hx1⟩ := round_le_of_le_representable true (144 / n) (2 ^ 19) 19 (2 ^ 52)
    (by positivity) hquot_hi (by norm_num) (by norm_num) (by norm_num) (by norm_num)
  have hx2 : (1024 : ℚ) ≤ x :=
    le_round_of_representable_le true _ 1024 x 10 (2 ^ 52) (by norm_num)
      (by norm_num) hquot_lo (by norm_num) (by norm_num) hx
  simp only [gaussian_solar.calculations_double, hhour, hlt, literal_12, literal_1000,
    Bool.false_eq_true, if_false, ha, hp, hsigma]
  simp only [double.mul, Bool.xor_false] at hn ⊢
  rw [hn]
  simp only [double.div, if_neg hnpos.ne', Bool.xor_false]
  rw [hx, hunder x (by linarith)]
  simp [double.mul, round_zero]

/-- Close to noon, at `doy_dbl = 12.5 + 2^-40`, `hour` is not 12 and the
argument of `exp` is below `2^-60` in magnitude, so that `solar` is 1000 as
soon as `exp` rounds to 1 there. -/
theorem gaussian_solar_double_near_noon (exp : double → double)
    (hone : ∀ s m, 0 ≤ m → m ≤ 1 / 2 ^ 60 → exp (.finite s m) = .finite false 1) :
    (gaussian_solar.calculations_double exp (.finite false (25 / 2 + 1 / 2 ^ 40))
      (.finite false 200) (.finite false 14)).hour = .finite false (12 + 3 / 2 ^ 37) ∧
    (gaussian_solar.calculations_double exp (.finite false (25 / 2 + 1 / 2 ^ 40))
      (.finite false 200) (.finite false 14)).solar = .finite false 1000 := by
  have hfloor : double.floor (.finite false (25 / 2 + 1 / 2 ^ 40)) = .finite false 12 := by
    have hfl : ⌊(25 / 2 + 1 / 2 ^ 40 : ℚ)⌋ = 12 := by
      rw [Int.floor_eq_iff]; norm_num
    simp only [double.floor, Bool.false_eq_true, if_false, hfl, Int.cast_ofNat]
  have hsub : double.sub (.finite false (25 / 2 + 1 / 2 ^ 40)) (.finite false 12) =
      .finite false (1 / 2 + 1 / 2 ^ 40) := by
    rw [sub_finite_nonneg, if_neg (by norm_num), if_neg (by norm_num)]
    have hq : (25 / 2 + 1 / 2 ^ 40 - 12 : ℚ) = 1 / 2 + 1 / 2 ^ 40 := by norm_num
    rw [hq]
    exact round_of_representable false _ (-1) (2 ^ 52 + 2 ^ 13) (by norm_num) (by norm_num)
      (by norm_num) (by norm_num) (by norm_num)
  have hhour : double.mul (double.literal 24)
      (double.sub (.finite false (25 / 2 + 1 / 2 ^ 40))
        (double.floor (.finite false (25 / 2 + 1 / 2 ^ 40)))) =
      .finite false (12 + 3 / 2 ^ 37) := by
    rw [hfloor, hsub, literal_24]
    simp only [double.mul, Bool.xor_false]
    have hq : (24 * (1 / 2 + 1 / 2 ^ 40) : ℚ) = 12 + 3 / 2 ^ 37 := by norm_num
    rw [hq]
    exact round_of_representable false _ 3 (3 * 2 ^ 51 + 3 * 2 ^ 12) (by norm_num) (by norm_num)
      (by norm_num) (by norm_num) (by norm_num)
  have hlt : double.lt (.finite false (25 / 2 + 1 / 2 ^ 40)) (.finite false 200) = true := by
    simp only [double.lt, double.value]
    norm_num
  have ha : double.sub (.finite false (12 + 3 / 2 ^ 37)) (.finite false 12) =
      .finite false (3 / 2 ^ 37) := by
    rw [sub_finite_nonneg, if_neg (by norm_num), if_neg (by norm_num)]
    have hq : (12 + 3 / 2 ^ 37 - 12 : ℚ) = 3 / 2 ^ 37 := by norm_num
    rw [hq]
    exact round_of_representable false _ (-36) (3 * 2 ^ 51) (by norm_num) (by norm_num)
      (by norm_num) (by norm_num) (by norm_num)
  have hp : double.mul (double.neg (.finite false (3 / 2 ^ 37))) (.finite false (3 / 2 ^ 37)) =
      .finite true (9 / 2 ^ 74) := by
    simp only [double.neg, double.mul, Bool.not_false, Bool.xor_false]
    have hq : (3 / 2 ^ 37 * (3 / 2 ^ 37) : ℚ) = 9 / 2 ^ 74 := by norm_num
    rw [hq]
    exact round_of_representable true _ (-71) (9 * 2 ^ 49) (by norm_num) (by norm_num)
      (by norm_num) (by norm_num) (by norm_num)
  have hsigma : double.div (double.literal 11) (double.literal 4) = .finite false (11 / 4) := by
    rw [literal_11, literal_4]
    simp only [double.div, Bool.xor_false]
    rw [if_neg (by norm_num)]
    exact round_of_representable false _ 1 (11 * 2 ^ 49) (by norm_num) (by norm_num)
      (by norm_num) (by norm_num) (by norm_num)
  have hsq : double.mul (.finite false (11 / 4)) (.finite false (11 / 4)) =
      .finite false (121 / 16) := by
    simp only [double.mul, Bool.xor_false]
    have hq : (11 / 4 * (11 / 4) : ℚ) = 121 / 16 := by norm_num
    rw [hq]
    exact round_of_representable false _ 2 (121 * 2 ^ 46) (by norm_num) (by norm_num)
      (by norm_num) (by norm_num) (by norm_num)
  obtain ⟨x, hx, hx0, hx1⟩ := round_le_of_le_representable true (9 / 2 ^ 74 / (121 / 16))
    (1 / 2 ^ 60) (-60) (2 ^ 52) (by positivity) (by norm_num) (by norm_num) (by norm_num)
    (by norm_num) (by norm_num)
  simp only [gaussian_solar.calculations_double, hhour, hlt, literal_12, literal_1000,
    if_true, ha, hp, hsigma, hsq]
  refine ⟨trivial, ?_⟩
  simp only [double.div, Bool.xor_false]
  rw [if_neg (by norm_num), hx, hone true x hx0 hx1]
  simp only [double.mul, Bool.xor_false]
  norm_num
  exact round_1000 false

/-! ## The lengths of day and night in double precision -/

theorem round_24 (negative : Bool) : double.round negative 24 = .finite negative 24 :=
  round_of_representable negative 24 4 (3 * 2 ^ 51) (by norm_num) (by norm_num)
    (by norm_num) (by norm_num) (by norm_num)

/-- The conversion `phase * 12 / pi` of a phase between 0 and `2 * pi` to a
time is a `double` between 0 and 24, both included. -/
theorem phase_time_range (m : ℚ) (hm0 : 0 ≤ m) (hm : m ≤ 884279719003555 / 2 ^ 47) :
    ∃ t, double.div (double.mul (.finite false m) (double.literal 12)) double_pi =
      .finite false t ∧ 0 ≤ t ∧ t ≤ 24 := by
  rw [literal_12, double_pi]
  simp only [double.mul, Bool.xor_false]
  obtain ⟨x, hx, hx0, hx1⟩ := round_le_of_le_representable false (m * 12)
    (3 * 884279719003555 / 2 ^ 45) 6 (6 * 884279719003555) (by positivity)
    (by linarith) (by norm_num) (by norm_num) (by norm_num) (by norm_num)
  rw [hx]
  simp only [double.div, Bool.xor_false]
  rw [if_neg (by norm_num)]
  refine round_le_of_le_representable false _ 24 4 (3 * 2 ^ 51) (by positivity) ?_
    (by norm_num) (by norm_num) (by norm_num) (by norm_num)
  rw [div_le_iff₀ (by norm_num)]
  linarith

/-- The expression of `sunrise`, and of `sunset`, for an `hour` and a phase
time between 0 and 24, both included. -/
theorem sunrise_double_range (h t : ℚ) (hh0 : 0 ≤ h) (hh : h ≤ 24) (ht0 : 0 ≤ t)
    (ht : t ≤ 24) :
    ∃ r, (if double.lt (.finite false t) (.finite false h)
      then double.sub (.finite false h) (.finite false t)
      else double.add (double.sub (.finite false h) (.finite false t)) (double.literal 24)) =
        .finite false r ∧ 0 ≤ r ∧ r ≤ 24 ∧ (t = h → r = 24) := by
  by_cases hth : t < h
  · have hlt : double.lt (.finite false t) (.finite false h) = true := by
      simp only [double.lt, double.value]
      simpa using hth
    rw [hlt, if_pos rfl, sub_finite_nonneg, if_neg (ne_of_gt hth), if_neg (not_lt.2 hth.le)]
    obtain ⟨r, hr, hr0, hr1⟩ := round_le_of_le_representable false (h - t) 24 4 (3 * 2 ^ 51)
      (by linarith) (by linarith) (by norm_num) (by norm_num) (by norm_num) (by norm_num)
    exact ⟨r, hr, hr0, hr1, fun h' => absurd h' (ne_of_lt hth)⟩
  · have hlt : double.lt (.finite false t) (.finite false h) = false := by
      simp only [double.lt, double.value]
      simpa using hth
    rw [hlt, if_neg (by simp), sub_finite_nonneg, literal_24]
    by_cases heq : h = t
    · rw [if_pos heq]
      refine ⟨24, ?_, by norm_num, le_refl _, fun _ => rfl⟩
      simp only [double.add, double.value, Bool.false_eq_true, if_false, Bool.and_self]
      norm_num
      exact round_24 false
    · have hlt' : h < t := lt_of_le_of_ne (not_lt.1 hth) heq
      rw [if_neg heq, if_pos hlt']
      obtain ⟨d, hd, hd0, hd1⟩ := round_le_of_le_representable true (t - h) 24 4 (3 * 2 ^ 51)
        (by linarith) (by linarith) (by norm_num) (by norm_num) (by norm_num) (by norm_num)
      rw [hd, add_negative_nonneg]
      by_cases h24 : (24 : ℚ) = d
      · rw [if_pos h24]
        exact ⟨0, rfl, le_refl 0, by norm_num, fun h' => absurd h'.symm heq⟩
      · rw [if_neg h24, if_neg (not_lt.2 hd1)]
        obtain ⟨r, hr, hr0, hr1⟩ := round_le_of_le_representable false (24 - d) 24 4
          (3 * 2 ^ 51) (by linarith) (by linarith) (by norm_num) (by norm_num) (by norm_num)
          (by norm_num)
        exact ⟨r, hr, hr0, hr1, fun h' => absurd h'.symm heq⟩

/-- Just before midnight, at `doy_dbl = -2^-60`, `hour` is 24. -/
theorem hour_double_before_midnight :
    double.mul (double.literal 24)
      (double.sub (.finite true (1 / 2 ^ 60)) (double.floor (.finite true (1 / 2 ^ 60)))) =
      .finite false 24 := by
  have hceil : ⌈(1 / 2 ^ 60 : ℚ)⌉ = 1 := by
    rw [Int.ceil_eq_iff]; norm_num
  have hfloor : double.floor (.finite true (1 / 2 ^ 60)) = .finite true 1 := by
    simp only [double.floor, if_true, hceil, Int.cast_one]
    rw [if_neg (by norm_num)]
  have hr : double.round false (1 - 1 / 2 ^ 60) = .finite false 1 :=
    round_near false _ _ (-1) (2 ^ 53) (by norm_num) (by norm_num) (by norm_num)
      (by norm_num) (by rw [abs_lt]; constructor <;> norm_num) (by norm_num)
  rw [hfloor]
  simp only [double.sub, double.neg, Bool.not_true]
  rw [add_negative_nonneg, if_neg (by norm_num), if_neg (by norm_num), hr, literal_24]
  simp only [double.mul, Bool.xor_false]
  norm_num
  exact round_24 false

theorem hour_double_quarter :
    double.mul (double.literal 24)
      (double.sub (.finite false (1 / 4)) (double.floor (.finite false (1 / 4)))) =
      .finite false 6 := by
  have hfl : ⌊(1 / 4 : ℚ)⌋ = 0 := by
    rw [Int.floor_eq_iff]; norm_num
  have hfloor : double.floor (.finite false (1 / 4)) = .finite false 0 := by
    simp only [double.floor, Bool.false_eq_true, if_false, hfl, Int.cast_zero]
  have hr : double.round false (1 / 4 - 0) = .finite false (1 / 4) := by
    have hq : (1 / 4 - 0 : ℚ) = 1 / 4 := by norm_num
    rw [hq]
    exact round_of_representable false _ (-2) (2 ^ 52) (by norm_num) (by norm_num)
      (by norm_num) (by norm_num) (by norm_num)
  rw [hfloor, sub_finite_nonneg, if_neg (by norm_num), if_neg (by norm_num), hr, literal_24]
  simp only [double.mul, Bool.xor_false]
  have hq : (24 * (1 / 4) : ℚ) = 6 := by norm_num
  rw [hq]
  exact round_of_representable false _ 2 (3 * 2 ^ 51) (by norm_num) (by norm_num)
    (by norm_num) (by norm_num) (by norm_num)

theorem hour_double_zero :
    double.mul (double.literal 24)
      (double.sub (.finite false 0) (double.floor (.finite false 0))) = .finite false 0 := by
  have hfloor : double.floor (.finite false 0) = .finite false 0 := by
    simp [double.floor]
  rw [hfloor, sub_finite_nonneg, if_pos rfl, literal_24]
  simp [double.mul, round_zero]

/-- The phase time `phase * 12 / pi` of a quarter turn is 6. -/
theorem phase_time_quarter_turn :
    double.div (double.mul (.finite false (884279719003555 / 2 ^ 49)) (double.literal 12))
      double_pi = .finite false 6 := by
  have hm : double.round false (884279719003555 / 2 ^ 49 * 12) =
      .finite false (3 * 884279719003555 / 2 ^ 47) := by
    have hq : (884279719003555 / 2 ^ 49 * 12 : ℚ) = 3 * 884279719003555 / 2 ^ 47 := by norm_num
    rw [hq]
    exact round_of_representable false _ 4 (6 * 884279719003555) (by norm_num) (by norm_num)
      (by norm_num) (by norm_num) (by norm_num)
  rw [literal_12, double_pi]
  simp only [double.mul, Bool.xor_false]
  rw [hm]
  simp only [double.div, Bool.xor_false]
  rw [if_neg (by norm_num)]
  have hq : (3 * 884279719003555 / 2 ^ 47 / (884279719003555 / 2 ^ 48) : ℚ) = 6 := by norm_num
  rw [hq]
  exact round_of_representable false _ 2 (3 * 2 ^ 51) (by norm_num) (by norm_num)
    (by norm_num) (by norm_num) (by norm_num)

/-- The phase time `phase * 12 / pi` of the phase `2 * pi` is 24. -/
theorem phase_time_full_turn :
    double.div (double.mul (.finite false (884279719003555 / 2 ^ 47)) (double.literal 12))
      double_pi = .finite false 24 := by
  have hm : double.round false (884279719003555 / 2 ^ 47 * 12) =
      .finite false (3 * 884279719003555 / 2 ^ 45) := by
    have hq : (884279719003555 / 2 ^ 47 * 12 : ℚ) = 3 * 884279719003555 / 2 ^ 45 := by norm_num
    rw [hq]
    exact round_of_representable false _ 6 (6 * 884279719003555) (by norm_num) (by norm_num)
      (by norm_num) (by norm_num) (by norm_num)
  rw [literal_12, double_pi]
  simp only [double.mul, Bool.xor_false]
  rw [hm]
  simp only [double.div, Bool.xor_false]
  rw [if_neg (by norm_num)]
  have hq : (3 * 884279719003555 / 2 ^ 45 / (884279719003555 / 2 ^ 48) : ℚ) = 24 := by norm_num
  rw [hq]
  exact round_24 false

/-- A quarter of a day after midnight with the dawn phase a quarter turn,
`hour` is 6 and `sunrise` is 24. -/
theorem oscillator_double_sunrise_quarter (sin sqrt : double → double)
    (range_adjusted_atan2 : double → double → double)
    (kick_strength kick_start kick_end dawn_b dawn_a dusk_b dusk_a ref_b ref_a : double)
    (hdawn : range_adjusted_atan2 dawn_b dawn_a = .finite false (884279719003555 / 2 ^ 49)) :
    (oscillator_clock_calculator_sk.calculations_double sin sqrt double_pi range_adjusted_atan2
      (.finite false (1 / 4)) kick_strength kick_start kick_end dawn_b dawn_a dusk_b dusk_a
      ref_b ref_a).hour = .finite false 6 ∧
    (oscillator_clock_calculator_sk.calculations_double sin sqrt double_pi range_adjusted_atan2
      (.finite false (1 / 4)) kick_strength kick_start kick_end dawn_b dawn_a dusk_b dusk_a
      ref_b ref_a).sunrise = .finite false 24 := by
  have hlt : double.lt (.finite false 6) (.finite false 6) = false := by
    simp [double.lt]
  simp only [oscillator_clock_calculator_sk.calculations_double, hdawn, hour_double_quarter,
    phase_time_quarter_turn, hlt, Bool.false_eq_true, if_false]
  refine ⟨trivial, ?_⟩
  rw [sub_finite_nonneg, if_pos rfl, literal_24]
  simp only [double.add, double.value, Bool.false_eq_true, if_false, Bool.and_self]
  norm_num
  exact round_24 false

/-- At midnight with the dawn phase `2 * pi`, `hour` is 0 and `sunrise`
is 0. -/
theorem oscillator_double_sunrise_full_turn (sin sqrt : double → double)
    (range_adjusted_atan2 : double → double → double)
    (kick_strength kick_start kick_end dawn_b dawn_a dusk_b dusk_a ref_b ref_a : double)
    (hdawn : range_adjusted_atan2 dawn_b dawn_a = .finite false (884279719003555 / 2 ^ 47)) :
    (oscillator_clock_calculator_sk.calculations_double sin sqrt double_pi range_adjusted_atan2
      (.finite false 0) kick_strength kick_start kick_end dawn_b dawn_a dusk_b dusk_a
      ref_b ref_a).hour = .finite false 0 ∧
    (oscillator_clock_calculator_sk.calculations_double sin sqrt double_pi range_adjusted_atan2
      (.finite false 0) kick_strength kick_start kick_end dawn_b dawn_a dusk_b dusk_a
      ref_b ref_a).sunrise = .finite false 0 := by
  have hlt : double.lt (.finite false 24) (.finite false 0) = false := by
    simp only [double.lt, double.value]
    norm_num
  simp only [oscillator_clock_calculator_sk.calculations_double, hdawn, hour_double_zero,
    phase_time_full_turn, hlt, Bool.false_eq_true, if_false]
  refine ⟨trivial, ?_⟩
  rw [sub_finite_nonneg, if_neg (by norm_num), if_pos (by norm_num), literal_24]
  have hq : (24 - 0 : ℚ) = 24 := by norm_num
  rw [hq, round_24, add_negative_nonneg, if_pos rfl]

/-- The `double` `2 * pi` is below the number `2 * pi`. -/
theorem two_double_pi_lt_two_pi :
    ((884279719003555 / 2 ^ 47 : ℚ) : ℝ) < 2 * Real.pi := by
  have h := Real.pi_gt_d20
  push_cast
  norm_num at h ⊢
  linarith



/-! ## The two modules in double precision -/

theorem gaussian_solar_do_operation_double_eq (exp : double → double) (self : gaussian_solar)
    (input_parameters output_parameters : state_map double)
    (doy_dbl target_doy_dbl new_dl : double)
    (hself : gaussian_solar.construct input_parameters output_parameters = .ok self)
    (hdoy : deref input_parameters "doy_dbl" = some doy_dbl)
    (htarget : deref input_parameters "target_doy_dbl" = some target_doy_dbl)
    (hnew : deref input_parameters "new_dl" = some new_dl) :
    gaussian_solar.do_operation_double exp self input_parameters output_parameters =
      some (update output_parameters "solar"
        (gaussian_solar.calculations_double exp doy_dbl target_doy_dbl new_dl).solar) := by
  rw [(gaussian_solar_construct_ok input_parameters output_parameters self hself).1]
  simp [gaussian_solar.do_operation_double, hdoy, htarget, hnew]

theorem sample_gaussian_solar_construct (doy_dbl target_doy_dbl new_dl solar : double) :
    gaussian_solar.construct (sample_gaussian_solar_inputs doy_dbl target_doy_dbl new_dl)
      [("solar", solar)] = .ok sample_gaussian_solar := rfl

theorem sample_gaussian_solar_do_operation (exp : double → double)
    (doy_dbl target_doy_dbl new_dl solar : double) :
    gaussian_solar.do_operation_double exp sample_gaussian_solar
      (sample_gaussian_solar_inputs doy_dbl target_doy_dbl new_dl) [("solar", solar)] =
      some [("solar",
        (gaussian_solar.calculations_double exp doy_dbl target_doy_dbl new_dl).solar)] := by
  rw [gaussian_solar_do_operation_double_eq exp sample_gaussian_solar _ _ doy_dbl
    target_doy_dbl new_dl (sample_gaussian_solar_construct _ _ _ _) rfl rfl rfl]
  simp [update]

theorem sigma_squared_eleven :
    double.mul (double.div (double.literal 11) (double.literal 4))
      (double.div (double.literal 11) (double.literal 4)) = .finite false (121 / 16) := by
  have hsigma : double.div (double.literal 11) (double.literal 4) = .finite false (11 / 4) := by
    rw [literal_11, literal_4]
    simp only [double.div, Bool.xor_false]
    rw [if_neg (by norm_num)]
    exact round_of_representable false _ 1 (11 * 2 ^ 49) (by norm_num) (by norm_num)
      (by norm_num) (by norm_num) (by norm_num)
  rw [hsigma]
  simp only [double.mul, Bool.xor_false]
  have hq : (11 / 4 * (11 / 4) : ℚ) = 121 / 16 := by norm_num
  rw [hq]
  exact round_of_representable false _ 2 (121 * 2 ^ 46) (by norm_num) (by norm_num)
    (by norm_num) (by norm_num) (by norm_num)

theorem fract_25_half : Int.fract (double.finite false (25 / 2)).value = 1 / 2 := by
  have hfl : ⌊(25 / 2 : ℚ)⌋ = 12 := by
    rw [Int.floor_eq_iff]; norm_num
  simp only [double.value, Bool.false_eq_true, if_false, Int.fract, hfl]
  norm_num

theorem lt_25_half_200 :
    double.lt (.finite false (25 / 2)) (.finite false 200) = true := by
  simp only [double.lt, double.value]
  norm_num

theorem sample_exp_zero (s : Bool) : sample_exp (.finite s 0) = .finite false 1 := by
  simp [sample_exp]

/-- Counterexample to C9 as stated: at `doy_dbl = 200.5`, whose fractional
part is 1/2, with `target_doy_dbl = 200` and `new_dl` the `double` nearest
to `1e-170`, the selected day length is `new_dl`, which is not zero; the
product `sigma * sigma` underflows to 0, the argument of `exp` is `0 / 0`,
and `do_operation` stores NaN in `solar`, not 1000, whenever `exp` maps NaN
to NaN. -/
theorem gaussian_solar_noon_stores_nan :
    Int.fract (double.finite false (401 / 2)).value = 1 / 2 ∧
    (5438853046443695 / 2 ^ 617 : ℚ) ≠ 0 ∧
    (∀ exp : double → double,
      (gaussian_solar.calculations_double exp (.finite false (401 / 2)) (.finite false 200)
        (.finite false (5438853046443695 / 2 ^ 617))).day_length =
        .finite false (5438853046443695 / 2 ^ 617)) ∧
    (∀ exp : double → double,
      (gaussian_solar.calculations_double exp (.finite false (401 / 2)) (.finite false 200)
        (.finite false (5438853046443695 / 2 ^ 617))).hour = .finite false 12) ∧
    (∀ exp : double → double, exp .nan = .nan →
      gaussian_solar.do_operation_double exp sample_gaussian_solar
        (sample_gaussian_solar_inputs (.finite false (401 / 2)) (.finite false 200)
          (.finite false (5438853046443695 / 2 ^ 617)))
        [("solar", .finite false 0)] = some [("solar", .nan)]) ∧
    double.nan ≠ .finite false 1000 := by
  have hlt : double.lt (.finite false (401 / 2)) (.finite false 200) = false := by
    simp only [double.lt, double.value]
    norm_num
  refine ⟨fract_401_half, by norm_num, ?_, ?_, ?_, by simp⟩
  · intro exp
    simp only [gaussian_solar.calculations_double, hlt, Bool.false_eq_true, if_false]
  · intro exp
    exact gaussian_solar_double_hour_at_noon false (401 / 2) (by norm_num) fract_401_half
  · intro exp hexp
    rw [sample_gaussian_solar_do_operation, gaussian_solar_double_tiny_day_length exp hexp]

/-- C9, as amended: `gaussian_solar` yields its peak at noon when the square
of `sigma` neither underflows nor is NaN.  In double precision, with an
`exp` that maps the zeros to 1: for every finite `doy_dbl` whose fractional
part is 1/2, and every `target_doy_dbl` and `new_dl` for which the computed
`sigma * sigma` is neither NaN nor a zero, `hour` is 12 and `do_operation`
stores 1000 in `solar`.  For `doy_dbl = 12.5`, `target_doy_dbl = 200`,
`new_dl = 14` the day length is 11, `hour` is 12 and `solar` is 1000. -/
theorem gaussian_solar_peak_at_noon (exp : double → double)
    (hexp : ∀ s, exp (.finite s 0) = .finite false 1) :
    (∀ (self : gaussian_solar) (input_parameters output_parameters : state_map double)
        (negative : Bool) (magnitude : ℚ) (target_doy_dbl new_dl : double),
      gaussian_solar.construct input_parameters output_parameters = .ok self →
      deref input_parameters "doy_dbl" = some (.finite negative magnitude) →
      deref input_parameters "target_doy_dbl" = some target_doy_dbl →
      deref input_parameters "new_dl" = some new_dl →
      0 ≤ magnitude →
      Int.fract (double.finite negative magnitude).value = 1 / 2 →
      double.mul
        (gaussian_solar.calculations_double exp (.finite negative magnitude)
          target_doy_dbl new_dl).sigma
        (gaussian_solar.calculations_double exp (.finite negative magnitude)
          target_doy_dbl new_dl).sigma ≠ .nan →
      (∀ s, double.mul
        (gaussian_solar.calculations_double exp (.finite negative magnitude)
          target_doy_dbl new_dl).sigma
        (gaussian_solar.calculations_double exp (.finite negative magnitude)
          target_doy_dbl new_dl).sigma ≠ .finite s 0) →
      (gaussian_solar.calculations_double exp (.finite negative magnitude)
        target_doy_dbl new_dl).hour = .finite false 12 ∧
      gaussian_solar.do_operation_double exp self input_parameters output_parameters =
        some (update output_parameters "solar" (.finite false 1000)) ∧
      deref (update output_parameters "solar" (double.finite false 1000)) "solar" =
        some (.finite false 1000)) ∧
    (gaussian_solar.calculations_double exp (.finite false (25 / 2)) (.finite false 200)
      (.finite false 14)).day_length = .finite false 11 ∧
    (gaussian_solar.calculations_double exp (.finite false (25 / 2)) (.finite false 200)
      (.finite false 14)).hour = .finite false 12 ∧
    (gaussian_solar.calculations_double exp (.finite false (25 / 2)) (.finite false 200)
      (.finite false 14)).solar = .finite false 1000 := by
  have hsq : double.mul
      (gaussian_solar.calculations_double exp (.finite false (25 / 2)) (.finite false 200)
        (.finite false 14)).sigma
      (gaussian_solar.calculations_double exp (.finite false (25 / 2)) (.finite false 200)
        (.finite false 14)).sigma = .finite false (121 / 16) := by
    simp only [gaussian_solar.calculations_double, lt_25_half_200, if_true]
    exact sigma_squared_eleven
  have hspec := gaussian_solar_double_at_noon_of_hour exp hexp (.finite false (25 / 2))
    (.finite false 200) (.finite false 14)
    (gaussian_solar_double_hour_at_noon false (25 / 2) (by norm_num) fract_25_half)
    (by rw [hsq]; simp)
    (by
      intro s
      rw [hsq]
      intro h
      injection h with _ h
      norm_num at h)
  refine ⟨?_, ?_, hspec.1, hspec.2⟩
  · intro self input_parameters output_parameters negative magnitude target_doy_dbl new_dl
      hself hdoy htarget hnew h0 hfract hnan hzero
    obtain ⟨hhour, hsolar⟩ := gaussian_solar_double_at_noon_of_hour exp hexp
      (.finite negative magnitude) target_doy_dbl new_dl
      (gaussian_solar_double_hour_at_noon negative magnitude h0 hfract) hnan hzero
    refine ⟨hhour, ?_, ?_⟩
    · rw [gaussian_solar_do_operation_double_eq exp self input_parameters output_parameters
        _ target_doy_dbl new_dl hself hdoy htarget hnew, hsolar]
    · exact lookup_update_self _ _ _
        (gaussian_solar_construct_ok input_parameters output_parameters self hself).2
  · simp only [gaussian_solar.calculations_double, lt_25_half_200, if_true]
    exact literal_11

/-- Witness of C9 as amended: the maps of the spec, with `doy_dbl = 12.5`,
`target_doy_dbl = 200` and `new_dl = 14`, and the function `sample_exp`. -/
theorem gaussian_solar_peak_at_noon_witness :
    (∀ s, sample_exp (.finite s 0) = .finite false 1) ∧
    gaussian_solar.do_operation_double sample_exp sample_gaussian_solar
        (sample_gaussian_solar_inputs (.finite false (25 / 2)) (.finite false 200)
          (.finite false 14))
        [("solar", .finite false 0)] =
      some (update [("solar", double.finite false 0)] "solar" (.finite false 1000)) := by
  have hsq : double.mul
      (gaussian_solar.calculations_double sample_exp (.finite false (25 / 2))
        (.finite false 200) (.finite false 14)).sigma
      (gaussian_solar.calculations_double sample_exp (.finite false (25 / 2))
        (.finite false 200) (.finite false 14)).sigma = .finite false (121 / 16) := by
    simp only [gaussian_solar.calculations_double, lt_25_half_200, if_true]
    exact sigma_squared_eleven
  exact ⟨sample_exp_zero,
    ((gaussian_solar_peak_at_noon sample_exp sample_exp_zero).1 sample_gaussian_solar
      (sample_gaussian_solar_inputs (.finite false (25 / 2)) (.finite false 200)
        (.finite false 14))
      [("solar", .finite false 0)] false (25 / 2) (.finite false 200) (.finite false 14)
      rfl rfl rfl rfl (by norm_num) fract_25_half (by rw [hsq]; simp)
      (by
        intro s
        rw [hsq]
        intro h
        injection h with _ h
        norm_num at h)).2.1⟩


theorem neg_round (negative : Bool) (q : ℚ) :
    double.neg (double.round negative q) = double.round (!negative) q := by
  simp only [double.round]
  split_ifs <;> rfl

theorem mul_neg_left (a b : double) :
    double.mul (double.neg a) b = double.neg (double.mul a b) := by
  cases a with
  | nan => cases b <;> rfl
  | infinite s =>
    cases b with
    | nan => rfl
    | infinite t => cases s <;> cases t <;> rfl
    | finite t n =>
      simp only [double.neg, double.mul]
      split_ifs
      · rfl
      · cases s <;> cases t <;> rfl
  | finite s m =>
    cases b with
    | nan => rfl
    | infinite t =>
      simp only [double.neg, double.mul]
      split_ifs
      · rfl
      · cases s <;> cases t <;> rfl
    | finite t n =>
      show double.round (xor (!s) t) (m * n) = double.neg (double.round (xor s t) (m * n))
      rw [neg_round]
      cases s <;> cases t <;> rfl

theorem lt_eq_false_of_ge (a b : double) (h : double.ge a b = true) : double.lt a b = false := by
  cases a with
  | nan => cases b <;> rfl
  | infinite s =>
    cases b with
    | nan => rfl
    | infinite t => cases s <;> cases t <;> simp_all [double.ge, double.le, double.lt]
    | finite t n => cases s <;> simp_all [double.ge, double.le, double.lt]
  | finite s m =>
    cases b with
    | nan => rfl
    | infinite t => cases t <;> simp_all [double.ge, double.le, double.lt]
    | finite t n =>
      simp only [double.ge, double.le, double.lt, decide_eq_true_eq, decide_eq_false_iff_not,
        not_lt] at h ⊢
      exact h

/-- When `hour` is 12, the day length is `new_dl` and the square of
`sigma` underflows to 0, `solar` is NaN whenever `exp` maps NaN to NaN. -/
theorem gaussian_solar_double_nan_of_underflow (exp : double → double)
    (hexp : exp .nan = .nan) (doy_dbl target_doy_dbl new_dl : double)
    (hhour : double.mul (double.literal 24) (double.sub doy_dbl (double.floor doy_dbl)) =
      .finite false 12)
    (hlt : double.lt doy_dbl target_doy_dbl = false)
    (hsq : double.mul (double.div new_dl (double.literal 4))
      (double.div new_dl (double.literal 4)) = .finite false 0) :
    (gaussian_solar.calculations_double exp doy_dbl target_doy_dbl new_dl).solar = .nan := by
  have hsub : double.sub (.finite false 12) (.finite false 12) = .finite false 0 := by
    simp [double.sub, double.neg, double.add, double.value]
  simp only [gaussian_solar.calculations_double, hhour, hlt, literal_12, literal_1000,
    Bool.false_eq_true, if_false, hsq, hsub]
  simp [double.neg, double.mul, double.div, round_zero, hexp]

theorem sigma_squared_underflows_at_two_pow :
    double.mul (double.div (.finite false (1 / 2 ^ 600)) (double.literal 4))
      (double.div (.finite false (1 / 2 ^ 600)) (double.literal 4)) = .finite false 0 := by
  have hdiv : double.div (.finite false (1 / 2 ^ 600)) (double.literal 4) =
      .finite false (1 / 2 ^ 602) := by
    rw [literal_4]
    simp only [double.div, Bool.xor_false]
    rw [if_neg (by norm_num)]
    have hq : (1 / 2 ^ 600 / 4 : ℚ) = 1 / 2 ^ 602 := by norm_num
    rw [hq]
    exact round_of_representable false _ (-602) (2 ^ 52) (by norm_num) (by norm_num)
      (by norm_num) (by norm_num) (by norm_num)
  rw [hdiv]
  simp only [double.mul, Bool.xor_false]
  exact round_of_small false _ (by positivity) (by norm_num)

/-- The value that `gaussian_solar` stores in `solar` when the day length is
`new_dl`, as an expression in the operations of `double`. -/
theorem gaussian_solar_double_solar_of_not_lt (exp : double → double)
    (doy_dbl target_doy_dbl new_dl : double)
    (hlt : double.lt doy_dbl target_doy_dbl = false) :
    (gaussian_solar.calculations_double exp doy_dbl target_doy_dbl new_dl).solar =
      double.mul (.finite false 1000)
        (exp (double.div
          (double.neg (double.mul
            (double.sub
              (double.mul (.finite false 24) (double.sub doy_dbl (double.floor doy_dbl)))
              (.finite false 12))
            (double.sub
              (double.mul (.finite false 24) (double.sub doy_dbl (double.floor doy_dbl)))
              (.finite false 12))))
          (double.mul (double.div new_dl (.finite false 4))
            (double.div new_dl (.finite false 4))))) := by
  simp only [gaussian_solar.calculations_double, hlt, Bool.false_eq_true, if_false,
    literal_24, literal_12, literal_1000, literal_4, mul_neg_left]

/-- Counterexample to C14 as stated: at `doy_dbl = target_doy_dbl = 200.5`
with `new_dl = 2^-600`, which is not zero, the value of
`1000 * exp(-(hour - 12)^2 / (new_dl / 4)^2)` over the real numbers is 1000,
but `(new_dl / 4) * (new_dl / 4)` underflows to 0 in double precision, the
argument of `exp` is `0 / 0`, and `do_operation` stores NaN in `solar`
whenever `exp` maps NaN to NaN. -/
theorem gaussian_solar_target_day_stores_nan :
    double.ge (.finite false (401 / 2)) (.finite false (401 / 2)) = true ∧
    (1 / 2 ^ 600 : ℚ) ≠ 0 ∧
    (1000 * Real.exp (-(24 * ((401 / 2 : ℝ) - ⌊(401 / 2 : ℝ)⌋) - 12) ^ 2 /
      ((1 / 2 ^ 600 : ℝ) / 4) ^ 2) = 1000) ∧
    (∀ exp : double → double, exp .nan = .nan →
      gaussian_solar.do_operation_double exp sample_gaussian_solar
        (sample_gaussian_solar_inputs (.finite false (401 / 2)) (.finite false (401 / 2))
          (.finite false (1 / 2 ^ 600)))
        [("solar", .finite false 0)] = some [("solar", .nan)]) ∧
    double.nan ≠ .finite false 1000 := by
  have hge : double.ge (.finite false (401 / 2)) (.finite false (401 / 2)) = true := by
    simp [double.ge, double.le]
  refine ⟨hge, by norm_num, ?_, ?_, by simp⟩
  · have hfl : ⌊(401 / 2 : ℝ)⌋ = 200 := by
      rw [Int.floor_eq_iff]; norm_num
    rw [hfl]
    norm_num
  · intro exp hexp
    rw [sample_gaussian_solar_do_operation,
      gaussian_solar_double_nan_of_underflow exp hexp _ _ _
        (gaussian_solar_double_hour_at_noon false (401 / 2) (by norm_num) fract_401_half)
        (lt_eq_false_of_ge _ _ hge) sigma_squared_underflows_at_two_pow]

/-- C14, as amended: `gaussian_solar` switches the day length at the target
day inclusively.  For every `doy_dbl` greater than or equal to
`target_doy_dbl`, the two being equal included, and every `new_dl`, the day
length is `new_dl` and `do_operation` stores the value of
`1000 * exp(-((hour - 12) * (hour - 12)) / ((new_dl / 4) * (new_dl / 4)))`
computed in double precision, every operation rounded; the fixed day length
11 is selected exactly by the branch `doy_dbl < target_doy_dbl`, which is
not taken when `doy_dbl >= target_doy_dbl`. -/
theorem gaussian_solar_switches_at_target (exp : double → double) :
    (∀ (self : gaussian_solar) (input_parameters output_parameters : state_map double)
        (doy_dbl target_doy_dbl new_dl : double),
      gaussian_solar.construct input_parameters output_parameters = .ok self →
      deref input_parameters "doy_dbl" = some doy_dbl →
      deref input_parameters "target_doy_dbl" = some target_doy_dbl →
      deref input_parameters "new_dl" = some new_dl →
      double.ge doy_dbl target_doy_dbl = true →
      (gaussian_solar.calculations_double exp doy_dbl target_doy_dbl new_dl).day_length =
        new_dl ∧
      (gaussian_solar.calculations_double exp doy_dbl target_doy_dbl new_dl).hour =
        double.mul (.finite false 24) (double.sub doy_dbl (double.floor doy_dbl)) ∧
      gaussian_solar.do_operation_double exp self input_parameters output_parameters =
        some (update output_parameters "solar"
          (double.mul (.finite false 1000)
            (exp (double.div
              (double.neg (double.mul
                (double.sub
                  (double.mul (.finite false 24) (double.sub doy_dbl (double.floor doy_dbl)))
                  (.finite false 12))
                (double.sub
                  (double.mul (.finite false 24) (double.sub doy_dbl (double.floor doy_dbl)))
                  (.finite false 12))))
              (double.mul (double.div new_dl (.finite false 4))
                (double.div new_dl (.finite false 4))))))) ∧
      deref (update output_parameters "solar"
          (double.mul (.finite false 1000)
            (exp (double.div
              (double.neg (double.mul
                (double.sub
                  (double.mul (.finite false 24) (double.sub doy_dbl (double.floor doy_dbl)))
                  (.finite false 12))
                (double.sub
                  (double.mul (.finite false 24) (double.sub doy_dbl (double.floor doy_dbl)))
                  (.finite false 12))))
              (double.mul (double.div new_dl (.finite false 4))
                (double.div new_dl (.finite false 4))))))) "solar" =
        some (double.mul (.finite false 1000)
            (exp (double.div
              (double.neg (double.mul
                (double.sub
                  (double.mul (.finite false 24) (double.sub doy_dbl (double.floor doy_dbl)))
                  (.finite false 12))
                (double.sub
                  (double.mul (.finite false 24) (double.sub doy_dbl (double.floor doy_dbl)))
                  (.finite false 12))))
              (double.mul (double.div new_dl (.finite false 4))
                (double.div new_dl (.finite false 4))))))) ∧
    (∀ doy_dbl target_doy_dbl new_dl : double, double.lt doy_dbl target_doy_dbl = true →
      (gaussian_solar.calculations_double exp doy_dbl target_doy_dbl new_dl).day_length =
        .finite false 11) ∧
    (∀ doy_dbl target_doy_dbl new_dl : double, double.lt doy_dbl target_doy_dbl = false →
      (gaussian_solar.calculations_double exp doy_dbl target_doy_dbl new_dl).day_length =
        new_dl) ∧
    (∀ doy_dbl target_doy_dbl : double, double.ge doy_dbl target_doy_dbl = true →
      double.lt doy_dbl target_doy_dbl = false) ∧
    (gaussian_solar.calculations_double exp (.finite false 200) (.finite false 200)
      (.finite false 14)).day_length = .finite false 14 := by
  have hnot : ∀ doy_dbl target_doy_dbl new_dl : double,
      double.lt doy_dbl target_doy_dbl = false →
      (gaussian_solar.calculations_double exp doy_dbl target_doy_dbl new_dl).day_length =
        new_dl := by
    intro doy_dbl target_doy_dbl new_dl hlt
    simp only [gaussian_solar.calculations_double, hlt, Bool.false_eq_true, if_false]
  refine ⟨?_, ?_, hnot, lt_eq_false_of_ge, hnot _ _ _ (by simp [double.lt])⟩
  · intro self input_parameters output_parameters doy_dbl target_doy_dbl new_dl hself hdoy
      htarget hnew hge
    have hlt := lt_eq_false_of_ge _ _ hge
    refine ⟨hnot _ _ _ hlt, ?_, ?_, ?_⟩
    · simp only [gaussian_solar.calculations_double, literal_24]
    · rw [gaussian_solar_do_operation_double_eq exp self input_parameters output_parameters
        doy_dbl target_doy_dbl new_dl hself hdoy htarget hnew,
        gaussian_solar_double_solar_of_not_lt exp doy_dbl target_doy_dbl new_dl hlt]
    · exact lookup_update_self _ _ _
        (gaussian_solar_construct_ok input_parameters output_parameters self hself).2
  · intro doy_dbl target_doy_dbl new_dl hlt
    simp only [gaussian_solar.calculations_double, hlt, if_true, literal_11]

/-- Witness of C14 as amended: the day of the year equal to the target
day, with the function `sample_exp`. -/
theorem gaussian_solar_switches_at_target_witness :
    double.ge (.finite false 200) (.finite false 200) = true ∧
    gaussian_solar.do_operation_double sample_exp sample_gaussian_solar
        (sample_gaussian_solar_inputs (.finite false 200) (.finite false 200)
          (.finite false 14))
        [("solar", .finite false 0)] =
      some (update [("solar", double.finite false 0)] "solar"
        (double.mul (.finite false 1000)
          (sample_exp (double.div
            (double.neg (double.mul
              (double.sub
                (double.mul (.finite false 24)
                  (double.sub (.finite false 200) (double.floor (.finite false 200))))
                (.finite false 12))
              (double.sub
                (double.mul (.finite false 24)
                  (double.sub (.finite false 200) (double.floor (.finite false 200))))
                (.finite false 12))))
            (double.mul (double.div (.finite false 14) (.finite false 4))
              (double.div (.finite false 14) (.finite false 4))))))) :=
  ⟨by simp [double.ge, double.le],
    ((gaussian_solar_switches_at_target sample_exp).1 sample_gaussian_solar
      (sample_gaussian_solar_inputs (.finite false 200) (.finite false 200)
        (.finite false 14))
      [("solar", .finite false 0)] (.finite false 200) (.finite false 200) (.finite false 14)
      rfl rfl rfl rfl (by simp [double.ge, double.le])).2.2.1⟩

theorem sample_exp_infinite :
    ∃ r, sample_exp (.infinite true) = .finite false r ∧ 0 ≤ r ∧ r ≤ 1 :=
  ⟨0, rfl, le_refl 0, by norm_num⟩

theorem sample_exp_negative (m : ℚ) (hm : 0 ≤ m) :
    ∃ r, sample_exp (.finite true m) = .finite false r ∧ 0 ≤ r ∧ r ≤ 1 := by
  by_cases h0 : m = 0
  · exact ⟨1, by simp [sample_exp, h0], by norm_num, le_refl 1⟩
  · simp only [sample_exp, if_neg h0, if_true]
    have hden : (1 : ℚ) ≤ 1 + m + m * m / 2 := by
      have := mul_self_nonneg m
      linarith
    refine round_le_of_le_representable false _ 1 0 (2 ^ 52) (by positivity) ?_ (by norm_num)
      (by norm_num) (by norm_num) (by norm_num)
    rw [div_le_iff₀ (by linarith)]
    linarith

/-- Counterexample to C17 as stated.  At `doy_dbl = 12`,
`target_doy_dbl = 0` and `new_dl` the `double` nearest to `0.1`, the
selected day length is `new_dl`, which is not zero, the argument of `exp`
is a finite number below -746, and `do_operation` stores 0 in `solar`
whenever `exp` underflows to 0 there: `solar` is not positive.  At
`doy_dbl = 12.5 + 2^-40`, `target_doy_dbl = 200`, `new_dl = 14`, `hour`
is `12 + 3 * 2^-37`, not 12, and `do_operation` stores 1000 in `solar`
whenever `exp` rounds to 1 on the arguments of magnitude at most
`2^-60`. -/
theorem gaussian_solar_stores_zero_and_peak_off_noon :
    (∀ exp : double → double,
      (gaussian_solar.calculations_double exp (.finite false 12) (.finite false 0)
        (.finite false (3602879701896397 / 2 ^ 55))).day_length =
        .finite false (3602879701896397 / 2 ^ 55)) ∧
    (3602879701896397 / 2 ^ 55 : ℚ) ≠ 0 ∧
    (∀ exp : double → double,
      (∀ m, 746 ≤ m → exp (.finite true m) = .finite false 0) →
      gaussian_solar.do_operation_double exp sample_gaussian_solar
        (sample_gaussian_solar_inputs (.finite false 12) (.finite false 0)
          (.finite false (3602879701896397 / 2 ^ 55)))
        [("solar", .finite false 7)] = some [("solar", .finite false 0)]) ∧
    (∀ exp : double → double,
      (∀ s m, 0 ≤ m → m ≤ 1 / 2 ^ 60 → exp (.finite s m) = .finite false 1) →
      (gaussian_solar.calculations_double exp (.finite false (25 / 2 + 1 / 2 ^ 40))
        (.finite false 200) (.finite false 14)).hour = .finite false (12 + 3 / 2 ^ 37) ∧
      gaussian_solar.do_operation_double exp sample_gaussian_solar
        (sample_gaussian_solar_inputs (.finite false (25 / 2 + 1 / 2 ^ 40))
          (.finite false 200) (.finite false 14))
        [("solar", .finite false 7)] = some [("solar", .finite false 1000)]) ∧
    (12 + 3 / 2 ^ 37 : ℚ) ≠ 12 := by
  refine ⟨?_, by norm_num, ?_, ?_, by norm_num⟩
  · intro exp
    have hlt : double.lt (.finite false 12) (.finite false 0) = false := by
      simp only [double.lt, double.value]
      norm_num
    simp only [gaussian_solar.calculations_double, hlt, Bool.false_eq_true, if_false]
  · intro exp hunder
    rw [sample_gaussian_solar_do_operation, gaussian_solar_double_underflow exp hunder]
  · intro exp hone
    obtain ⟨hhour, hsolar⟩ := gaussian_solar_double_near_noon exp hone
    exact ⟨hhour, by rw [sample_gaussian_solar_do_operation, hsolar]⟩

/-- C17, as amended: in double precision, with an `exp` that maps the zeros
to 1 and every other argument with the sign bit set, minus infinity
included, to a number from 0 to 1: for every finite `doy_dbl`, and every
`target_doy_dbl` and `new_dl` for which the computed `sigma * sigma` is
neither NaN nor a zero, the value that `gaussian_solar` stores in `solar`
is a number from 0 to 1000, both included, and it is 1000 when `hour`
is 12. -/
theorem gaussian_solar_range_of_solar (exp : double → double)
    (hexp_zero : ∀ s, exp (.finite s 0) = .finite false 1)
    (hexp_infinite : ∃ r, exp (.infinite true) = .finite false r ∧ 0 ≤ r ∧ r ≤ 1)
    (hexp_negative : ∀ m, 0 ≤ m → ∃ r, exp (.finite true m) = .finite false r ∧ 0 ≤ r ∧ r ≤ 1)
    (self : gaussian_solar) (input_parameters output_parameters : state_map double)
    (negative : Bool) (magnitude : ℚ) (target_doy_dbl new_dl : double)
    (hself : gaussian_solar.construct input_parameters output_parameters = .ok self)
    (hdoy : deref input_parameters "doy_dbl" = some (.finite negative magnitude))
    (htarget : deref input_parameters "target_doy_dbl" = some target_doy_dbl)
    (hnew : deref input_parameters "new_dl" = some new_dl)
    (h0 : 0 ≤ magnitude)
    (hnan : double.mul
        (gaussian_solar.calculations_double exp (.finite negative magnitude)
          target_doy_dbl new_dl).sigma
        (gaussian_solar.calculations_double exp (.finite negative magnitude)
          target_doy_dbl new_dl).sigma ≠ .nan)
    (hzero : ∀ s, double.mul
        (gaussian_solar.calculations_double exp (.finite negative magnitude)
          target_doy_dbl new_dl).sigma
        (gaussian_solar.calculations_double exp (.finite negative magnitude)
          target_doy_dbl new_dl).sigma ≠ .finite s 0) :
    ∃ solar : ℚ,
      gaussian_solar.do_operation_double exp self input_parameters output_parameters =
        some (update output_parameters "solar" (.finite false solar)) ∧
      deref (update output_parameters "solar" (double.finite false solar)) "solar" =
        some (.finite false solar) ∧
      0 ≤ solar ∧ solar ≤ 1000 ∧
      ((gaussian_solar.calculations_double exp (.finite negative magnitude)
        target_doy_dbl new_dl).hour = .finite false 12 → solar = 1000) := by
  obtain ⟨solar, hsolar, hs0, hs1, hpeak⟩ := gaussian_solar_double_range exp hexp_zero
    hexp_infinite hexp_negative negative magnitude h0 target_doy_dbl new_dl hnan hzero
  refine ⟨solar, ?_, ?_, hs0, hs1, hpeak⟩
  · rw [gaussian_solar_do_operation_double_eq exp self input_parameters output_parameters
      _ target_doy_dbl new_dl hself hdoy htarget hnew, hsolar]
  · exact lookup_update_self _ _ _
      (gaussian_solar_construct_ok input_parameters output_parameters self hself).2

/-- Witness of C17 as amended: the maps of the spec, with `doy_dbl = 12.5`,
`target_doy_dbl = 200` and `new_dl = 14`, and the function `sample_exp`. -/
theorem gaussian_solar_range_of_solar_witness :
    ∃ solar : ℚ,
      gaussian_solar.do_operation_double sample_exp sample_gaussian_solar
        (sample_gaussian_solar_inputs (.finite false (25 / 2)) (.finite false 200)
          (.finite false 14))
        [("solar", .finite false 0)] =
        some (update [("solar", double.finite false 0)] "solar" (.finite false solar)) ∧
      deref (update [("solar", double.finite false 0)] "solar" (double.finite false solar))
        "solar" = some (.finite false solar) ∧
      0 ≤ solar ∧ solar ≤ 1000 ∧
      ((gaussian_solar.calculations_double sample_exp (.finite false (25 / 2))
        (.finite false 200) (.finite false 14)).hour = .finite false 12 → solar = 1000) := by
  have hsq : double.mul
      (gaussian_solar.calculations_double sample_exp (.finite false (25 / 2))
        (.finite false 200) (.finite false 14)).sigma
      (gaussian_solar.calculations_double sample_exp (.finite false (25 / 2))
        (.finite false 200) (.finite false 14)).sigma = .finite false (121 / 16) := by
    simp only [gaussian_solar.calculations_double, lt_25_half_200, if_true]
    exact sigma_squared_eleven
  exact gaussian_solar_range_of_solar sample_exp sample_exp_zero sample_exp_infinite
    sample_exp_negative sample_gaussian_solar
    (sample_gaussian_solar_inputs (.finite false (25 / 2)) (.finite false 200)
      (.finite false 14))
    [("solar", .finite false 0)] false (25 / 2) (.finite false 200) (.finite false 14)
    rfl rfl rfl rfl (by norm_num) (by rw [hsq]; simp)
    (by
      intro s
      rw [hsq]
      intro h
      injection h with _ h
      norm_num at h)


theorem oscillator_clock_calculator_sk_do_operation_double_eq (sin sqrt : double → double)
    (pi : double) (range_adjusted_atan2 : double → double → double)
    (self : oscillator_clock_calculator_sk)
    (input_parameters output_parameters : state_map double)
    (doy_dbl kick_strength kick_start kick_end dawn_b dawn_a dusk_b dusk_a ref_b ref_a : double)
    (hself : oscillator_clock_calculator_sk.construct input_parameters output_parameters =
      .ok self)
    (hdoy_dbl : deref input_parameters "doy_dbl" = some doy_dbl)
    (hkick_strength : deref input_parameters "kick_strength" = some kick_strength)
    (hkick_start : deref input_parameters "kick_start" = some kick_start)
    (hkick_end : deref input_parameters "kick_end" = some kick_end)
    (hdawn_b : deref input_parameters "dawn_b" = some dawn_b)
    (hdawn_a : deref input_parameters "dawn_a" = some dawn_a)
    (hdusk_b : deref input_parameters "dusk_b" = some dusk_b)
    (hdusk_a : deref input_parameters "dusk_a" = some dusk_a)
    (href_b : deref input_parameters "ref_b" = some ref_b)
    (href_a : deref input_parameters "ref_a" = some ref_a) :
    oscillator_clock_calculator_sk.do_operation_double sin sqrt pi range_adjusted_atan2 self
        input_parameters output_parameters =
      some (apply_updates output_parameters (oscillator_clock_calculator_sk.updates self
        (oscillator_clock_calculator_sk.calculations_double sin sqrt pi range_adjusted_atan2
          doy_dbl kick_strength kick_start kick_end dawn_b dawn_a dusk_b dusk_a ref_b ref_a))) := by
  rw [(oscillator_clock_calculator_sk_construct_ok input_parameters output_parameters self
    hself).1]
  simp only [oscillator_clock_calculator_sk.do_operation_double, hdoy_dbl, hkick_strength,
    hkick_start, hkick_end, hdawn_b, hdawn_a, hdusk_b, hdusk_a, href_b, href_a,
    Option.bind_eq_bind, Option.some_bind, Option.pure_def, bind, pure]

/-- The values that `do_operation` stores in double precision for the two
phases, the two lengths, `sunrise` and `sunset`. -/
theorem oscillator_clock_calculator_sk_double_stored (sin sqrt : double → double)
    (pi : double) (range_adjusted_atan2 : double → double → double)
    (self : oscillator_clock_calculator_sk)
    (input_parameters output_parameters : state_map double)
    (doy_dbl kick_strength kick_start kick_end dawn_b dawn_a dusk_b dusk_a ref_b ref_a : double)
    (hself : oscillator_clock_calculator_sk.construct input_parameters output_parameters =
      .ok self)
    (hdoy_dbl : deref input_parameters "doy_dbl" = some doy_dbl)
    (hkick_strength : deref input_parameters "kick_strength" = some kick_strength)
    (hkick_start : deref input_parameters "kick_start" = some kick_start)
    (hkick_end : deref input_parameters "kick_end" = some kick_end)
    (hdawn_b : deref input_parameters "dawn_b" = some dawn_b)
    (hdawn_a : deref input_parameters "dawn_a" = some dawn_a)
    (hdusk_b : deref input_parameters "dusk_b" = some dusk_b)
    (hdusk_a : deref input_parameters "dusk_a" = some dusk_a)
    (href_b : deref input_parameters "ref_b" = some ref_b)
    (href_a : deref input_parameters "ref_a" = some ref_a) :
    ∃ result : state_map double,
      oscillator_clock_calculator_sk.do_operation_double sin sqrt pi range_adjusted_atan2 self
        input_parameters output_parameters = some result ∧
      deref result "dawn_phase" = some (range_adjusted_atan2 dawn_b dawn_a) ∧
      deref result "dusk_phase" = some (range_adjusted_atan2 dusk_b dusk_a) ∧
      deref result "day_length" = some
        (oscillator_clock_calculator_sk.calculations_double sin sqrt pi range_adjusted_atan2
          doy_dbl kick_strength kick_start kick_end dawn_b dawn_a dusk_b dusk_a ref_b
          ref_a).day_length ∧
      deref result "night_length" = some
        (oscillator_clock_calculator_sk.calculations_double sin sqrt pi range_adjusted_atan2
          doy_dbl kick_strength kick_start kick_end dawn_b dawn_a dusk_b dusk_a ref_b
          ref_a).night_length ∧
      deref result "sunrise" = some
        (oscillator_clock_calculator_sk.calculations_double sin sqrt pi range_adjusted_atan2
          doy_dbl kick_strength kick_start kick_end dawn_b dawn_a dusk_b dusk_a ref_b
          ref_a).sunrise ∧
      deref result "sunset" = some
        (oscillator_clock_calculator_sk.calculations_double sin sqrt pi range_adjusted_atan2
          doy_dbl kick_strength kick_start kick_end dawn_b dawn_a dusk_b dusk_a ref_b
          ref_a).sunset := by
  have hop := oscillator_clock_calculator_sk_do_operation_double_eq sin sqrt pi
    range_adjusted_atan2 self input_parameters output_parameters doy_dbl kick_strength
    kick_start kick_end dawn_b dawn_a dusk_b dusk_a ref_b ref_a hself hdoy_dbl hkick_strength
    hkick_start hkick_end hdawn_b hdawn_a hdusk_b hdusk_a href_b href_a
  have hnames := (oscillator_clock_calculator_sk_construct_ok input_parameters
    output_parameters self hself).1
  refine ⟨_, hop, ?_, ?_, ?_, ?_, ?_, ?_⟩ <;>
  · apply oscillator_clock_calculator_sk_stored input_parameters output_parameters self hself
    rw [hnames]
    simp [oscillator_clock_calculator_sk.updates,
      oscillator_clock_calculator_sk.calculations_double]

theorem sample_oscillator_double_construct (doy_dbl dawn_b dawn_a dusk_b dusk_a : double) :
    oscillator_clock_calculator_sk.construct
      (sample_oscillator_inputs_double doy_dbl dawn_b dawn_a dusk_b dusk_a)
      sample_oscillator_outputs_double = .ok sample_oscillator := rfl


theorem sample_range_adjusted_atan2_double_one_zero :
    sample_range_adjusted_atan2_double (.finite false 1) (.finite false 0) =
      .finite false (884279719003555 / 2 ^ 49) := by
  have hgt : double.gt (.finite false 1) (.finite false 0) = true := by
    simp only [double.gt, double.lt, double.value]
    norm_num
  simp [sample_range_adjusted_atan2_double, hgt]

theorem sample_range_adjusted_atan2_double_zero_one :
    sample_range_adjusted_atan2_double (.finite false 0) (.finite false 1) =
      .finite false 0 := by
  have hgt : double.gt (.finite false 0) (.finite false 0) = false := by
    simp [double.gt, double.lt]
  simp [sample_range_adjusted_atan2_double, hgt]

/-- Counterexample to C18 as stated.  Just before midnight, at
`doy_dbl = -2^-60`, the difference `doy_dbl - floor(doy_dbl)` rounds to 1
and `hour` is 24, outside the interval from 0, included, to 24, excluded.
A quarter of a day after midnight, with the dawn oscillator at
`(a, b) = (0, 1)`, whose angle is the quarter turn `pi / 2`, `hour` is 6 and
`do_operation` stores 24 in `sunrise`, although neither `hour` nor the
phase is 0.  At midnight, with the dawn phase equal to the `double`
`2 * pi`, which is less than the number `2 * pi`, `do_operation` stores 0
in `sunrise`. -/
theorem hour_reaches_24_and_sunrise_leaves_range :
    (∀ (sin sqrt : double → double) (pi : double)
        (range_adjusted_atan2 : double → double → double)
        (kick_strength kick_start kick_end dawn_b dawn_a dusk_b dusk_a ref_b ref_a : double),
      (oscillator_clock_calculator_sk.calculations_double sin sqrt pi range_adjusted_atan2
        (.finite true (1 / 2 ^ 60)) kick_strength kick_start kick_end dawn_b dawn_a dusk_b
        dusk_a ref_b ref_a).hour = .finite false 24) ∧
    (∀ (sin sqrt : double → double) (range_adjusted_atan2 : double → double → double),
      range_adjusted_atan2 (.finite false 1) (.finite false 0) =
        .finite false (884279719003555 / 2 ^ 49) →
      (oscillator_clock_calculator_sk.calculations_double sin sqrt double_pi
        range_adjusted_atan2 (.finite false (1 / 4)) (.finite false 2) (.finite false 0)
        (.finite false 1) (.finite false 1) (.finite false 0) (.finite false 0)
        (.finite false 1) (.finite false 1) (.finite false 0)).hour = .finite false 6 ∧
      ∃ result : state_map double,
        oscillator_clock_calculator_sk.do_operation_double sin sqrt double_pi
          range_adjusted_atan2 sample_oscillator
          (sample_oscillator_inputs_double (.finite false (1 / 4)) (.finite false 1)
            (.finite false 0) (.finite false 0) (.finite false 1))
          sample_oscillator_outputs_double = some result ∧
        deref result "dawn_phase" = some (.finite false (884279719003555 / 2 ^ 49)) ∧
        deref result "sunrise" = some (.finite false 24)) ∧
    ((0 : ℚ) < 884279719003555 / 2 ^ 49 ∧
      ((884279719003555 / 2 ^ 49 : ℚ) : ℝ) < 2 * Real.pi ∧ (6 : ℚ) ≠ 0) ∧
    (∀ (sin sqrt : double → double) (range_adjusted_atan2 : double → double → double),
      range_adjusted_atan2 (.finite true (1 / 2 ^ 70)) (.finite false 1) =
        .finite false (884279719003555 / 2 ^ 47) →
      ∃ result : state_map double,
        oscillator_clock_calculator_sk.do_operation_double sin sqrt double_pi
          range_adjusted_atan2 sample_oscillator
          (sample_oscillator_inputs_double (.finite false 0) (.finite true (1 / 2 ^ 70))
            (.finite false 1) (.finite false 0) (.finite false 1))
          sample_oscillator_outputs_double = some result ∧
        deref result "dawn_phase" = some (.finite false (884279719003555 / 2 ^ 47)) ∧
        deref result "sunrise" = some (.finite false 0)) ∧
    ((0 : ℚ) ≤ 884279719003555 / 2 ^ 47 ∧
      ((884279719003555 / 2 ^ 47 : ℚ) : ℝ) < 2 * Real.pi) := by
  refine ⟨?_, ?_, ⟨by norm_num, ?_, by norm_num⟩, ?_, ⟨by norm_num, two_double_pi_lt_two_pi⟩⟩
  · intro sin sqrt pi range_adjusted_atan2 kick_strength kick_start kick_end dawn_b dawn_a
      dusk_b dusk_a ref_b ref_a
    simp only [oscillator_clock_calculator_sk.calculations_double]
    exact hour_double_before_midnight
  · intro sin sqrt range_adjusted_atan2 hdawn
    obtain ⟨result, hop, hdawn_phase, -, -, -, hsunrise, -⟩ :=
      oscillator_clock_calculator_sk_double_stored sin sqrt double_pi range_adjusted_atan2
        sample_oscillator
        (sample_oscillator_inputs_double (.finite false (1 / 4)) (.finite false 1)
          (.finite false 0) (.finite false 0) (.finite false 1))
        sample_oscillator_outputs_double _ _ _ _ _ _ _ _ _ _
        (sample_oscillator_double_construct _ _ _ _ _) rfl rfl rfl rfl rfl rfl rfl rfl rfl rfl
    obtain ⟨hhour, hs⟩ := oscillator_double_sunrise_quarter sin sqrt range_adjusted_atan2
      (.finite false 2) (.finite false 0) (.finite false 1) (.finite false 1)
      (.finite false 0) (.finite false 0) (.finite false 1) (.finite false 1)
      (.finite false 0) hdawn
    rw [hs] at hsunrise
    rw [hdawn] at hdawn_phase
    exact ⟨hhour, result, hop, hdawn_phase, hsunrise⟩
  · have h := two_double_pi_lt_two_pi
    have hle : (((884279719003555 / 2 ^ 49 : ℚ)) : ℝ) ≤ ((884279719003555 / 2 ^ 47 : ℚ) : ℝ) := by
      push_cast
      norm_num
    linarith
  · intro sin sqrt range_adjusted_atan2 hdawn
    obtain ⟨result, hop, hdawn_phase, -, -, -, hsunrise, -⟩ :=
      oscillator_clock_calculator_sk_double_stored sin sqrt double_pi range_adjusted_atan2
        sample_oscillator
        (sample_oscillator_inputs_double (.finite false 0) (.finite true (1 / 2 ^ 70))
          (.finite false 1) (.finite false 0) (.finite false 1))
        sample_oscillator_outputs_double _ _ _ _ _ _ _ _ _ _
        (sample_oscillator_double_construct _ _ _ _ _) rfl rfl rfl rfl rfl rfl rfl rfl rfl rfl
    obtain ⟨-, hs⟩ := oscillator_double_sunrise_full_turn sin sqrt range_adjusted_atan2
      (.finite false 2) (.finite false 0) (.finite false 1) (.finite true (1 / 2 ^ 70))
      (.finite false 1) (.finite false 0) (.finite false 1) (.finite false 1)
      (.finite false 0) hdawn
    rw [hs] at hsunrise
    rw [hdawn] at hdawn_phase
    exact ⟨result, hop, hdawn_phase, hsunrise⟩

/-- C18, as amended: in `oscillator_clock_calculator_sk`, in double
precision with `pi` the `double` nearest to the number pi: for every finite
`doy_dbl` the derived `hour` lies in the interval from 0 to 24, both
included, and for `dawn_phase` and `dusk_phase` in the interval from 0 to
the `double` `2 * pi`, both included, the stored `sunrise` and `sunset` lie
in the interval from 0 to 24, both included; `sunrise` is 24 when the
computed `dawn_phase * 12 / pi` equals `hour`, and `sunset` is 24 when the
computed `dusk_phase * 12 / pi` equals `hour`. -/
theorem oscillator_sunrise_and_sunset (sin sqrt : double → double)
    (range_adjusted_atan2 : double → double → double)
    (self : oscillator_clock_calculator_sk)
    (input_parameters output_parameters : state_map double)
    (negative : Bool) (magnitude : ℚ)
    (kick_strength kick_start kick_end dawn_b dawn_a dusk_b dusk_a ref_b ref_a : double)
    (hself : oscillator_clock_calculator_sk.construct input_parameters output_parameters =
      .ok self)
    (hdoy_dbl : deref input_parameters "doy_dbl" = some (.finite negative magnitude))
    (hkick_strength : deref input_parameters "kick_strength" = some kick_strength)
    (hkick_start : deref input_parameters "kick_start" = some kick_start)
    (hkick_end : deref input_parameters "kick_end" = some kick_end)
    (hdawn_b : deref input_parameters "dawn_b" = some dawn_b)
    (hdawn_a : deref input_parameters "dawn_a" = some dawn_a)
    (hdusk_b : deref input_parameters "dusk_b" = some dusk_b)
    (hdusk_a : deref input_parameters "dusk_a" = some dusk_a)
    (href_b : deref input_parameters "ref_b" = some ref_b)
    (href_a : deref input_parameters "ref_a" = some ref_a)
    (h0 : 0 ≤ magnitude) :
    ∃ (result : state_map double) (hour : ℚ) (sunrise sunset : double),
      oscillator_clock_calculator_sk.do_operation_double sin sqrt double_pi
        range_adjusted_atan2 self input_parameters output_parameters = some result ∧
      (oscillator_clock_calculator_sk.calculations_double sin sqrt double_pi
        range_adjusted_atan2 (.finite negative magnitude) kick_strength kick_start kick_end
        dawn_b dawn_a dusk_b dusk_a ref_b ref_a).hour = .finite false hour ∧
      (0 ≤ hour ∧ hour ≤ 24) ∧
      deref result "sunrise" = some sunrise ∧
      deref result "sunset" = some sunset ∧
      (∀ dawn_phase : ℚ, range_adjusted_atan2 dawn_b dawn_a = .finite false dawn_phase →
        0 ≤ dawn_phase → dawn_phase ≤ 884279719003555 / 2 ^ 47 →
        ∃ r : ℚ, sunrise = .finite false r ∧ 0 ≤ r ∧ r ≤ 24 ∧
          (double.div (double.mul (.finite false dawn_phase) (double.literal 12)) double_pi =
            .finite false hour → r = 24)) ∧
      (∀ dusk_phase : ℚ, range_adjusted_atan2 dusk_b dusk_a = .finite false dusk_phase →
        0 ≤ dusk_phase → dusk_phase ≤ 884279719003555 / 2 ^ 47 →
        ∃ r : ℚ, sunset = .finite false r ∧ 0 ≤ r ∧ r ≤ 24 ∧
          (double.div (double.mul (.finite false dusk_phase) (double.literal 12)) double_pi =
            .finite false hour → r = 24)) := by
  obtain ⟨result, hop, -, -, -, -, hsunrise, hsunset⟩ :=
    oscillator_clock_calculator_sk_double_stored sin sqrt double_pi range_adjusted_atan2
      self input_parameters output_parameters _ kick_strength kick_start kick_end
      dawn_b dawn_a dusk_b dusk_a ref_b ref_a hself hdoy_dbl hkick_strength hkick_start
      hkick_end hdawn_b hdawn_a hdusk_b hdusk_a href_b href_a
  obtain ⟨hour, hhour, hh0, hh1⟩ := hour_double_range negative magnitude h0
  have hrange : ∀ phase : ℚ, 0 ≤ phase → phase ≤ 884279719003555 / 2 ^ 47 →
      ∃ r : ℚ,
        (if double.lt (double.div (double.mul (.finite false phase) (double.literal 12))
            double_pi) (.finite false hour)
          then double.sub (.finite false hour)
            (double.div (double.mul (.finite false phase) (double.literal 12)) double_pi)
          else double.add
            (double.sub (.finite false hour)
              (double.div (double.mul (.finite false phase) (double.literal 12)) double_pi))
            (double.literal 24)) = .finite false r ∧ 0 ≤ r ∧ r ≤ 24 ∧
        (double.div (double.mul (.finite false phase) (double.literal 12)) double_pi =
          .finite false hour → r = 24) := by
    intro phase hp0 hp1
    obtain ⟨t, ht, ht0, ht1⟩ := phase_time_range phase hp0 hp1
    rw [ht]
    obtain ⟨r, hr, hr0, hr1, hr24⟩ := sunrise_double_range hour t hh0 hh1 ht0 ht1
    refine ⟨r, hr, hr0, hr1, ?_⟩
    intro heq
    injection heq with _ heq
    exact hr24 heq
  refine ⟨result, hour, _, _, hop, ?_, ⟨hh0, hh1⟩, hsunrise, hsunset, ?_, ?_⟩
  · simp only [oscillator_clock_calculator_sk.calculations_double]
    exact hhour
  · intro dawn_phase hdawn hp0 hp1
    simp only [oscillator_clock_calculator_sk.calculations_double, hdawn, hhour]
    exact hrange dawn_phase hp0 hp1
  · intro dusk_phase hdusk hp0 hp1
    simp only [oscillator_clock_calculator_sk.calculations_double, hdusk, hhour]
    exact hrange dusk_phase hp0 hp1

/-- Witness of C18 as amended: a quarter of a day after midnight, the dawn
oscillator at `(a, b) = (0, 1)` and the dusk oscillator at `(a, b) = (1, 0)`,
with the function `sample_range_adjusted_atan2_double`, for which the dawn
phase is a quarter turn and the dusk phase is 0.  The functions `sin` and
`sqrt`, on which `sunrise` and `sunset` do not depend, are the identity. -/
theorem oscillator_sunrise_and_sunset_witness :
    ∃ (result : state_map double) (hour sunrise sunset : ℚ),
      oscillator_clock_calculator_sk.do_operation_double (fun x => x) (fun x => x) double_pi
        sample_range_adjusted_atan2_double sample_oscillator
        (sample_oscillator_inputs_double (.finite false (1 / 4)) (.finite false 1)
          (.finite false 0) (.finite false 0) (.finite false 1))
        sample_oscillator_outputs_double = some result ∧
      (0 ≤ hour ∧ hour ≤ 24) ∧
      deref result "sunrise" = some (.finite false sunrise) ∧
      deref result "sunset" = some (.finite false sunset) ∧
      (0 ≤ sunrise ∧ sunrise ≤ 24) ∧ (0 ≤ sunset ∧ sunset ≤ 24) := by
  obtain ⟨result, hour, sunrise, sunset, hop, -, hhour, hsunrise, hsunset, hdawn, hdusk⟩ :=
    oscillator_sunrise_and_sunset (fun x => x) (fun x => x)
      sample_range_adjusted_atan2_double sample_oscillator
      (sample_oscillator_inputs_double (.finite false (1 / 4)) (.finite false 1)
        (.finite false 0) (.finite false 0) (.finite false 1))
      sample_oscillator_outputs_double false (1 / 4) _ _ _ _ _ _ _ _ _
      (sample_oscillator_double_construct _ _ _ _ _) rfl rfl rfl rfl rfl rfl rfl rfl rfl rfl
      (by norm_num)
  obtain ⟨r, hr, hr0, hr1, -⟩ := hdawn (884279719003555 / 2 ^ 49)
    sample_range_adjusted_atan2_double_one_zero (by norm_num) (by norm_num)
  obtain ⟨r', hr', hr0', hr1', -⟩ := hdusk 0
    sample_range_adjusted_atan2_double_zero_one (by norm_num) (by norm_num)
  rw [hr] at hsunrise
  rw [hr'] at hsunset
  exact ⟨result, hour, r, r', hop, hhour, hsunrise, hsunset, ⟨hr0, hr1⟩, ⟨hr0', hr1'⟩⟩

end biocro
